import Mathlib

/-!
# gvfs client output stream: wire codec, write state machine, blocking driver

A shallow embedding of `client/gfileoutputstreamdaemon.c`.

Conventions of the embedding

* a byte is a `Nat`; a byte string (`GString`, `char *` region) is a `List Nat`
  whose length is the `len` field; a `GString *` that may be `NULL` is an
  `Option (List Nat)`, `none` being `NULL`;
* `guint32` values are `Nat` reduced modulo `2^32`, `gsize` values are `Nat`
  reduced modulo `2^64` (LP64), `gssize` / `goffset` / `gint` are `Int`;
* the host byte order is an explicit parameter of everything that stores a
  word into memory or loads one from it;
* the numeric constants of `gvfsdaemonprotocol.h` and `gvfserror.h` are not
  part of the sources at hand and are taken as a parameter (`GVfsConstants`).
-/

namespace GVfs

/-! ## Machine words and memory -/

/-- Host byte order (`G_BYTE_ORDER`). -/
inductive ByteOrder where
  | G_LITTLE_ENDIAN
  | G_BIG_ENDIAN
  deriving DecidableEq, Repr

/-- Number of values of a `guint32`. -/
def U32 : Nat := 4294967296

/-- Number of values of a `gsize` (LP64). -/
def GSIZE : Nat := 18446744073709551616

/-- Unsigned subtraction on `gsize`. -/
def gsize_sub (a b : Nat) : Nat := (a % GSIZE + (GSIZE - b % GSIZE)) % GSIZE

/-- Unsigned addition on `gsize`. -/
def gsize_add (a b : Nat) : Nat := (a + b) % GSIZE

/-- Unsigned addition on `guint32`. -/
def u32_add (a b : Nat) : Nat := (a + b) % U32

/-- Conversion of a `guint32` to `gint` (two's complement). -/
def to_gint (x : Nat) : Int :=
  if x % U32 < 2147483648 then ((x % U32 : Nat) : Int) else ((x % U32 : Nat) : Int) - 4294967296

/-- Conversion of an integer to `goffset` (`gint64`, two's complement). -/
def to_goffset (x : Int) : Int :=
  (x + 9223372036854775808) % 18446744073709551616 - 9223372036854775808

/-- The four bytes of a 32-bit word, most significant first. -/
def be32 (x : Nat) : List Nat :=
  [x / 16777216 % 256, x / 65536 % 256, x / 256 % 256, x % 256]

/-- The four bytes of a 32-bit word, least significant first. -/
def le32 (x : Nat) : List Nat :=
  [x % 256, x / 256 % 256, x / 65536 % 256, x / 16777216 % 256]

/-- Reading four bytes as a big-endian 32-bit word. -/
def read_be32 (b : List Nat) : Nat :=
  b.getD 0 0 % 256 * 16777216 + b.getD 1 0 % 256 * 65536 + b.getD 2 0 % 256 * 256
    + b.getD 3 0 % 256

/-- Reading four bytes as a little-endian 32-bit word. -/
def read_le32 (b : List Nat) : Nat :=
  b.getD 3 0 % 256 * 16777216 + b.getD 2 0 % 256 * 65536 + b.getD 1 0 % 256 * 256
    + b.getD 0 0 % 256

/-- Byte swap of a 32-bit word (`GUINT32_SWAP_LE_BE`). -/
def swap32 (x : Nat) : Nat := read_le32 (be32 x)

/-- Host to network order, `g_htonl`: the identity on a big-endian host, a byte swap on
a little-endian one. -/
def g_htonl (host : ByteOrder) (x : Nat) : Nat :=
  match host with
  | .G_BIG_ENDIAN => x % U32
  | .G_LITTLE_ENDIAN => swap32 x

/-- Network to host order, `g_ntohl` (the same operation as `g_htonl`). -/
def g_ntohl (host : ByteOrder) (x : Nat) : Nat := g_htonl host x

/-- The memory image of a `guint32` object on the host. -/
def store32 (host : ByteOrder) (x : Nat) : List Nat :=
  match host with
  | .G_BIG_ENDIAN => be32 x
  | .G_LITTLE_ENDIAN => le32 x

/-- The value of the `guint32` object found at byte offset `off` of a memory region. -/
def load32 (host : ByteOrder) (mem : List Nat) (off : Nat) : Nat :=
  match host with
  | .G_BIG_ENDIAN => read_be32 (mem.drop off)
  | .G_LITTLE_ENDIAN => read_le32 (mem.drop off)

/-- The bytes of an ASCII string constant. -/
def ascii (s : String) : List Nat := s.toList.map Char.toNat

/-- A C string read at the start of a region: the bytes before the first NUL.  The end of
the region stands for the NUL that terminates every `GString`. -/
def cstring (mem : List Nat) : List Nat := mem.takeWhile (fun b => b != 0)

/-! ## Constants of the protocol headers -/

/-- The constants of `gvfsdaemonprotocol.h` and `gvfserror.h` used by the stream. -/
structure GVfsConstants where
  REQUEST_WRITE : Nat
  REQUEST_CLOSE : Nat
  REQUEST_CANCEL : Nat
  REQUEST_SEEK_SET : Nat
  REQUEST_SEEK_CUR : Nat
  REQUEST_SEEK_END : Nat
  REPLY_ERROR : Nat
  REPLY_WRITTEN : Nat
  REPLY_CLOSED : Nat
  REPLY_SEEK_POS : Nat
  G_VFS_ERROR : List Nat
  G_VFS_ERROR_CANCELLED : Int
  G_VFS_ERROR_NOT_SUPPORTED : Int
  G_FILE_ERROR : List Nat
  G_FILE_ERROR_IO_CODE : Int

/-- Modelled from the spec: `G_VFS_DAEMON_SOCKET_PROTOCOL_REQUEST_SIZE` of the absent
`gvfsdaemonprotocol.h`; a request header is five 32-bit words. -/
def REQUEST_SIZE : Nat := 20

/-- Modelled from the spec: `G_VFS_DAEMON_SOCKET_PROTOCOL_REPLY_SIZE` of the absent
`gvfsdaemonprotocol.h`; a reply header is four 32-bit words. -/
def REPLY_SIZE : Nat := 16

/-- Per-write cap, `MAX_WRITE_SIZE`. -/
def MAX_WRITE_SIZE : Nat := 4 * 1024 * 1024

/-- One assignment of the header constants, used for concrete runs. -/
def sampleConstants : GVfsConstants where
  REQUEST_WRITE := 1
  REQUEST_CLOSE := 2
  REQUEST_CANCEL := 3
  REQUEST_SEEK_SET := 4
  REQUEST_SEEK_CUR := 6
  REQUEST_SEEK_END := 5
  REPLY_ERROR := 1
  REPLY_WRITTEN := 3
  REPLY_CLOSED := 4
  REPLY_SEEK_POS := 2
  G_VFS_ERROR := ascii "g-vfs-error-quark"
  G_VFS_ERROR_CANCELLED := 19
  G_VFS_ERROR_NOT_SUPPORTED := 15
  G_FILE_ERROR := ascii "g-file-error-quark"
  G_FILE_ERROR_IO_CODE := 21

/-! ## Stream object and wire structures -/

/-- The type `GError`: domain (the string behind the quark), code and message. -/
structure GError where
  domain : List Nat
  code : Int
  message : List Nat
  deriving DecidableEq, Repr

/-- The type `struct _GFileOutputStreamDaemon`, without the two channel objects.  The field
`input_buffer` is a `GString *` that no statement of the file assigns: `none` is the `NULL`
pointer, `some bytes` a pointer to a string with these bytes.  The field `output_buffer` is
assigned by the instance initialiser and is given by the bytes of its string. -/
structure GFileOutputStreamDaemon where
  can_seek : Bool
  seq_nr : Nat
  current_offset : Int
  input_buffer : Option (List Nat)
  output_buffer : List Nat
  deriving DecidableEq, Repr

/-- The type `GVfsDaemonSocketProtocolReply`, in host order. -/
structure GVfsDaemonSocketProtocolReply where
  type : Nat
  seq_nr : Nat
  arg1 : Nat
  arg2 : Nat
  deriving DecidableEq, Repr

/-- The type `GVfsDaemonSocketProtocolRequest` as `append_request` fills it: the value held by each
of the five `guint32` fields. -/
structure GVfsDaemonSocketProtocolRequest where
  command : Nat
  seq_nr : Nat
  arg1 : Nat
  arg2 : Nat
  data_len : Nat
  deriving DecidableEq, Repr

/-- The memory image `(char *)&cmd` of a request structure on the host. -/
def GVfsDaemonSocketProtocolRequest.bytes (host : ByteOrder)
    (cmd : GVfsDaemonSocketProtocolRequest) : List Nat :=
  store32 host cmd.command ++ store32 host cmd.seq_nr ++ store32 host cmd.arg1
    ++ store32 host cmd.arg2 ++ store32 host cmd.data_len

/-- The function `g_string_append_len`. -/
def g_string_append_len (s : List Nat) (val : List Nat) (len : Nat) : List Nat :=
  s ++ val.take len

/-- The function `g_string_truncate`. -/
def g_string_truncate (s : List Nat) (len : Nat) : List Nat := s.take len

/-- The function `g_string_set_size`: cuts the string, or lengthens it; the bytes a lengthening exposes
are not initialised, `stale i` stands for what the allocation holds at index `i`. -/
def g_string_set_size (stale : Nat → Nat) (s : List Nat) (len : Nat) : List Nat :=
  if len ≤ s.length then s.take len
  else s ++ (List.range (len - s.length)).map (fun i => stale (s.length + i))

/-! ## Wire codec -/

/-- The structure `append_request` builds before copying it out. -/
def request_struct (host : ByteOrder) (stream_seq_nr command arg1 arg2 data_len : Nat) :
    GVfsDaemonSocketProtocolRequest where
  command := g_htonl host command
  seq_nr := g_htonl host stream_seq_nr
  arg1 := g_htonl host arg1
  arg2 := g_htonl host arg2
  data_len := data_len % U32

/-- The function `append_request`: returns the stream and the value stored through `seq_nr`. -/
def append_request (host : ByteOrder) (stream : GFileOutputStreamDaemon)
    (command arg1 arg2 data_len : Nat) : GFileOutputStreamDaemon × Nat :=
  let seq_nr := stream.seq_nr
  let cmd := request_struct host stream.seq_nr command arg1 arg2 data_len
  ({ stream with
      seq_nr := u32_add stream.seq_nr 1
      output_buffer := g_string_append_len stream.output_buffer (cmd.bytes host) REQUEST_SIZE },
   seq_nr)

/-- The function `get_reply_header_missing_bytes`.  `REPLY_SIZE + arg2` is computed on `guint32`, the
subtractions on `gsize`. -/
def get_reply_header_missing_bytes (K : GVfsConstants) (host : ByteOrder)
    (buffer : List Nat) : Nat :=
  if buffer.length < REPLY_SIZE then gsize_sub REPLY_SIZE buffer.length
  else
    let type := g_ntohl host (load32 host buffer 0)
    let arg2 := g_ntohl host (load32 host buffer 12)
    if type = K.REPLY_ERROR then gsize_sub (u32_add REPLY_SIZE arg2) buffer.length
    else 0

/-- The function `decode_reply`: the decoded header and the region starting at the returned pointer. -/
def decode_reply (host : ByteOrder) (buffer : List Nat) :
    GVfsDaemonSocketProtocolReply × List Nat :=
  ({ type := g_ntohl host (load32 host buffer 0)
     seq_nr := g_ntohl host (load32 host buffer 4)
     arg1 := g_ntohl host (load32 host buffer 8)
     arg2 := g_ntohl host (load32 host buffer 12) },
   buffer.drop REPLY_SIZE)

/-- Expansion of a `printf` format that is given no arguments: ordinary bytes are copied,
`%%` yields one `%`, and any other directive would fetch an argument that was never
passed, which C leaves undefined (`none`). -/
def format_noargs : List Nat → Option (List Nat)
  | [] => some []
  | 37 :: 37 :: rest => (format_noargs rest).map (fun r => 37 :: r)
  | 37 :: _ => none
  | c :: rest => (format_noargs rest).map (fun r => c :: r)

/-- The function `g_set_error (error, domain, code, format)` called without variadic arguments. -/
def g_set_error_noargs (domain : List Nat) (code : Int) (format : List Nat) : Option GError :=
  (format_noargs format).map (fun m => { domain := domain, code := code, message := m })

/-- The function `decode_error`: the domain is the C string at `data`, the text after its NUL is handed
to `g_set_error` as the format. -/
def decode_error (reply : GVfsDaemonSocketProtocolReply) (data : List Nat) : Option GError :=
  g_set_error_noargs (cstring data) (to_gint reply.arg1)
    (cstring (data.drop ((cstring data).length + 1)))

/-! ## Operation state machines -/

/-- The type `StateOp`: the I/O step a state machine asks its driver to perform. -/
inductive StateOp where
  | STATE_OP_DONE
  | STATE_OP_READ
  | STATE_OP_WRITE
  | STATE_OP_SKIP
  deriving DecidableEq, Repr

/-- The type `WriteState`. -/
inductive WriteState where
  | WRITE_STATE_INIT
  | WRITE_STATE_WROTE_COMMAND
  | WRITE_STATE_SEND_DATA
  | WRITE_STATE_HANDLE_INPUT
  deriving DecidableEq, Repr

/-- The `char *io_buffer` of a step.  A pointer the driver reads from (`output_buffer->str`,
`op->buffer + op->buffer_pos`) is given by the bytes found at it; a pointer the driver
stores to is an offset into `input_buffer->str`. -/
inductive IOBuffer where
  | null
  | source (bytes : List Nat)
  | input_str (offset : Nat)
  deriving DecidableEq, Repr

/-- The type `WriteOperation`; `buffer` is the caller's memory at the `buffer` pointer. -/
structure WriteOperation where
  state : WriteState
  buffer : List Nat
  buffer_size : Nat
  buffer_pos : Nat
  ret_val : Int
  ret_error : Option GError
  sent_cancel : Bool
  seq_nr : Nat
  deriving DecidableEq, Repr

/-- The type `IOOperationData`. -/
structure IOOperationData where
  cancelled : Bool
  io_buffer : IOBuffer
  io_size : Nat
  io_res : Nat
  io_allow_cancel : Bool
  io_cancelled : Bool
  deriving DecidableEq, Repr

/-- Result of one pass through the `switch` of a state machine: a `return`, a `break` that
goes round the `while (TRUE)` loop again, or a fault: the pass dereferences the `NULL`
pointer found in `input_buffer`, after which the call has no defined behaviour and does not
return. -/
inductive Pass (σ : Type) where
  | ret (step : StateOp) (s : σ)
  | again (s : σ)
  | fault

/-- The text of `_("Operation was cancelled")`. -/
def MSG_CANCELLED : List Nat := ascii "Operation was cancelled"

/-- The memory configuration a state machine works on: stream, step descriptor, operation. -/
abbrev WriteConf := GFileOutputStreamDaemon × IOOperationData × WriteOperation

/-- The statements of every `HANDLE_INPUT` case that take the bytes a short read did not
deliver off the end of the input buffer, on the bytes of a buffer that is not `NULL`:
`if (io_op->io_res > 0) { unread_size = io_size - io_res; g_string_set_size (...); }`. -/
def drop_unread (stale : Nat → Nat) (input_buffer : List Nat)
    (io_op : IOOperationData) : List Nat :=
  if io_op.io_res > 0 then
    let unread_size := gsize_sub io_op.io_size io_op.io_res
    g_string_set_size stale input_buffer (gsize_sub input_buffer.length unread_size)
  else input_buffer

/-- One pass through the `switch (op->state)` of `iterate_write_state_machine`. -/
def write_switch (K : GVfsConstants) (host : ByteOrder) (stale : Nat → Nat) :
    WriteConf → Pass WriteConf
  | (file, io_op, op) =>
    match op.state with
    | .WRITE_STATE_INIT =>
      let r := append_request host file K.REQUEST_WRITE op.buffer_size 0 op.buffer_size
      .ret .STATE_OP_WRITE
        (r.1,
         { io_op with
            io_buffer := .source r.1.output_buffer
            io_size := r.1.output_buffer.length
            io_allow_cancel := true },
         { op with seq_nr := r.2, state := .WRITE_STATE_WROTE_COMMAND })
    | .WRITE_STATE_WROTE_COMMAND =>
      if io_op.io_cancelled then
        .ret .STATE_OP_DONE
          (file, io_op,
           { op with
              ret_val := -1
              ret_error := some { domain := K.G_VFS_ERROR, code := K.G_VFS_ERROR_CANCELLED,
                                  message := MSG_CANCELLED } })
      else if io_op.io_res < file.output_buffer.length then
        -- memcpy of the unsent tail to the front, then g_string_truncate to its length
        let file1 := { file with output_buffer := file.output_buffer.drop io_op.io_res }
        .ret .STATE_OP_WRITE
          (file1,
           { io_op with
              io_buffer := .source file1.output_buffer
              io_size := file1.output_buffer.length
              io_allow_cancel := false },
           op)
      else
        .again
          ({ file with output_buffer := g_string_truncate file.output_buffer 0 },
           io_op,
           { op with
              buffer_pos := 0
              state := if op.sent_cancel then .WRITE_STATE_HANDLE_INPUT
                       else .WRITE_STATE_SEND_DATA })
    | .WRITE_STATE_SEND_DATA =>
      let pos := gsize_add op.buffer_pos io_op.io_res
      if pos < op.buffer_size then
        .ret .STATE_OP_WRITE
          (file,
           { io_op with
              io_buffer := .source (op.buffer.drop pos)
              io_size := gsize_sub op.buffer_size pos
              io_allow_cancel := false },
           { op with buffer_pos := pos })
      else
        .again (file, io_op, { op with buffer_pos := pos, state := .WRITE_STATE_HANDLE_INPUT })
    | .WRITE_STATE_HANDLE_INPUT =>
      if io_op.cancelled && !op.sent_cancel then
        let r := append_request host file K.REQUEST_CANCEL op.seq_nr 0 0
        .ret .STATE_OP_WRITE
          (r.1,
           { io_op with
              io_buffer := .source r.1.output_buffer
              io_size := r.1.output_buffer.length
              io_allow_cancel := false },
           { op with sent_cancel := true, state := .WRITE_STATE_WROTE_COMMAND })
      else
        -- every statement from here on reads through `file->input_buffer`
        match file.input_buffer with
        | none => .fault
        | some input_buffer =>
          let input1 := drop_unread stale input_buffer io_op
          let len := get_reply_header_missing_bytes K host input1
          if len > 0 then
            let current_len := input1.length
            .ret .STATE_OP_READ
              ({ file with
                  input_buffer := some (g_string_set_size stale input1
                    (gsize_add current_len len)) },
               { io_op with
                  io_buffer := .input_str current_len
                  io_size := len
                  io_allow_cancel := !op.sent_cancel },
               op)
          else
            let d := decode_reply host input1
            if d.1.type = K.REPLY_ERROR ∧ d.1.seq_nr = op.seq_nr then
              .ret .STATE_OP_DONE
                ({ file with input_buffer := some (g_string_truncate input1 0) },
                 io_op,
                 { op with ret_val := -1, ret_error := decode_error d.1 d.2 })
            else if d.1.type = K.REPLY_WRITTEN then
              .ret .STATE_OP_DONE
                ({ file with input_buffer := some (g_string_truncate input1 0) },
                 io_op,
                 { op with ret_val := (d.1.arg1 : Int) })
            else
              .again
                ({ file with input_buffer := some (g_string_truncate input1 0) },
                 io_op,
                 { op with state := .WRITE_STATE_HANDLE_INPUT })

/-- The statements after the `switch`: "Clear io_op between non-op state switches". -/
def clear_io_op (io_op : IOOperationData) : IOOperationData :=
  { io_op with io_size := 0, io_res := 0, io_cancelled := false }

/-- The `while (TRUE)` loop of `iterate_write_state_machine`, cut after `fuel` passes.  `none`:
the call has not returned, because a pass faulted or because the passes allowed are used
up. -/
def iterate_write_loop (K : GVfsConstants) (host : ByteOrder) (stale : Nat → Nat) :
    Nat → WriteConf → Option (StateOp × WriteConf)
  | 0, _ => none
  | fuel + 1, s =>
    match write_switch K host stale s with
    | .ret step s1 => some (step, s1)
    | .again (file, io_op, op) =>
      iterate_write_loop K host stale fuel (file, clear_io_op io_op, op)
    | .fault => none

/-- The function `iterate_write_state_machine`: one call, up to its `return`. -/
def iterate_write_state_machine (K : GVfsConstants) (host : ByteOrder) (stale : Nat → Nat)
    (s : WriteConf) : Option (StateOp × WriteConf) :=
  iterate_write_loop K host stale 8 s

/-- The type `CloseState`. -/
inductive CloseState where
  | CLOSE_STATE_INIT
  | CLOSE_STATE_WROTE_REQUEST
  | CLOSE_STATE_HANDLE_INPUT
  deriving DecidableEq, Repr

/-- The type `CloseOperation`; the `gboolean ret_val` is held as the `int` it is. -/
structure CloseOperation where
  state : CloseState
  ret_val : Int
  ret_error : Option GError
  sent_cancel : Bool
  seq_nr : Nat
  deriving DecidableEq, Repr

/-- The memory configuration the close state machine works on. -/
abbrev CloseConf := GFileOutputStreamDaemon × IOOperationData × CloseOperation

/-- One pass through the `switch (op->state)` of `iterate_close_state_machine`. -/
def close_switch (K : GVfsConstants) (host : ByteOrder) (stale : Nat → Nat) :
    CloseConf → Pass CloseConf
  | (file, io_op, op) =>
    match op.state with
    | .CLOSE_STATE_INIT =>
      let r := append_request host file K.REQUEST_CLOSE 0 0 0
      .ret .STATE_OP_WRITE
        (r.1,
         { io_op with
            io_buffer := .source r.1.output_buffer
            io_size := r.1.output_buffer.length
            io_allow_cancel := true },
         { op with seq_nr := r.2, state := .CLOSE_STATE_WROTE_REQUEST })
    | .CLOSE_STATE_WROTE_REQUEST =>
      if io_op.io_cancelled then
        .ret .STATE_OP_DONE
          (file, io_op,
           { op with
              ret_val := 0
              ret_error := some { domain := K.G_VFS_ERROR, code := K.G_VFS_ERROR_CANCELLED,
                                  message := MSG_CANCELLED } })
      else if io_op.io_res < file.output_buffer.length then
        let file1 := { file with output_buffer := file.output_buffer.drop io_op.io_res }
        .ret .STATE_OP_WRITE
          (file1,
           { io_op with
              io_buffer := .source file1.output_buffer
              io_size := file1.output_buffer.length
              io_allow_cancel := false },
           op)
      else
        .again
          ({ file with output_buffer := g_string_truncate file.output_buffer 0 },
           io_op,
           { op with state := .CLOSE_STATE_HANDLE_INPUT })
    | .CLOSE_STATE_HANDLE_INPUT =>
      if io_op.cancelled && !op.sent_cancel then
        let r := append_request host file K.REQUEST_CANCEL op.seq_nr 0 0
        .ret .STATE_OP_WRITE
          (r.1,
           { io_op with
              io_buffer := .source r.1.output_buffer
              io_size := r.1.output_buffer.length
              io_allow_cancel := false },
           { op with sent_cancel := true, state := .CLOSE_STATE_WROTE_REQUEST })
      else
        -- every statement from here on reads through `file->input_buffer`
        match file.input_buffer with
        | none => .fault
        | some input_buffer =>
          let input1 := drop_unread stale input_buffer io_op
          let len := get_reply_header_missing_bytes K host input1
          if len > 0 then
            let current_len := input1.length
            .ret .STATE_OP_READ
              ({ file with
                  input_buffer := some (g_string_set_size stale input1
                    (gsize_add current_len len)) },
               { io_op with
                  io_buffer := .input_str current_len
                  io_size := len
                  io_allow_cancel := !op.sent_cancel },
               op)
          else
            let d := decode_reply host input1
            if d.1.type = K.REPLY_ERROR ∧ d.1.seq_nr = op.seq_nr then
              .ret .STATE_OP_DONE
                ({ file with input_buffer := some (g_string_truncate input1 0) },
                 io_op,
                 { op with ret_val := 0, ret_error := decode_error d.1 d.2 })
            else if d.1.type = K.REPLY_CLOSED then
              .ret .STATE_OP_DONE
                ({ file with input_buffer := some (g_string_truncate input1 0) },
                 io_op,
                 { op with ret_val := 1 })
            else
              .again
                ({ file with input_buffer := some (g_string_truncate input1 0) },
                 io_op,
                 { op with state := .CLOSE_STATE_HANDLE_INPUT })

/-- The `while (TRUE)` loop of `iterate_close_state_machine`, cut after `fuel` passes.  `none`:
the call has not returned, because a pass faulted or because the passes allowed are used
up. -/
def iterate_close_loop (K : GVfsConstants) (host : ByteOrder) (stale : Nat → Nat) :
    Nat → CloseConf → Option (StateOp × CloseConf)
  | 0, _ => none
  | fuel + 1, s =>
    match close_switch K host stale s with
    | .ret step s1 => some (step, s1)
    | .again (file, io_op, op) =>
      iterate_close_loop K host stale fuel (file, clear_io_op io_op, op)
    | .fault => none

/-- The function `iterate_close_state_machine`: one call, up to its `return`. -/
def iterate_close_state_machine (K : GVfsConstants) (host : ByteOrder) (stale : Nat → Nat)
    (s : CloseConf) : Option (StateOp × CloseConf) :=
  iterate_close_loop K host stale 8 s

/-- Modelled from the spec: the three values of `GSeekType`, whose header is not part of the
sources at hand. -/
inductive GSeekType where
  | G_SEEK_CUR
  | G_SEEK_SET
  | G_SEEK_END
  deriving DecidableEq, Repr

/-- The type `SeekState`. -/
inductive SeekState where
  | SEEK_STATE_INIT
  | SEEK_STATE_WROTE_REQUEST
  | SEEK_STATE_HANDLE_INPUT
  deriving DecidableEq, Repr

/-- The type `SeekOperation`; the `gboolean ret_val` is held as the `int` it is. -/
structure SeekOperation where
  state : SeekState
  offset : Int
  seek_type : GSeekType
  ret_val : Int
  ret_error : Option GError
  ret_offset : Int
  sent_cancel : Bool
  seq_nr : Nat
  deriving DecidableEq, Repr

/-- The memory configuration the seek state machine works on. -/
abbrev SeekConf := GFileOutputStreamDaemon × IOOperationData × SeekOperation

/-- The request code `SEEK_STATE_INIT` selects for a seek type. -/
def seek_request (K : GVfsConstants) (seek_type : GSeekType) : Nat :=
  if seek_type = .G_SEEK_CUR then K.REQUEST_SEEK_CUR
  else if seek_type = .G_SEEK_END then K.REQUEST_SEEK_END
  else K.REQUEST_SEEK_SET

/-- The expression `op->offset & 0xffffffff` as the `guint32` argument it becomes. -/
def offset_low (offset : Int) : Nat := (offset % 4294967296).toNat

/-- The expression `op->offset >> 32` (an arithmetic shift) as the `guint32` argument it becomes. -/
def offset_high (offset : Int) : Nat := ((offset / 4294967296) % 4294967296).toNat

/-- The expression `((goffset)reply.arg2) << 32 | (goffset)reply.arg1`, on two's complement. -/
def seek_pos_offset (reply : GVfsDaemonSocketProtocolReply) : Int :=
  to_goffset (((reply.arg2 % U32 : Nat) : Int) * 4294967296 + ((reply.arg1 % U32 : Nat) : Int))

/-- One pass through the `switch (op->state)` of `iterate_seek_state_machine`. -/
def seek_switch (K : GVfsConstants) (host : ByteOrder) (stale : Nat → Nat) :
    SeekConf → Pass SeekConf
  | (file, io_op, op) =>
    match op.state with
    | .SEEK_STATE_INIT =>
      let request := seek_request K op.seek_type
      let r := append_request host file request (offset_low op.offset) (offset_high op.offset) 0
      .ret .STATE_OP_WRITE
        (r.1,
         { io_op with
            io_buffer := .source r.1.output_buffer
            io_size := r.1.output_buffer.length
            io_allow_cancel := true },
         { op with seq_nr := r.2, state := .SEEK_STATE_WROTE_REQUEST })
    | .SEEK_STATE_WROTE_REQUEST =>
      if io_op.io_cancelled then
        .ret .STATE_OP_DONE
          (file, io_op,
           { op with
              ret_val := -1
              ret_error := some { domain := K.G_VFS_ERROR, code := K.G_VFS_ERROR_CANCELLED,
                                  message := MSG_CANCELLED } })
      else if io_op.io_res < file.output_buffer.length then
        let file1 := { file with output_buffer := file.output_buffer.drop io_op.io_res }
        .ret .STATE_OP_WRITE
          (file1,
           { io_op with
              io_buffer := .source file1.output_buffer
              io_size := file1.output_buffer.length
              io_allow_cancel := false },
           op)
      else
        .again
          ({ file with output_buffer := g_string_truncate file.output_buffer 0 },
           io_op,
           { op with state := .SEEK_STATE_HANDLE_INPUT })
    | .SEEK_STATE_HANDLE_INPUT =>
      if io_op.cancelled && !op.sent_cancel then
        let r := append_request host file K.REQUEST_CANCEL op.seq_nr 0 0
        .ret .STATE_OP_WRITE
          (r.1,
           { io_op with
              io_buffer := .source r.1.output_buffer
              io_size := r.1.output_buffer.length
              io_allow_cancel := false },
           { op with sent_cancel := true, state := .SEEK_STATE_WROTE_REQUEST })
      else
        -- every statement from here on reads through `file->input_buffer`
        match file.input_buffer with
        | none => .fault
        | some input_buffer =>
          let input1 := drop_unread stale input_buffer io_op
          let len := get_reply_header_missing_bytes K host input1
          if len > 0 then
            let current_len := input1.length
            .ret .STATE_OP_READ
              ({ file with
                  input_buffer := some (g_string_set_size stale input1
                    (gsize_add current_len len)) },
               { io_op with
                  io_buffer := .input_str current_len
                  io_size := len
                  io_allow_cancel := !op.sent_cancel },
               op)
          else
            let d := decode_reply host input1
            if d.1.type = K.REPLY_ERROR ∧ d.1.seq_nr = op.seq_nr then
              .ret .STATE_OP_DONE
                ({ file with input_buffer := some (g_string_truncate input1 0) },
                 io_op,
                 { op with ret_val := 0, ret_error := decode_error d.1 d.2 })
            else if d.1.type = K.REPLY_SEEK_POS then
              .ret .STATE_OP_DONE
                ({ file with input_buffer := some (g_string_truncate input1 0) },
                 io_op,
                 { op with ret_val := 1, ret_offset := seek_pos_offset d.1 })
            else
              .again
                ({ file with input_buffer := some (g_string_truncate input1 0) },
                 io_op,
                 { op with state := .SEEK_STATE_HANDLE_INPUT })

/-- The `while (TRUE)` loop of `iterate_seek_state_machine`, cut after `fuel` passes.  `none`:
the call has not returned, because a pass faulted or because the passes allowed are used
up. -/
def iterate_seek_loop (K : GVfsConstants) (host : ByteOrder) (stale : Nat → Nat) :
    Nat → SeekConf → Option (StateOp × SeekConf)
  | 0, _ => none
  | fuel + 1, s =>
    match seek_switch K host stale s with
    | .ret step s1 => some (step, s1)
    | .again (file, io_op, op) =>
      iterate_seek_loop K host stale fuel (file, clear_io_op io_op, op)
    | .fault => none

/-- The function `iterate_seek_state_machine`: one call, up to its `return`. -/
def iterate_seek_state_machine (K : GVfsConstants) (host : ByteOrder) (stale : Nat → Nat)
    (s : SeekConf) : Option (StateOp × SeekConf) :=
  iterate_seek_loop K host stale 8 s

/-! ## Blocking driver -/

/-- What one blocking call on a channel reports: a byte count (for a read together with the
bytes stored at `io_buffer`), or -1 with an error. -/
inductive IOResult where
  | wrote (count : Nat)
  | read (data : List Nat)
  | error (e : GError)
  deriving DecidableEq, Repr

/-- What the environment contributes to one round of the driver loop: the value of
`g_cancellable_is_cancelled` at the top of the loop, and the outcome of the I/O call. -/
structure DriverEvent where
  cancelled : Bool
  result : IOResult
  deriving DecidableEq, Repr

/-- The bytes at a pointer the driver reads from. -/
def IOBuffer.bytes : IOBuffer → List Nat
  | .null => []
  | .source b => b
  | .input_str _ => []

/-- One I/O call made by a driver: which call, the `io_size` passed, whether the
cancellable was passed (rather than `NULL`), and for a write the bytes offered. -/
structure IOStep where
  kind : StateOp
  size : Nat
  with_cancellable : Bool
  offered : List Nat
  deriving DecidableEq, Repr

/-- What the embedding records of the two channels: every byte the command channel has
accepted, in order, and every I/O call made on either channel, in order. -/
structure Channels where
  wire : List Nat
  steps : List IOStep
  deriving DecidableEq, Repr

/-- The record of the call a driver makes for a step. -/
def io_step (step : StateOp) (io_op : IOOperationData) (cancellable : Bool) : IOStep :=
  { kind := step
    size := io_op.io_size
    with_cancellable := io_op.io_allow_cancel && cancellable
    offered := match step with
               | .STATE_OP_WRITE => io_op.io_buffer.bytes.take io_op.io_size
               | _ => [] }

/-- The channels after a call that made the command channel accept `accepted`. -/
def Channels.record (ch : Channels) (step : IOStep) (accepted : List Nat) : Channels :=
  { wire := ch.wire ++ accepted, steps := ch.steps ++ [step] }

/-- Storing `data` at offset `off` of a byte string (what a read into `io_buffer` does). -/
def store_at (s : List Nat) (off : Nat) (data : List Nat) : List Nat :=
  s.take off ++ data ++ s.drop (off + data.length)

/-- The function `error_is_cancel`. -/
def error_is_cancel (K : GVfsConstants) (error : Option GError) : Bool :=
  match error with
  | none => false
  | some e => e.domain = K.G_VFS_ERROR && e.code = K.G_VFS_ERROR_CANCELLED

/-- The error both drivers raise for a failed I/O call. -/
def protocol_error (K : GVfsConstants) (message : List Nat) : GError :=
  { domain := K.G_FILE_ERROR, code := K.G_FILE_ERROR_IO_CODE,
    message := ascii "Error in stream protocol: " ++ message }

/-- The I/O call of one driver round: `g_input_stream_read`, `g_input_stream_skip` or
`g_output_stream_write` on the channel.  A channel never reports more than `io_size`
bytes.  Yields the call's `res` (-1 with the error, or the count), the stream with the
bytes a read stored, and the bytes the command channel accepted. -/
def perform_io (step : StateOp) (file : GFileOutputStreamDaemon) (io_op : IOOperationData)
    (result : IOResult) : (Int × Option GError) × GFileOutputStreamDaemon × List Nat :=
  match result with
  | .error e => ((-1, some e), file, [])
  | .wrote n =>
    let res := min n io_op.io_size
    match step with
    | .STATE_OP_WRITE => (((res : Nat), none), file, (io_op.io_buffer.bytes.take res))
    | _ => (((res : Nat), none), file, [])
  | .read data =>
    let d := data.take io_op.io_size
    match step, io_op.io_buffer with
    | .STATE_OP_READ, .input_str off =>
      (((d.length : Nat), none),
       { file with input_buffer := file.input_buffer.map (fun b => store_at b off d) }, [])
    | .STATE_OP_WRITE, _ => (((d.length : Nat), none), file, (io_op.io_buffer.bytes.take d.length))
    | _, _ => (((d.length : Nat), none), file, [])

/-- Outcome of a driver run: the `gboolean` result, the error stored through `error`, and the
final memory and channel state. -/
structure DriverOutcome (Op : Type) where
  ok : Bool
  error : Option GError
  file : GFileOutputStreamDaemon
  op : Op
  chan : Channels

/-- What a driver holds between two rounds of its loop: stream, step descriptor, operation
record, and the record of the channels. -/
structure DriverState (Op : Type) where
  file : GFileOutputStreamDaemon
  io_data : IOOperationData
  data : Op
  chan : Channels

/-- The top of the loop of `run_sync_state_machine`:
`if (cancellable) io_data.cancelled = g_cancellable_is_cancelled (cancellable);`. -/
def poll_cancellable (cancellable : Bool) (flag : Bool) (io_data : IOOperationData) :
    IOOperationData :=
  if cancellable then { io_data with cancelled := flag } else io_data

/-- One round of the `while (TRUE)` loop of `run_sync_state_machine`: the loop returns
(`inl`), or goes round again (`inr`).  `none`: the iterator did not return. -/
def sync_round {Op : Type} (K : GVfsConstants)
    (iterator : GFileOutputStreamDaemon × IOOperationData × Op →
      Option (StateOp × (GFileOutputStreamDaemon × IOOperationData × Op)))
    (cancellable : Bool) (ev : DriverEvent) (s : DriverState Op) :
    Option (DriverOutcome Op ⊕ DriverState Op) :=
  let io_data1 := poll_cancellable cancellable ev.cancelled s.io_data
  match iterator (s.file, io_data1, s.data) with
  | none => none
  | some (.STATE_OP_DONE, (file1, _, data1)) =>
    some (.inl { ok := true, error := none, file := file1, op := data1, chan := s.chan })
  | some (io_op, (file1, io_data2, data1)) =>
    let r := perform_io io_op file1 io_data2 ev.result
    let chan1 := s.chan.record (io_step io_op io_data2 cancellable) r.2.2
    if r.1.1 = -1 then
      if error_is_cancel K r.1.2 then
        some (.inr { file := r.2.1, io_data := { io_data2 with io_res := 0, io_cancelled := true }
                     data := data1, chan := chan1 })
      else
        some (.inl { ok := false
                     error := some (protocol_error K (match r.1.2 with
                                                      | some e => e.message
                                                      | none => []))
                     file := r.2.1, op := data1, chan := chan1 })
    else if r.1.1 = 0 ∧ io_data2.io_size ≠ 0 then
      some (.inl { ok := false, error := some (protocol_error K (ascii "End of stream"))
                   file := r.2.1, op := data1, chan := chan1 })
    else
      some (.inr { file := r.2.1
                   io_data := { io_data2 with io_res := r.1.1.toNat, io_cancelled := false }
                   data := data1, chan := chan1 })

/-- The `while (TRUE)` loop of `run_sync_state_machine`.  Each round takes one event; a run
that needs more rounds than there are events has no outcome. -/
def run_sync_loop {Op : Type} (K : GVfsConstants)
    (iterator : GFileOutputStreamDaemon × IOOperationData × Op →
      Option (StateOp × (GFileOutputStreamDaemon × IOOperationData × Op)))
    (cancellable : Bool) : List DriverEvent → DriverState Op → Option (DriverOutcome Op)
  | [], _ => none
  | ev :: rest, s =>
    match sync_round K iterator cancellable ev s with
    | none => none
    | some (.inl out) => some out
    | some (.inr s1) => run_sync_loop K iterator cancellable rest s1

/-- The state of the blocking driver at the top of its loop after the rounds that `events`
drive, when the loop is still running then. -/
def run_sync_rounds {Op : Type} (K : GVfsConstants)
    (iterator : GFileOutputStreamDaemon × IOOperationData × Op →
      Option (StateOp × (GFileOutputStreamDaemon × IOOperationData × Op)))
    (cancellable : Bool) : List DriverEvent → DriverState Op → Option (DriverState Op)
  | [], s => some s
  | ev :: rest, s =>
    match sync_round K iterator cancellable ev s with
    | some (.inr s1) => run_sync_rounds K iterator cancellable rest s1
    | _ => none

/-- A reply header as the peer puts it on the wire: four words in network order. -/
def reply_header (type seq_nr arg1 arg2 : Nat) : List Nat :=
  be32 type ++ be32 seq_nr ++ be32 arg1 ++ be32 arg2

/-- What the write state machine does when it is first called after the last payload byte of
an `n`-byte write on `file` was accepted, the input buffer being `NULL`: with the
cancellation flag seen set it returns a write step for a CANCEL request; otherwise it
does not return (`none`). -/
def await_first (K : GVfsConstants) (host : ByteOrder) (stale : Nat → Nat)
    (file : GFileOutputStreamDaemon) (buffer : List Nat) (n : Nat) (cancelled : Bool) :
    Option (StateOp × WriteConf) :=
  if cancelled then
    some (.STATE_OP_WRITE,
      ((append_request host
          { file with seq_nr := (file.seq_nr + 1) % 4294967296, output_buffer := [] }
          K.REQUEST_CANCEL file.seq_nr 0 0).1,
       { cancelled := true
         io_buffer := .source (append_request host
          { file with seq_nr := (file.seq_nr + 1) % 4294967296, output_buffer := [] }
          K.REQUEST_CANCEL file.seq_nr 0 0).1.output_buffer
         io_size := (append_request host
          { file with seq_nr := (file.seq_nr + 1) % 4294967296, output_buffer := [] }
          K.REQUEST_CANCEL file.seq_nr 0 0).1.output_buffer.length
         io_res := 0, io_allow_cancel := false, io_cancelled := false },
       { state := .WRITE_STATE_WROTE_COMMAND, buffer := buffer, buffer_size := n
         buffer_pos := n, ret_val := 0, ret_error := none, sent_cancel := true
         seq_nr := file.seq_nr }))
  else none

/-- Events of a command channel that accepts the writes offered to it in the given chunks;
each chunk comes with the state of the cancellable in that round. -/
def write_events (chunks : List (Bool × Nat)) : List DriverEvent :=
  chunks.map (fun p => { cancelled := p.1, result := .wrote p.2 })

/-- The zeroed `IOOperationData` of `memset (&io_data, 0, sizeof (io_data))`. -/
def io_data_zero : IOOperationData :=
  { cancelled := false, io_buffer := .null, io_size := 0, io_res := 0,
    io_allow_cancel := false, io_cancelled := false }

/-- The function `run_sync_state_machine`. -/
def run_sync_state_machine {Op : Type} (K : GVfsConstants)
    (iterator : GFileOutputStreamDaemon × IOOperationData × Op →
      Option (StateOp × (GFileOutputStreamDaemon × IOOperationData × Op)))
    (file : GFileOutputStreamDaemon) (data : Op) (cancellable : Bool)
    (events : List DriverEvent) (chan : Channels) : Option (DriverOutcome Op) :=
  run_sync_loop K iterator cancellable events
    { file := file, io_data := io_data_zero, data := data, chan := chan }

/-! ## Cooperative driver -/

/-- What `async_iterator_done` hands to the `done_cb`: the driver's `io_error`, and the
memory and channel state at that moment. -/
structure AsyncOutcome (Op : Type) where
  io_error : Option GError
  file : GFileOutputStreamDaemon
  op : Op
  chan : Channels

/-- The function `async_op_handle` up to its last statement: either the error with which it calls
`async_iterator_done`, or the step descriptor with which it calls `async_iterate`. -/
def async_op_handle (K : GVfsConstants) (io_data : IOOperationData) (res : Int)
    (io_error : Option GError) : GError ⊕ IOOperationData :=
  match io_error with
  | some e =>
    if error_is_cancel K (some e) then .inr { io_data with io_res := 0, io_cancelled := true }
    else .inl (protocol_error K e.message)
  | none =>
    if res = 0 ∧ io_data.io_size ≠ 0 then .inl (protocol_error K (ascii "End of stream"))
    else .inr { io_data with io_res := res.toNat, io_cancelled := false }

/-- The function `async_iterate` followed by the completion callback of the call it issued
(`async_op_handle`): `async_iterator_done` is reached (`inl`), or `async_iterate` is called
again (`inr`). -/
def async_round {Op : Type} (K : GVfsConstants)
    (iterator : GFileOutputStreamDaemon × IOOperationData × Op →
      Option (StateOp × (GFileOutputStreamDaemon × IOOperationData × Op)))
    (cancellable : Bool) (ev : DriverEvent) (s : DriverState Op) :
    Option (AsyncOutcome Op ⊕ DriverState Op) :=
  let io_data1 := { s.io_data with cancelled := cancellable && ev.cancelled }
  match iterator (s.file, io_data1, s.data) with
  | none => none
  | some (.STATE_OP_DONE, (file1, _, data1)) =>
    some (.inl { io_error := none, file := file1, op := data1, chan := s.chan })
  | some (io_op, (file1, io_data2, data1)) =>
    let r := perform_io io_op file1 io_data2 ev.result
    let chan1 := s.chan.record (io_step io_op io_data2 cancellable) r.2.2
    match async_op_handle K io_data2 r.1.1 r.1.2 with
    | .inl e => some (.inl { io_error := some e, file := r.2.1, op := data1, chan := chan1 })
    | .inr io_data3 =>
      some (.inr { file := r.2.1, io_data := io_data3, data := data1, chan := chan1 })

/-- The chain `async_iterate` → I/O completion → `async_op_handle` → `async_iterate` → …,
one event per link. -/
def async_iterate {Op : Type} (K : GVfsConstants)
    (iterator : GFileOutputStreamDaemon × IOOperationData × Op →
      Option (StateOp × (GFileOutputStreamDaemon × IOOperationData × Op)))
    (cancellable : Bool) : List DriverEvent → DriverState Op → Option (AsyncOutcome Op)
  | [], _ => none
  | ev :: rest, s =>
    match async_round K iterator cancellable ev s with
    | none => none
    | some (.inl out) => some out
    | some (.inr s1) => async_iterate K iterator cancellable rest s1

/-- The function `run_async_state_machine`: a zeroed iterator, then `async_iterate`. -/
def run_async_state_machine {Op : Type} (K : GVfsConstants)
    (iterator : GFileOutputStreamDaemon × IOOperationData × Op →
      Option (StateOp × (GFileOutputStreamDaemon × IOOperationData × Op)))
    (file : GFileOutputStreamDaemon) (data : Op) (cancellable : Bool)
    (events : List DriverEvent) (chan : Channels) : Option (AsyncOutcome Op) :=
  async_iterate K iterator cancellable events
    { file := file, io_data := io_data_zero, data := data, chan := chan }

/-! ## Stream facade -/

/-- The operation record `g_file_output_stream_daemon_write` and
`g_file_output_stream_daemon_write_async` set up: zeroed, then state, buffer and the capped
count. -/
def write_operation_new (buffer : List Nat) (count : Nat) : WriteOperation :=
  { state := .WRITE_STATE_INIT
    buffer := buffer
    buffer_size := if count > MAX_WRITE_SIZE then MAX_WRITE_SIZE else count
    buffer_pos := 0
    ret_val := 0
    ret_error := none
    sent_cancel := false
    seq_nr := 0 }

/-- Outcome of a facade call: return value, error, stream and command channel afterwards. -/
structure WriteResult where
  ret : Int
  error : Option GError
  file : GFileOutputStreamDaemon
  chan : Channels
  deriving DecidableEq, Repr

/-- The statements of `g_file_output_stream_daemon_write` that follow the call of
`run_sync_state_machine`. -/
def write_finish (out : DriverOutcome WriteOperation) : WriteResult :=
  if !out.ok then
    { ret := -1, error := out.error, file := out.file, chan := out.chan }
  else if out.op.ret_val = -1 then
    { ret := out.op.ret_val, error := out.op.ret_error, file := out.file, chan := out.chan }
  else
    { ret := out.op.ret_val, error := none
      file := { out.file with
                 current_offset := to_goffset (out.file.current_offset + out.op.ret_val) }
      chan := out.chan }

/-- The function `g_file_output_stream_daemon_write`.  `cancellable` tells whether a cancellable was
passed, `cancelled_at_entry` is its state on entry, `events` what the environment does in
each round of the driver. -/
def g_file_output_stream_daemon_write (K : GVfsConstants) (host : ByteOrder)
    (stale : Nat → Nat) (file : GFileOutputStreamDaemon) (buffer : List Nat) (count : Nat)
    (cancellable : Bool) (cancelled_at_entry : Bool) (events : List DriverEvent)
    (chan : Channels) : Option WriteResult :=
  if cancellable && cancelled_at_entry then
    some { ret := -1
           error := some { domain := K.G_VFS_ERROR, code := K.G_VFS_ERROR_CANCELLED,
                           message := MSG_CANCELLED }
           file := file, chan := chan }
  else
    (run_sync_state_machine K (iterate_write_state_machine K host stale) file
        (write_operation_new buffer count) cancellable events chan).map write_finish

/-- What the `GAsyncWriteCallback` is called with by `async_write_done`, and the stream and
channel state at that moment. -/
structure AsyncWriteResult where
  bytes_requested : Nat
  bytes_written : Int
  error : Option GError
  file : GFileOutputStreamDaemon
  chan : Channels
  deriving DecidableEq, Repr

/-- The function `async_write_done`. -/
def async_write_done (out : AsyncOutcome WriteOperation) : AsyncWriteResult :=
  match out.io_error with
  | some e =>
    { bytes_requested := out.op.buffer_size, bytes_written := -1, error := some e
      file := out.file, chan := out.chan }
  | none =>
    { bytes_requested := out.op.buffer_size, bytes_written := out.op.ret_val
      error := out.op.ret_error, file := out.file, chan := out.chan }

/-- The function `g_file_output_stream_daemon_write_async`, followed up to the completion callback. -/
def g_file_output_stream_daemon_write_async (K : GVfsConstants) (host : ByteOrder)
    (stale : Nat → Nat) (file : GFileOutputStreamDaemon) (buffer : List Nat) (count : Nat)
    (cancellable : Bool) (events : List DriverEvent) (chan : Channels) :
    Option AsyncWriteResult :=
  (run_async_state_machine K (iterate_write_state_machine K host stale) file
      (write_operation_new buffer count) cancellable events chan).map async_write_done

/-- The function `g_file_output_stream_daemon_new`: the object is zero-filled by `g_object_new`, the
instance initialiser `g_file_output_stream_daemon_init` assigns an empty string to
`output_buffer` (twice) and nothing to `input_buffer`, which stays `NULL`; the constructor
stores `can_seek` and the initial offset. -/
def g_file_output_stream_daemon_new (can_seek : Bool) (initial_offset : Int) :
    GFileOutputStreamDaemon :=
  { can_seek := can_seek, seq_nr := 0, current_offset := initial_offset
    input_buffer := none, output_buffer := [] }

/-- The function `g_file_output_stream_daemon_tell`. -/
def g_file_output_stream_daemon_tell (file : GFileOutputStreamDaemon) : Int :=
  file.current_offset

/-- The zeroed operation record `g_file_output_stream_daemon_close` sets up. -/
def close_operation_new : CloseOperation :=
  { state := .CLOSE_STATE_INIT, ret_val := 0, ret_error := none, sent_cancel := false
    seq_nr := 0 }

/-- The operation record `g_file_output_stream_daemon_seek` sets up: zeroed, then state, offset and
seek type. -/
def seek_operation_new (offset : Int) (type : GSeekType) : SeekOperation :=
  { state := .SEEK_STATE_INIT, offset := offset, seek_type := type, ret_val := 0
    ret_error := none, ret_offset := 0, sent_cancel := false, seq_nr := 0 }

/-- Outcome of a call of the seek facade: the `gboolean` returned (as the `int` it is), the
error, and stream and command channel afterwards. -/
structure SeekResult where
  ret : Int
  error : Option GError
  file : GFileOutputStreamDaemon
  chan : Channels
  deriving DecidableEq, Repr

/-- The text of `_("Seek not supported on stream")`. -/
def MSG_SEEK_NOT_SUPPORTED : List Nat := ascii "Seek not supported on stream"

/-- The statements of `g_file_output_stream_daemon_seek` that follow the call of
`run_sync_state_machine`. -/
def seek_finish (out : DriverOutcome SeekOperation) : SeekResult :=
  if !out.ok then
    { ret := -1, error := out.error, file := out.file, chan := out.chan }
  else if out.op.ret_val = 0 then
    { ret := out.op.ret_val, error := out.op.ret_error, file := out.file, chan := out.chan }
  else
    { ret := out.op.ret_val, error := none
      file := { out.file with current_offset := out.op.ret_offset }
      chan := out.chan }

/-- The function `g_file_output_stream_daemon_seek`; the parameters are those of the model of
`g_file_output_stream_daemon_write`. -/
def g_file_output_stream_daemon_seek (K : GVfsConstants) (host : ByteOrder)
    (stale : Nat → Nat) (file : GFileOutputStreamDaemon) (offset : Int) (type : GSeekType)
    (cancellable : Bool) (cancelled_at_entry : Bool) (events : List DriverEvent)
    (chan : Channels) : Option SeekResult :=
  if !file.can_seek then
    some { ret := 0
           error := some { domain := K.G_VFS_ERROR, code := K.G_VFS_ERROR_NOT_SUPPORTED,
                           message := MSG_SEEK_NOT_SUPPORTED }
           file := file, chan := chan }
  else if cancellable && cancelled_at_entry then
    some { ret := 0
           error := some { domain := K.G_VFS_ERROR, code := K.G_VFS_ERROR_CANCELLED,
                           message := MSG_CANCELLED }
           file := file, chan := chan }
  else
    (run_sync_state_machine K (iterate_seek_state_machine K host stale) file
        (seek_operation_new offset type) cancellable events chan).map seek_finish

/-! ## Relations kept during an operation -/

/-- What the stream counter and the record of a write operation tell of the requests the
operation has appended so far, when it found the counter at `s0`: the counter has advanced
by one for the primary request once the initial state is left and by one more once
`sent_cancel` is set; an operation still in its initial state has `sent_cancel` clear, one
past it has recorded `s0` as its sequence number. -/
def write_counter_inv (s0 seq : Nat) (op : WriteOperation) : Prop :=
  seq = (s0 + (if op.state = .WRITE_STATE_INIT then 0 else 1)
          + (if op.sent_cancel then 1 else 0)) % 4294967296
  ∧ (op.state = .WRITE_STATE_INIT → op.sent_cancel = false)
  ∧ (op.state ≠ .WRITE_STATE_INIT → op.seq_nr = s0)

/-- The relation `write_counter_inv` for a close operation. -/
def close_counter_inv (s0 seq : Nat) (op : CloseOperation) : Prop :=
  seq = (s0 + (if op.state = .CLOSE_STATE_INIT then 0 else 1)
          + (if op.sent_cancel then 1 else 0)) % 4294967296
  ∧ (op.state = .CLOSE_STATE_INIT → op.sent_cancel = false)
  ∧ (op.state ≠ .CLOSE_STATE_INIT → op.seq_nr = s0)

/-- The relation `write_counter_inv` for a seek operation. -/
def seek_counter_inv (s0 seq : Nat) (op : SeekOperation) : Prop :=
  seq = (s0 + (if op.state = .SEEK_STATE_INIT then 0 else 1)
          + (if op.sent_cancel then 1 else 0)) % 4294967296
  ∧ (op.state = .SEEK_STATE_INIT → op.sent_cancel = false)
  ∧ (op.state ≠ .SEEK_STATE_INIT → op.seq_nr = s0)

/-- The function `g_file_output_stream_daemon_can_seek`. -/
def g_file_output_stream_daemon_can_seek (file : GFileOutputStreamDaemon) : Bool :=
  file.can_seek

/-! ## The stream base class -/

/-- The error codes `goutputstream.c` raises; their header is not among the sources, so they
are parameters. -/
structure GOutputStreamErrors where
  G_VFS_ERROR_CLOSED : Int
  G_VFS_ERROR_PENDING : Int
  G_VFS_ERROR_INTERNAL_ERROR : Int
  G_FILE_ERROR_INVAL : Int
  deriving DecidableEq, Repr

/-- A sample assignment of the error codes, for concrete runs. -/
def sampleStreamErrors : GOutputStreamErrors where
  G_VFS_ERROR_CLOSED := 16
  G_VFS_ERROR_PENDING := 17
  G_VFS_ERROR_INTERNAL_ERROR := 18
  G_FILE_ERROR_INVAL := 22

/-- The largest value of a `gssize` (LP64). -/
def G_MAXSSIZE : Nat := 9223372036854775807

/-- Conversion of a `gsize` to `gssize` (two's complement). -/
def to_gssize (x : Nat) : Int :=
  if x % GSIZE ≤ G_MAXSSIZE then ((x % GSIZE : Nat) : Int)
  else ((x % GSIZE : Nat) : Int) - 18446744073709551616

/-- The type `struct _GOutputStreamPrivate`, as far as the flags go. -/
structure GOutputStreamPrivate where
  closed : Bool
  pending : Bool
  deriving DecidableEq, Repr

/-- The three virtual methods a blocking call can reach. -/
inductive StreamMethod where
  | write
  | flush
  | close
  deriving DecidableEq, Repr

/-- One call into the implementation as the embedding records it: the method, and the flags
of the stream at the moment of the call. -/
structure ImplCall where
  method : StreamMethod
  closed : Bool
  pending : Bool
  deriving DecidableEq, Repr

/-- A `GOutputStream` object: the private flags, the instance data of the implementing class,
and the record of the calls made into the implementation. -/
structure GOutputStream (σ : Type) where
  priv : GOutputStreamPrivate
  impl : σ
  calls : List ImplCall
  deriving DecidableEq, Repr

/-- The methods `write`, `flush` and `close` of `GOutputStreamClass`: `none` is a NULL pointer;
an implementation works on the instance data and reports its return value and the error it
stored. -/
structure GOutputStreamClass (σ : Type) where
  write : Option (σ → List Nat → Nat → Bool → (Int × Option GError) × σ)
  flush : Option (σ → Bool → (Int × Option GError) × σ)
  close : Option (σ → Bool → (Int × Option GError) × σ)

/-- What a call of `g_output_stream_write`, `g_output_stream_flush` or
`g_output_stream_close` leaves: return value, error, and the stream. -/
structure StreamResult (σ : Type) where
  ret : Int
  error : Option GError
  stream : GOutputStream σ
  deriving DecidableEq, Repr

/-- The text of `_("Stream is already closed")`. -/
def MSG_CLOSED : List Nat := ascii "Stream is already closed"

/-- The text of `_("Stream has outstanding operation")`. -/
def MSG_PENDING : List Nat := ascii "Stream has outstanding operation"

/-- The text of `_("Output stream doesn't implement write")`. -/
def MSG_NO_WRITE : List Nat := ascii "Output stream doesn't implement write"

/-- The text of `_("Too large count value passed to g_output_stream_write")`. -/
def MSG_TOO_LARGE : List Nat := ascii "Too large count value passed to g_output_stream_write"

/-- The stream with its `pending` flag assigned. -/
def GOutputStream.set_pending {σ : Type} (stream : GOutputStream σ) (pending : Bool) :
    GOutputStream σ :=
  { stream with priv := { stream.priv with pending := pending } }

/-- The stream after a call into the implementation: the call is recorded with the flags it
found, the instance data are what the implementation left. -/
def GOutputStream.invoked {σ : Type} (stream : GOutputStream σ) (method : StreamMethod)
    (impl : σ) : GOutputStream σ :=
  { stream with
      impl := impl
      calls := stream.calls ++ [{ method := method, closed := stream.priv.closed,
                                  pending := stream.priv.pending }] }

/-- The function `g_output_stream_write`.  The `g_return_val_if_fail` checks (a stream object, a
buffer) are taken to hold; `cancellable` tells whether a cancellable is passed. -/
def g_output_stream_write {σ : Type} (K : GVfsConstants) (E : GOutputStreamErrors)
    (cls : GOutputStreamClass σ) (stream : GOutputStream σ) (buffer : List Nat) (count : Nat)
    (cancellable : Bool) : StreamResult σ :=
  if count = 0 then { ret := 0, error := none, stream := stream }
  else if to_gssize count < 0 then
    { ret := -1
      error := some { domain := K.G_FILE_ERROR, code := E.G_FILE_ERROR_INVAL,
                      message := MSG_TOO_LARGE }
      stream := stream }
  else if stream.priv.closed then
    { ret := -1
      error := some { domain := K.G_VFS_ERROR, code := E.G_VFS_ERROR_CLOSED,
                      message := MSG_CLOSED }
      stream := stream }
  else if stream.priv.pending then
    { ret := -1
      error := some { domain := K.G_VFS_ERROR, code := E.G_VFS_ERROR_PENDING,
                      message := MSG_PENDING }
      stream := stream }
  else
    match cls.write with
    | none =>
      { ret := -1
        error := some { domain := K.G_VFS_ERROR, code := E.G_VFS_ERROR_INTERNAL_ERROR,
                        message := MSG_NO_WRITE }
        stream := stream }
    | some write =>
      let s1 := stream.set_pending true
      let r := write s1.impl buffer count cancellable
      { ret := r.1.1, error := r.1.2
        stream := (s1.invoked .write r.2).set_pending false }

/-- The function `g_output_stream_flush`. -/
def g_output_stream_flush {σ : Type} (K : GVfsConstants) (E : GOutputStreamErrors)
    (cls : GOutputStreamClass σ) (stream : GOutputStream σ) (cancellable : Bool) :
    StreamResult σ :=
  if stream.priv.closed then
    { ret := 0
      error := some { domain := K.G_VFS_ERROR, code := E.G_VFS_ERROR_CLOSED,
                      message := MSG_CLOSED }
      stream := stream }
  else if stream.priv.pending then
    { ret := 0
      error := some { domain := K.G_VFS_ERROR, code := E.G_VFS_ERROR_PENDING,
                      message := MSG_PENDING }
      stream := stream }
  else
    match cls.flush with
    | none => { ret := 1, error := none, stream := stream }
    | some flush =>
      let s1 := stream.set_pending true
      let r := flush s1.impl cancellable
      { ret := r.1.1, error := r.1.2
        stream := (s1.invoked .flush r.2).set_pending false }

/-- The function `g_output_stream_close`.  When the flush failed the implementation's close is
called with a NULL error location and what it reports is dropped; otherwise it stores
through the caller's location, which keeps an error already there. -/
def g_output_stream_close {σ : Type} (K : GVfsConstants) (E : GOutputStreamErrors)
    (cls : GOutputStreamClass σ) (stream : GOutputStream σ) (cancellable : Bool) :
    StreamResult σ :=
  if stream.priv.closed then { ret := 1, error := none, stream := stream }
  else if stream.priv.pending then
    { ret := 0
      error := some { domain := K.G_VFS_ERROR, code := E.G_VFS_ERROR_PENDING,
                      message := MSG_PENDING }
      stream := stream }
  else
    let f := g_output_stream_flush K E cls stream cancellable
    let s1 := f.stream.set_pending true
    let r : StreamResult σ :=
      if f.ret = 0 then
        match cls.close with
        | some close =>
          { ret := f.ret, error := f.error
            stream := s1.invoked .close (close s1.impl cancellable).2 }
        | none => { ret := f.ret, error := f.error, stream := s1 }
      else
        match cls.close with
        | some close =>
          let q := close s1.impl cancellable
          { ret := q.1.1
            error := match f.error with
                     | some e => some e
                     | none => q.1.2
            stream := s1.invoked .close q.2 }
        | none => { ret := 1, error := f.error, stream := s1 }
    { r with
        stream := { r.stream with priv := { closed := true, pending := false } } }

/-- What `g_output_stream_close_async` has done when it returns: a result is queued for the
callback, or the implementation's `close_async` was started with
`close_async_callback_wrapper` as its callback. -/
inductive AsyncStart where
  | queued (result : Int) (error : Option GError)
  | started
  deriving DecidableEq, Repr

/-- The function `g_output_stream_close_async`, up to its return. -/
def g_output_stream_close_async {σ : Type} (K : GVfsConstants) (E : GOutputStreamErrors)
    (stream : GOutputStream σ) : GOutputStream σ × AsyncStart :=
  if stream.priv.closed then (stream, .queued 1 none)
  else if stream.priv.pending then
    (stream, .queued 0 (some { domain := K.G_VFS_ERROR, code := E.G_VFS_ERROR_PENDING,
                               message := MSG_PENDING }))
  else (stream.set_pending true, .started)

/-- The function `close_async_callback_wrapper`: the stream when the caller's callback is entered,
and what that callback is called with. -/
def close_async_callback_wrapper {σ : Type} (stream : GOutputStream σ) (result : Int)
    (error : Option GError) : GOutputStream σ × (Int × Option GError) :=
  ({ stream with priv := { closed := true, pending := false } }, (result, error))

/-- A blocking call on a stream, with its arguments. -/
inductive StreamCall where
  | write (buffer : List Nat) (count : Nat) (cancellable : Bool)
  | flush (cancellable : Bool)
  | close (cancellable : Bool)
  deriving DecidableEq, Repr

/-- The call a `StreamCall` stands for. -/
def g_output_stream_call {σ : Type} (K : GVfsConstants) (E : GOutputStreamErrors)
    (cls : GOutputStreamClass σ) (stream : GOutputStream σ) : StreamCall → StreamResult σ
  | .write buffer count cancellable =>
    g_output_stream_write K E cls stream buffer count cancellable
  | .flush cancellable => g_output_stream_flush K E cls stream cancellable
  | .close cancellable => g_output_stream_close K E cls stream cancellable

/-- The stream after a sequence of blocking calls, each made when the one before has
returned. -/
def g_output_stream_calls {σ : Type} (K : GVfsConstants) (E : GOutputStreamErrors)
    (cls : GOutputStreamClass σ) : List StreamCall → GOutputStream σ → GOutputStream σ
  | [], stream => stream
  | call :: rest, stream =>
    g_output_stream_calls K E cls rest (g_output_stream_call K E cls stream call).stream

/-- The number of calls of the implementation's close that a stream records. -/
def close_invocations {σ : Type} (stream : GOutputStream σ) : Nat :=
  stream.calls.countP (fun c => c.method = .close)

/-- A sample class for concrete runs, over a counter as instance data: its write accepts
everything and adds one to the counter, it has no flush, and its close fails with an
error and adds 100. -/
def sampleClass : GOutputStreamClass Nat where
  write := some (fun n _ count _ => (((count : Nat), none), n + 1))
  flush := none
  close := some (fun n _ =>
    ((0, some { domain := ascii "g-file-error-quark", code := 21, message := ascii "lost" }),
     n + 100))

/-! ## States and outcomes of sample runs -/

/-- The outcome of a blocking write of the two bytes 7, 8 on a fresh stream whose request is
accepted in two parts, whose payload is accepted at once, which is then cancelled, and
whose command channel fails after it has accepted 12 bytes of the CANCEL request. -/
def sampleCancelledWrite : DriverOutcome WriteOperation :=
  { ok := false
    error := some { domain := ascii "g-file-error-quark", code := 21
                    message := ascii "Error in stream protocol: Broken pipe" }
    file := { can_seek := false, seq_nr := 2, current_offset := 0, input_buffer := none
              output_buffer := [0, 0, 0, 0, 0, 0, 0, 0] }
    op := { state := .WRITE_STATE_WROTE_COMMAND, buffer := [7, 8], buffer_size := 2
            buffer_pos := 2, ret_val := 0, ret_error := none, sent_cancel := true
            seq_nr := 0 }
    chan := { wire := [0, 0, 0, 1, 0, 0, 0, 0, 0, 0, 0, 2, 0, 0, 0, 0, 0, 0, 0, 2, 7, 8,
                       0, 0, 0, 3, 0, 0, 0, 1, 0, 0, 0, 0]
              steps := [{ kind := .STATE_OP_WRITE, size := 20, with_cancellable := true
                          offered := [0, 0, 0, 1, 0, 0, 0, 0, 0, 0, 0, 2, 0, 0, 0, 0, 0, 0, 0, 2] },
                        { kind := .STATE_OP_WRITE, size := 8, with_cancellable := false
                          offered := [0, 0, 0, 0, 0, 0, 0, 2] },
                        { kind := .STATE_OP_WRITE, size := 2, with_cancellable := false
                          offered := [7, 8] },
                        { kind := .STATE_OP_WRITE, size := 20, with_cancellable := false
                          offered := [0, 0, 0, 3, 0, 0, 0, 1, 0, 0, 0, 0, 0, 0, 0, 0, 0, 0, 0, 0] },
                        { kind := .STATE_OP_WRITE, size := 8, with_cancellable := false
                          offered := [0, 0, 0, 0, 0, 0, 0, 0] }] } }

/-- The outcome of the CLOSE handshake on a fresh stream whose request is cancelled before
its first byte is written. -/
def sampleCancelledClose : DriverOutcome CloseOperation :=
  { ok := true, error := none
    file := { can_seek := false, seq_nr := 1, current_offset := 0, input_buffer := none
              output_buffer := [0, 0, 0, 2, 0, 0, 0, 0, 0, 0, 0, 0, 0, 0, 0, 0, 0, 0, 0, 0] }
    op := { state := .CLOSE_STATE_WROTE_REQUEST, ret_val := 0
            ret_error := some { domain := ascii "g-vfs-error-quark", code := 19
                                message := ascii "Operation was cancelled" }
            sent_cancel := false, seq_nr := 0 }
    chan := { wire := []
              steps := [{ kind := .STATE_OP_WRITE, size := 20, with_cancellable := true
                          offered := [0, 0, 0, 2, 0, 0, 0, 0, 0, 0, 0, 0, 0, 0, 0, 0, 0, 0, 0, 0] }] } }

/-! ## Closing the stream -/

/-- The two channels of a daemon stream. -/
inductive StreamChannel where
  | command_stream
  | data_stream
  deriving DecidableEq, Repr

/-- One call of `g_output_stream_close` or `g_input_stream_close` on a channel, as the
embedding records it: the channel, and whether the caller's error location was passed
(rather than `NULL`). -/
structure ChannelClose where
  channel : StreamChannel
  with_error : Bool
  deriving DecidableEq, Repr

/-- Outcome of a call of `g_file_output_stream_daemon_close`: the `gboolean` returned (as the
`int` it is), the error, stream and channels afterwards, and the calls that closed
channels, in order. -/
structure CloseResult where
  ret : Int
  error : Option GError
  file : GFileOutputStreamDaemon
  chan : Channels
  closes : List ChannelClose
  deriving DecidableEq, Repr

/-- The statements of `g_file_output_stream_daemon_close` that follow the call of
`run_sync_state_machine`.  `command_close` and `data_close` are what closing the command
channel and the data channel report: `none` for TRUE, an error for FALSE with that error
stored where an error location was passed. -/
def close_finish (out : DriverOutcome CloseOperation)
    (command_close data_close : Option GError) : CloseResult :=
  let res0 : Int := if !out.ok then 0 else out.op.ret_val
  let err0 : Option GError :=
    if !out.ok then out.error
    else if out.op.ret_val = 0 then out.op.ret_error
    else none
  let res1 : Int := if res0 ≠ 0 then (if command_close.isNone then 1 else 0) else res0
  let err1 : Option GError := if res0 ≠ 0 then command_close else err0
  let res2 : Int := if res1 ≠ 0 then (if data_close.isNone then 1 else 0) else res1
  let err2 : Option GError := if res1 ≠ 0 then data_close else err1
  { ret := res2, error := err2, file := out.file, chan := out.chan
    closes := [{ channel := .command_stream, with_error := decide (res0 ≠ 0) },
               { channel := .data_stream, with_error := decide (res1 ≠ 0) }] }

/-- The function `g_file_output_stream_daemon_close`; `events` is what the environment does in
each round of the driver, `command_close` and `data_close` what the two channels report
when they are closed. -/
def g_file_output_stream_daemon_close (K : GVfsConstants) (host : ByteOrder)
    (stale : Nat → Nat) (file : GFileOutputStreamDaemon) (cancellable : Bool)
    (events : List DriverEvent) (chan : Channels)
    (command_close data_close : Option GError) : Option CloseResult :=
  (run_sync_state_machine K (iterate_close_state_machine K host stale) file
      close_operation_new cancellable events chan).map
    (fun out => close_finish out command_close data_close)

/-! ## What the two drivers hand the iterator -/

/-- The values of `cancelled`, `io_res` and `io_cancelled` with which `run_sync_state_machine`
calls the iterator, round by round. -/
def sync_calls {Op : Type} (K : GVfsConstants)
    (iterator : GFileOutputStreamDaemon × IOOperationData × Op →
      Option (StateOp × (GFileOutputStreamDaemon × IOOperationData × Op)))
    (cancellable : Bool) : List DriverEvent → DriverState Op → List (Bool × Nat × Bool)
  | [], _ => []
  | ev :: rest, s =>
    ((poll_cancellable cancellable ev.cancelled s.io_data).cancelled,
     (poll_cancellable cancellable ev.cancelled s.io_data).io_res,
     (poll_cancellable cancellable ev.cancelled s.io_data).io_cancelled) ::
      match sync_round K iterator cancellable ev s with
      | some (.inr s1) => sync_calls K iterator cancellable rest s1
      | _ => []

/-- The values of `cancelled`, `io_res` and `io_cancelled` with which `async_iterate` calls the
iterator, link by link of the chain. -/
def async_calls {Op : Type} (K : GVfsConstants)
    (iterator : GFileOutputStreamDaemon × IOOperationData × Op →
      Option (StateOp × (GFileOutputStreamDaemon × IOOperationData × Op)))
    (cancellable : Bool) : List DriverEvent → DriverState Op → List (Bool × Nat × Bool)
  | [], _ => []
  | ev :: rest, s =>
    (cancellable && ev.cancelled, s.io_data.io_res, s.io_data.io_cancelled) ::
      match async_round K iterator cancellable ev s with
      | some (.inr s1) => async_calls K iterator cancellable rest s1
      | _ => []

/-- The state of the cooperative driver when `async_iterate` is about to be called again after
the links that `events` drive, when the chain has not ended then. -/
def run_async_rounds {Op : Type} (K : GVfsConstants)
    (iterator : GFileOutputStreamDaemon × IOOperationData × Op →
      Option (StateOp × (GFileOutputStreamDaemon × IOOperationData × Op)))
    (cancellable : Bool) : List DriverEvent → DriverState Op → Option (DriverState Op)
  | [], s => some s
  | ev :: rest, s =>
    match async_round K iterator cancellable ev s with
    | some (.inr s1) => run_async_rounds K iterator cancellable rest s1
    | _ => none

/-- What `async_iterator_done` is handed when the cooperative driver ends as the blocking
driver does with the outcome `o`: the error the blocking driver stores, and the same
memory and channels. -/
def DriverOutcome.as_async {Op : Type} (o : DriverOutcome Op) : AsyncOutcome Op :=
  { io_error := o.error, file := o.file, op := o.op, chan := o.chan }

/-! ## Errors over the message bus -/

/-- The macro `VALID_INITIAL_NAME_CHARACTER` of `gdbusutils.c`, on the byte of a `char`. -/
def VALID_INITIAL_NAME_CHARACTER (c : Nat) : Bool :=
  (65 ≤ c && c ≤ 90) || (97 ≤ c && c ≤ 122)

/-- The macro `VALID_NAME_CHARACTER` of `gdbusutils.c`, on the byte of a `char`. -/
def VALID_NAME_CHARACTER (c : Nat) : Bool :=
  (48 ≤ c && c ≤ 57) || (65 ≤ c && c ≤ 90) || (97 ≤ c && c ≤ 122)

/-- The table `hex[16] = "0123456789ABCDEF"` of `append_escaped_name`, for an index below
16. -/
def hex (i : Nat) : Nat := if i < 10 then 48 + i else 55 + i

/-- The function `append_escaped_name`: the bytes it appends for the C string at `unescaped`.
`first` is the value its local of that name, which is never initialised, has on entry; it
is cleared when a byte is escaped and never set. -/
def append_escaped_name (first : Bool) : List Nat → List Nat
  | [] => []
  | c :: rest =>
    if c = 0 then []
    else if (if first then VALID_INITIAL_NAME_CHARACTER c else VALID_NAME_CHARACTER c) then
      c :: append_escaped_name first rest
    else
      95 :: hex ((c % 256) / 16) :: hex (c % 16) :: append_escaped_name false rest

/-- The decimal digits of `n`, most significant first; `fuel` bounds their number. -/
def decimal_digits : Nat → Nat → List Nat
  | 0, _ => []
  | fuel + 1, n =>
    if n < 10 then [48 + n] else decimal_digits fuel (n / 10) ++ [48 + n % 10]

/-- What the conversion `%d` of `printf` makes of an `int`. -/
def format_d (n : Int) : List Nat :=
  if n < 0 then 45 :: decimal_digits (n.natAbs + 1) n.natAbs
  else decimal_digits (n.natAbs + 1) n.natAbs

/-- The bus error a reply is made from: the name and the message handed to
`dbus_message_new_error`, which is also what a `DBusError` holds on the receiving side. -/
structure DBusError where
  name : List Nat
  message : List Nat
  deriving DecidableEq, Repr

/-- The function `_dbus_message_new_error_from_gerror`: the error name it builds and the message it
passes with it.  The domain is the string of the error's quark. -/
def _dbus_message_new_error_from_gerror (first : Bool) (error : GError) : DBusError :=
  { name := ascii "org.glib.GError." ++ append_escaped_name first error.domain
      ++ ascii ".c" ++ format_d error.code
    message := cstring error.message }

/-- The function `g_ascii_xdigit_value`. -/
def g_ascii_xdigit_value (c : Nat) : Int :=
  if 48 ≤ c ∧ c ≤ 57 then (c : Int) - 48
  else if 65 ≤ c ∧ c ≤ 70 then (c : Int) - 55
  else if 97 ≤ c ∧ c ≤ 102 then (c : Int) - 87
  else -1

/-- The function `append_unescaped_dbus_name`: the bytes it appends for the region from
`escaped` up to `end`; the local `c` is a `guchar`. -/
def append_unescaped_dbus_name : List Nat → List Nat
  | [] => []
  | [c] => [c]
  | c :: h :: [] =>
    if c = 95 then [((g_ascii_xdigit_value h * 16) % 256).toNat]
    else c :: append_unescaped_dbus_name [h]
  | c :: h :: l :: rest =>
    if c = 95 then
      (((g_ascii_xdigit_value h * 16) % 256).toNat ||| ((g_ascii_xdigit_value l) % 256).toNat)
        :: append_unescaped_dbus_name rest
    else c :: append_unescaped_dbus_name (h :: l :: rest)

/-- The digits a C conversion reads from the head of a string, as a number, after `acc`. -/
def parse_digits : Nat → List Nat → Nat
  | acc, [] => acc
  | acc, c :: rest =>
    if 48 ≤ c ∧ c ≤ 57 then parse_digits (acc * 10 + (c - 48)) rest else acc

/-- The function `isspace` of the C locale. -/
def isspace (c : Nat) : Bool := c = 32 || (9 ≤ c && c ≤ 13)

/-- The function `atoi`, for strings whose value an `int` can hold. -/
def atoi (s : List Nat) : Int :=
  match s.dropWhile isspace with
  | 45 :: rest => -((parse_digits 0 rest : Nat) : Int)
  | 43 :: rest => ((parse_digits 0 rest : Nat) : Int)
  | rest => ((parse_digits 0 rest : Nat) : Int)

/-- The function `_g_error_from_dbus`: the error it sets.  The domain is given by the string of
its quark, the quark 0 by the empty string. -/
def _g_error_from_dbus (K : GVfsConstants) (derror : DBusError) : GError :=
  if (ascii "org.glib.GError.").isPrefixOf derror.name then
    let name := cstring (derror.name.drop 16)
    if 46 ∈ name then
      let escaped := name.takeWhile (fun b => b != 46)
      let after := name.drop (escaped.length + 1)
      { domain := cstring (append_unescaped_dbus_name escaped)
        code := match after with
                | 99 :: digits => atoi digits
                | _ => 0
        message := cstring derror.message }
    else { domain := [], code := 0, message := cstring derror.message }
  else
    { domain := K.G_FILE_ERROR, code := K.G_FILE_ERROR_IO_CODE
      message := ascii "DBus error " ++ cstring derror.name ++ ascii ": "
        ++ cstring derror.message }

/-! ## Codec facts -/

theorem be32_length (x : Nat) : (be32 x).length = 4 := rfl

theorem store32_length (host : ByteOrder) (x : Nat) : (store32 host x).length = 4 := by
  cases host <;> rfl

theorem read_be32_lt (b : List Nat) : read_be32 b < U32 := by
  unfold read_be32 U32
  omega

theorem swap32_read_le32 (b : List Nat) : swap32 (read_le32 b) = read_be32 b := by
  unfold swap32 read_le32 read_be32 be32
  simp only [List.getD_cons_zero, List.getD_cons_succ]
  omega

/-- On either host, `g_ntohl` of a loaded word is the big-endian reading of its bytes. -/
theorem g_ntohl_load32 (host : ByteOrder) (mem : List Nat) (off : Nat) :
    g_ntohl host (load32 host mem off) = read_be32 (mem.drop off) := by
  cases host
  · simp only [g_ntohl, g_htonl, load32, swap32_read_le32]
  · simp only [g_ntohl, g_htonl, load32]
    exact Nat.mod_eq_of_lt (read_be32_lt _)

theorem read_be32_be32_append (x : Nat) (rest : List Nat) :
    read_be32 (be32 x ++ rest) = x % U32 := by
  unfold read_be32 be32 U32
  simp only [List.cons_append, List.getD_cons_zero, List.getD_cons_succ]
  omega

/-- On either host, the stored image of `g_htonl x` is the big-endian image of `x`. -/
theorem store32_g_htonl (host : ByteOrder) (x : Nat) : store32 host (g_htonl host x) = be32 x := by
  cases host
  · unfold store32 g_htonl swap32 read_le32 be32 le32
    simp only [List.getD_cons_zero, List.getD_cons_succ, List.cons.injEq, and_true]
    have ha : x / 16777216 % 256 < 256 := Nat.mod_lt _ (by decide)
    have hb : x / 65536 % 256 < 256 := Nat.mod_lt _ (by decide)
    have hc : x / 256 % 256 < 256 := Nat.mod_lt _ (by decide)
    have hd : x % 256 < 256 := Nat.mod_lt _ (by decide)
    generalize x / 16777216 % 256 = a at ha ⊢
    generalize x / 65536 % 256 = b at hb ⊢
    generalize x / 256 % 256 = c at hc ⊢
    generalize x % 256 = d at hd ⊢
    omega
  · unfold store32 g_htonl be32 U32
    simp only [List.cons.injEq, and_true]
    omega

theorem store32_mod (host : ByteOrder) (x : Nat) : store32 host (x % U32) = store32 host x := by
  cases host
  · unfold store32 le32 U32
    simp only [List.cons.injEq, and_true]
    omega
  · unfold store32 be32 U32
    simp only [List.cons.injEq, and_true]
    omega

/-- The bytes `append_request` adds: four big-endian words, then `data_len` as the host
stores it. -/
theorem append_request_output (host : ByteOrder) (stream : GFileOutputStreamDaemon)
    (command arg1 arg2 data_len : Nat) :
    (append_request host stream command arg1 arg2 data_len).1.output_buffer
      = stream.output_buffer ++ (be32 command ++ be32 stream.seq_nr ++ be32 arg1 ++ be32 arg2
          ++ store32 host data_len) := by
  have hlen : (be32 command ++ be32 stream.seq_nr ++ be32 arg1 ++ be32 arg2
      ++ store32 host data_len).length = 20 := by
    simp [be32_length, store32_length]
  simp only [append_request, g_string_append_len, request_struct,
    GVfsDaemonSocketProtocolRequest.bytes, store32_g_htonl, store32_mod, REQUEST_SIZE]
  rw [List.take_of_length_le (le_of_eq hlen)]

/-- Decoding a reply header on either host reads the four words big-endian. -/
theorem decode_reply_eq (host : ByteOrder) (buffer : List Nat) :
    decode_reply host buffer
      = ({ type := read_be32 buffer
           seq_nr := read_be32 (buffer.drop 4)
           arg1 := read_be32 (buffer.drop 8)
           arg2 := read_be32 (buffer.drop 12) }, buffer.drop 16) := by
  simp [decode_reply, g_ntohl_load32, REPLY_SIZE]

/-- A reply header followed by arbitrary bytes, as the peer puts it on the wire. -/
theorem read_reply_words (t s a1 a2 : Nat) (rest : List Nat) :
    read_be32 (be32 t ++ be32 s ++ be32 a1 ++ be32 a2 ++ rest) = t % U32 ∧
    read_be32 ((be32 t ++ be32 s ++ be32 a1 ++ be32 a2 ++ rest).drop 4) = s % U32 ∧
    read_be32 ((be32 t ++ be32 s ++ be32 a1 ++ be32 a2 ++ rest).drop 8) = a1 % U32 ∧
    read_be32 ((be32 t ++ be32 s ++ be32 a1 ++ be32 a2 ++ rest).drop 12) = a2 % U32 ∧
    (be32 t ++ be32 s ++ be32 a1 ++ be32 a2 ++ rest).drop 16 = rest := by
  refine ⟨?_, ?_, ?_, ?_, ?_⟩
  · simp only [List.append_assoc, read_be32_be32_append]
  · have : (be32 t ++ be32 s ++ be32 a1 ++ be32 a2 ++ rest).drop 4
        = be32 s ++ (be32 a1 ++ be32 a2 ++ rest) := by simp [be32]
    rw [this, read_be32_be32_append]
  · have : (be32 t ++ be32 s ++ be32 a1 ++ be32 a2 ++ rest).drop 8
        = be32 a1 ++ (be32 a2 ++ rest) := by simp [be32]
    rw [this, read_be32_be32_append]
  · have : (be32 t ++ be32 s ++ be32 a1 ++ be32 a2 ++ rest).drop 12
        = be32 a2 ++ rest := by simp [be32]
    rw [this, read_be32_be32_append]
  · simp [be32]

/-- What `get_reply_header_missing_bytes` returns on buffers no longer than the frame they
describe, with `16 + arg2` below 2^32. -/
theorem get_reply_header_missing_bytes_in_frame (K : GVfsConstants) (host : ByteOrder)
    (buffer : List Nat) :
    (buffer.length < 16 →
      get_reply_header_missing_bytes K host buffer = 16 - buffer.length) ∧
    (16 ≤ buffer.length → read_be32 buffer ≠ K.REPLY_ERROR →
      get_reply_header_missing_bytes K host buffer = 0) ∧
    (16 ≤ buffer.length → read_be32 buffer = K.REPLY_ERROR →
      16 + read_be32 (buffer.drop 12) < 4294967296 →
      buffer.length ≤ 16 + read_be32 (buffer.drop 12) →
      get_reply_header_missing_bytes K host buffer
        = 16 + read_be32 (buffer.drop 12) - buffer.length) := by
  refine ⟨?_, ?_, ?_⟩
  · intro h
    simp only [get_reply_header_missing_bytes, REPLY_SIZE, h, if_true]
    unfold gsize_sub GSIZE
    omega
  · intro h hne
    have h' : ¬ buffer.length < 16 := by omega
    simp only [get_reply_header_missing_bytes, REPLY_SIZE, h', if_false, g_ntohl_load32,
      List.drop_zero, hne]
  · intro h he h32 hle
    have h' : ¬ buffer.length < 16 := by omega
    simp only [get_reply_header_missing_bytes, REPLY_SIZE, h', if_false, g_ntohl_load32,
      List.drop_zero, he, if_true]
    unfold gsize_sub u32_add GSIZE U32
    omega

theorem cstring_append_nul (d rest : List Nat) (h : ∀ b ∈ d, b ≠ 0) :
    cstring (d ++ 0 :: rest) = d := by
  unfold cstring
  induction d with
  | nil => simp
  | cons x d ih =>
    have hx : x ≠ 0 := h x (List.mem_cons_self _ _)
    simp only [List.cons_append, List.takeWhile_cons, bne_iff_ne, ne_eq, hx, not_false_eq_true,
      decide_True, if_true, List.cons.injEq, true_and]
    exact ih (fun b hb => h b (List.mem_cons_of_mem _ hb))

theorem format_noargs_plain (m : List Nat) (h : ∀ b ∈ m, b ≠ 37) :
    format_noargs m = some m := by
  induction m with
  | nil => rfl
  | cons x m ih =>
    have hx : x ≠ 37 := h x (List.mem_cons_self _ _)
    have ih' := ih (fun b hb => h b (List.mem_cons_of_mem _ hb))
    rw [format_noargs.eq_def]
    split
    · next heq => exact absurd heq (List.cons_ne_nil _ _)
    · next heq => exact absurd (List.cons.inj heq).1 hx
    · next heq => exact absurd (List.cons.inj heq).1 hx
    · next c r _ _ heq =>
      obtain ⟨h1, h2⟩ := List.cons.inj heq
      subst h1 h2
      rw [ih']
      rfl

/-- What `decode_error` yields for a payload domain NUL message NUL whose message contains
no `%`: the domain, the code and the message as sent. -/
theorem decode_error_plain (reply : GVfsDaemonSocketProtocolReply)
    (domain message rest : List Nat)
    (hd : ∀ b ∈ domain, b ≠ 0) (hm : ∀ b ∈ message, b ≠ 0) (hp : ∀ b ∈ message, b ≠ 37) :
    decode_error reply (domain ++ 0 :: (message ++ 0 :: rest))
      = some { domain := domain, code := to_gint reply.arg1, message := message } := by
  unfold decode_error g_set_error_noargs
  rw [cstring_append_nul domain _ hd]
  have : (domain ++ 0 :: (message ++ 0 :: rest)).drop (domain.length + 1)
      = message ++ 0 :: rest := by
    rw [List.drop_append_eq_append_drop]
    simp
  rw [this, cstring_append_nul message _ hm, format_noargs_plain message hp]
  rfl

/-! ## One pass of the write state machine -/

section
variable (K : GVfsConstants) (host : ByteOrder) (stale : Nat → Nat)

theorem iterate_write_loop_succ (fuel : Nat) (s : WriteConf) :
    iterate_write_loop K host stale (fuel + 1) s
      = match write_switch K host stale s with
        | .ret step s1 => some (step, s1)
        | .again (file, io_op, op) =>
          iterate_write_loop K host stale fuel (file, clear_io_op io_op, op)
        | .fault => none := rfl

theorem iterate_of_ret (s s1 : WriteConf) (step : StateOp)
    (h : write_switch K host stale s = .ret step s1) :
    iterate_write_state_machine K host stale s = some (step, s1) := by
  rw [iterate_write_state_machine, iterate_write_loop_succ, h]

theorem iterate_of_again_ret (s : WriteConf) (f : GFileOutputStreamDaemon)
    (i : IOOperationData) (o : WriteOperation) (s1 : WriteConf) (step : StateOp)
    (h : write_switch K host stale s = .again (f, i, o))
    (h1 : write_switch K host stale (f, clear_io_op i, o) = .ret step s1) :
    iterate_write_state_machine K host stale s = some (step, s1) := by
  rw [iterate_write_state_machine, iterate_write_loop_succ, h]
  simp only []
  rw [iterate_write_loop_succ, h1]

theorem write_switch_init (file : GFileOutputStreamDaemon) (io : IOOperationData)
    (op : WriteOperation) (h : op.state = .WRITE_STATE_INIT) :
    write_switch K host stale (file, io, op)
      = .ret .STATE_OP_WRITE
          ((append_request host file K.REQUEST_WRITE op.buffer_size 0 op.buffer_size).1,
           { io with
              io_buffer := .source
                (append_request host file K.REQUEST_WRITE op.buffer_size 0 op.buffer_size).1.output_buffer
              io_size :=
                (append_request host file K.REQUEST_WRITE op.buffer_size 0 op.buffer_size).1.output_buffer.length
              io_allow_cancel := true },
           { op with seq_nr := file.seq_nr, state := .WRITE_STATE_WROTE_COMMAND }) := by
  simp only [write_switch, h]
  rfl

theorem write_switch_wc_short (file : GFileOutputStreamDaemon) (io : IOOperationData)
    (op : WriteOperation)
    (h : op.state = .WRITE_STATE_WROTE_COMMAND) (hc : io.io_cancelled = false)
    (hr : io.io_res < file.output_buffer.length) :
    write_switch K host stale (file, io, op)
      = .ret .STATE_OP_WRITE
          ({ file with output_buffer := file.output_buffer.drop io.io_res },
           { io with
              io_buffer := .source (file.output_buffer.drop io.io_res)
              io_size := (file.output_buffer.drop io.io_res).length
              io_allow_cancel := false },
           op) := by
  simp only [write_switch, h, hc, hr, if_true, Bool.false_eq_true, if_false]

theorem write_switch_wc_drained (file : GFileOutputStreamDaemon) (io : IOOperationData)
    (op : WriteOperation)
    (h : op.state = .WRITE_STATE_WROTE_COMMAND) (hc : io.io_cancelled = false)
    (hr : file.output_buffer.length ≤ io.io_res) :
    write_switch K host stale (file, io, op)
      = .again
          ({ file with output_buffer := [] }, io,
           { op with
              buffer_pos := 0
              state := if op.sent_cancel then .WRITE_STATE_HANDLE_INPUT
                       else .WRITE_STATE_SEND_DATA }) := by
  have hr' : ¬ io.io_res < file.output_buffer.length := by omega
  simp only [write_switch, h, hc, hr', Bool.false_eq_true, if_false, g_string_truncate,
    List.take_zero]

theorem write_switch_send_more (file : GFileOutputStreamDaemon) (io : IOOperationData)
    (op : WriteOperation)
    (h : op.state = .WRITE_STATE_SEND_DATA)
    (hlt : op.buffer_pos + io.io_res < op.buffer_size) (hn2 : op.buffer_size < GSIZE) :
    write_switch K host stale (file, io, op)
      = .ret .STATE_OP_WRITE
          (file,
           { io with
              io_buffer := .source (op.buffer.drop (op.buffer_pos + io.io_res))
              io_size := op.buffer_size - (op.buffer_pos + io.io_res)
              io_allow_cancel := false },
           { op with buffer_pos := op.buffer_pos + io.io_res }) := by
  have e1 : gsize_add op.buffer_pos io.io_res = op.buffer_pos + io.io_res := by
    unfold gsize_add GSIZE at *; omega
  have e2 : gsize_sub op.buffer_size (op.buffer_pos + io.io_res)
      = op.buffer_size - (op.buffer_pos + io.io_res) := by
    unfold gsize_sub GSIZE at *; omega
  simp only [write_switch, h, e1, e2, hlt, if_true]

theorem write_switch_send_done (file : GFileOutputStreamDaemon) (io : IOOperationData)
    (op : WriteOperation)
    (h : op.state = .WRITE_STATE_SEND_DATA)
    (hge : op.buffer_pos + io.io_res = op.buffer_size) (hn2 : op.buffer_size < GSIZE) :
    write_switch K host stale (file, io, op)
      = .again (file, io,
          { op with buffer_pos := op.buffer_size, state := .WRITE_STATE_HANDLE_INPUT }) := by
  have e1 : gsize_add op.buffer_pos io.io_res = op.buffer_size := by
    unfold gsize_add GSIZE at *; omega
  simp only [write_switch, h, e1, lt_irrefl, if_false]

theorem get_reply_header_missing_bytes_nil :
    get_reply_header_missing_bytes K host [] = 16 := by
  simp [get_reply_header_missing_bytes, REPLY_SIZE, gsize_sub, GSIZE]

/-- The await state of a write on a stream whose input buffer is `NULL`, no CANCEL request
being due: the pass faults. -/
theorem write_switch_hi_null (file : GFileOutputStreamDaemon) (io : IOOperationData)
    (op : WriteOperation)
    (h : op.state = .WRITE_STATE_HANDLE_INPUT)
    (hcan : (io.cancelled && !op.sent_cancel) = false)
    (hin : file.input_buffer = none) :
    write_switch K host stale (file, io, op) = .fault := by
  simp only [write_switch, h, hcan, hin, Bool.false_eq_true, if_false]

theorem iterate_of_again_fault (s : WriteConf) (f : GFileOutputStreamDaemon)
    (i : IOOperationData) (o : WriteOperation)
    (h : write_switch K host stale s = .again (f, i, o))
    (h1 : write_switch K host stale (f, clear_io_op i, o) = .fault) :
    iterate_write_state_machine K host stale s = none := by
  rw [iterate_write_state_machine, iterate_write_loop_succ, h]
  simp only []
  rw [iterate_write_loop_succ, h1]

/-- The await state of a write on a stream whose input buffer holds `input_buffer`, no CANCEL
request being due. -/
theorem write_switch_hi_some (file : GFileOutputStreamDaemon) (io : IOOperationData)
    (op : WriteOperation) (input_buffer : List Nat)
    (h : op.state = .WRITE_STATE_HANDLE_INPUT)
    (hcan : (io.cancelled && !op.sent_cancel) = false)
    (hin : file.input_buffer = some input_buffer) :
    write_switch K host stale (file, io, op)
      = if get_reply_header_missing_bytes K host (drop_unread stale input_buffer io) > 0 then
          .ret .STATE_OP_READ
            ({ file with
                input_buffer := some (g_string_set_size stale (drop_unread stale input_buffer io)
                  (gsize_add (drop_unread stale input_buffer io).length
                    (get_reply_header_missing_bytes K host
                      (drop_unread stale input_buffer io)))) },
             { io with
                io_buffer := .input_str (drop_unread stale input_buffer io).length
                io_size := get_reply_header_missing_bytes K host
                  (drop_unread stale input_buffer io)
                io_allow_cancel := !op.sent_cancel },
             op)
        else if (decode_reply host (drop_unread stale input_buffer io)).1.type = K.REPLY_ERROR ∧
            (decode_reply host (drop_unread stale input_buffer io)).1.seq_nr = op.seq_nr then
          .ret .STATE_OP_DONE
            ({ file with input_buffer := some [] }, io,
             { op with
                ret_val := -1
                ret_error := decode_error (decode_reply host (drop_unread stale input_buffer io)).1
                  (decode_reply host (drop_unread stale input_buffer io)).2 })
        else if (decode_reply host (drop_unread stale input_buffer io)).1.type
            = K.REPLY_WRITTEN then
          .ret .STATE_OP_DONE
            ({ file with input_buffer := some [] }, io,
             { op with
                ret_val := ((decode_reply host (drop_unread stale input_buffer io)).1.arg1 : Int) })
        else
          .again ({ file with input_buffer := some [] }, io,
            { op with state := .WRITE_STATE_HANDLE_INPUT }) := by
  simp only [write_switch, h, hcan, hin, Bool.false_eq_true, if_false, g_string_truncate,
    List.take_zero]

end

/-! ## One round of the blocking driver -/

section
variable {Op : Type} (K : GVfsConstants)
  (iterator : GFileOutputStreamDaemon × IOOperationData × Op →
    Option (StateOp × (GFileOutputStreamDaemon × IOOperationData × Op)))
  (cancellable : Bool)

theorem sync_round_write (flag : Bool) (c : Nat) (s : DriverState Op)
    (file1 : GFileOutputStreamDaemon) (io1 : IOOperationData) (op1 : Op)
    (hit : iterator (s.file, poll_cancellable cancellable flag s.io_data, s.data)
      = some (.STATE_OP_WRITE, (file1, io1, op1)))
    (hc1 : 1 ≤ c) (hc2 : c ≤ io1.io_size) :
    sync_round K iterator cancellable ⟨flag, .wrote c⟩ s
      = some (.inr
          { file := file1
            io_data := { io1 with io_res := c, io_cancelled := false }
            data := op1
            chan := s.chan.record (io_step .STATE_OP_WRITE io1 cancellable)
              (io1.io_buffer.bytes.take c) }) := by
  have hmin : min c io1.io_size = c := Nat.min_eq_left hc2
  simp only [sync_round, hit, perform_io, hmin]
  have h1 : ¬ ((c : Int) = -1) := by omega
  have h2 : ¬ ((c : Int) = 0 ∧ io1.io_size ≠ 0) := by omega
  simp only [h1, h2, if_false, Int.toNat_ofNat]

theorem sync_round_error (flag : Bool) (e : GError) (step : StateOp) (s : DriverState Op)
    (file1 : GFileOutputStreamDaemon) (io1 : IOOperationData) (op1 : Op)
    (hit : iterator (s.file, poll_cancellable cancellable flag s.io_data, s.data)
      = some (step, (file1, io1, op1)))
    (hstep : step ≠ .STATE_OP_DONE)
    (he : error_is_cancel K (some e) = false) :
    sync_round K iterator cancellable ⟨flag, .error e⟩ s
      = some (.inl
          { ok := false, error := some (protocol_error K e.message), file := file1, op := op1
            chan := s.chan.record (io_step step io1 cancellable) [] }) := by
  cases step <;> simp_all [sync_round, perform_io]

theorem run_sync_rounds_append (a b : List DriverEvent) (s : DriverState Op) :
    run_sync_rounds K iterator cancellable (a ++ b) s
      = (run_sync_rounds K iterator cancellable a s).bind
          (run_sync_rounds K iterator cancellable b) := by
  induction a generalizing s with
  | nil => rfl
  | cons ev a ih =>
    simp only [List.cons_append, run_sync_rounds]
    cases h : sync_round K iterator cancellable ev s with
    | none => rfl
    | some r =>
      cases r with
      | inl out => rfl
      | inr s1 => exact ih s1

theorem run_sync_loop_append (a b : List DriverEvent) (s s1 : DriverState Op)
    (h : run_sync_rounds K iterator cancellable a s = some s1) :
    run_sync_loop K iterator cancellable (a ++ b) s
      = run_sync_loop K iterator cancellable b s1 := by
  induction a generalizing s with
  | nil =>
    simp only [run_sync_rounds, Option.some.injEq] at h
    subst h
    rfl
  | cons ev a ih =>
    simp only [run_sync_rounds] at h
    simp only [List.cons_append, run_sync_loop]
    cases hr : sync_round K iterator cancellable ev s with
    | none => rw [hr] at h; simp at h
    | some r =>
      cases r with
      | inl out => rw [hr] at h; simp at h
      | inr s2 =>
        rw [hr] at h
        exact ih s2 h

end

/-! ## Draining the request and the payload -/

section
variable (K : GVfsConstants) (host : ByteOrder) (stale : Nat → Nat) (cancellable : Bool)

theorem poll_cancellable_fields (flag : Bool) (io : IOOperationData) :
    (poll_cancellable cancellable flag io).io_res = io.io_res ∧
    (poll_cancellable cancellable flag io).io_size = io.io_size ∧
    (poll_cancellable cancellable flag io).io_cancelled = io.io_cancelled ∧
    (poll_cancellable cancellable flag io).io_buffer = io.io_buffer ∧
    (poll_cancellable cancellable flag io).io_allow_cancel = io.io_allow_cancel ∧
    (cancellable = false → io.cancelled = false →
      (poll_cancellable cancellable flag io).cancelled = false) := by
  unfold poll_cancellable
  cases cancellable <;> simp

/-- Draining the output buffer: a driver that sits in `WROTE_COMMAND` with `io_res` bytes of
the output buffer just accepted, and whose command channel takes the rest in the chunks
`cs`, ends with the whole buffer on the wire and the last chunk equal to what was left. -/
theorem drain_output_buffer (cs : List (Bool × Nat)) :
    ∀ s : DriverState WriteOperation,
      s.data.state = .WRITE_STATE_WROTE_COMMAND →
      s.io_data.io_cancelled = false →
      (∀ p ∈ cs, 1 ≤ p.2) →
      s.io_data.io_res + (cs.map Prod.snd).sum = s.file.output_buffer.length →
      (cancellable = false → s.io_data.cancelled = false) →
      ∃ s1 : DriverState WriteOperation,
        run_sync_rounds K (iterate_write_state_machine K host stale) cancellable
          (write_events cs) s = some s1 ∧
        s1.data = s.data ∧
        s1.io_data.io_cancelled = false ∧
        s1.io_data.io_res = s1.file.output_buffer.length ∧
        (cancellable = false → s1.io_data.cancelled = false) ∧
        s1.file.seq_nr = s.file.seq_nr ∧
        s1.file.input_buffer = s.file.input_buffer ∧
        s1.file.current_offset = s.file.current_offset ∧
        s1.file.can_seek = s.file.can_seek ∧
        s1.chan.wire = s.chan.wire ++ s.file.output_buffer.drop s.io_data.io_res ∧
        ∃ W, s1.chan.steps = s.chan.steps ++ W ∧ ∀ st ∈ W, st.kind = .STATE_OP_WRITE := by
  induction cs with
  | nil =>
    intro s _ hc _ hsum hcan
    refine ⟨s, rfl, rfl, hc, ?_, hcan, rfl, rfl, rfl, rfl, ?_, [], by simp, by simp⟩
    · simpa using hsum
    · have : s.io_data.io_res = s.file.output_buffer.length := by simpa using hsum
      simp [this]
  | cons p cs ih =>
    intro s hst hc hpos hsum hcan
    have hp : 1 ≤ p.2 := hpos p (List.mem_cons_self _ _)
    simp only [List.map_cons, List.sum_cons] at hsum
    obtain ⟨f1, f2, f3, f4, f5, f6⟩ := poll_cancellable_fields cancellable p.1 s.io_data
    have hlt : (poll_cancellable cancellable p.1 s.io_data).io_res
        < s.file.output_buffer.length := by rw [f1]; omega
    have hit := iterate_of_ret K host stale _ _ _
      (write_switch_wc_short K host stale s.file (poll_cancellable cancellable p.1 s.io_data)
        s.data hst (by rw [f3]; exact hc) hlt)
    have hround := sync_round_write K (iterate_write_state_machine K host stale) cancellable
      p.1 p.2 s _ _ _ hit hp (by simp only [List.length_drop, f1]; omega)
    obtain ⟨s1, h1, h2, h3, h4, h5, h6, h7, h8, h9, h10, W, hW, hWk⟩ :=
      ih { file := { s.file with output_buffer := s.file.output_buffer.drop s.io_data.io_res }
           io_data := { cancelled := (poll_cancellable cancellable p.1 s.io_data).cancelled
                        io_buffer := .source (s.file.output_buffer.drop s.io_data.io_res)
                        io_size := (s.file.output_buffer.drop s.io_data.io_res).length
                        io_res := p.2
                        io_allow_cancel := false
                        io_cancelled := false }
           data := s.data
           chan := s.chan.record
             (io_step .STATE_OP_WRITE
               { cancelled := (poll_cancellable cancellable p.1 s.io_data).cancelled
                 io_buffer := .source (s.file.output_buffer.drop s.io_data.io_res)
                 io_size := (s.file.output_buffer.drop s.io_data.io_res).length
                 io_res := s.io_data.io_res
                 io_allow_cancel := false
                 io_cancelled := s.io_data.io_cancelled } cancellable)
             ((s.file.output_buffer.drop s.io_data.io_res).take p.2) }
        hst rfl (fun q hq => hpos q (List.mem_cons_of_mem _ hq))
        (by simp only [List.length_drop]; omega)
        (fun hcf => f6 hcf (hcan hcf))
    refine ⟨s1, ?_, h2, h3, h4, h5, h6, h7, h8, h9, ?_, ?_⟩
    · simp only [write_events, List.map_cons, run_sync_rounds] at h1 ⊢
      rw [hround]
      simp only [f1, f2, f3, f4, f5] at h1 ⊢
      exact h1
    · rw [h10]
      simp only [Channels.record, List.append_assoc, List.take_append_drop]
    · rw [hW]
      simp only [Channels.record]
      refine ⟨_, List.append_assoc _ _ _, ?_⟩
      intro st hst'
      rcases List.mem_append.mp hst' with h | h
      · rw [List.mem_singleton.mp h]; rfl
      · exact hWk st h
end

section
variable (K : GVfsConstants) (host : ByteOrder) (stale : Nat → Nat) (cancellable : Bool)

/-- Sending the payload: a driver that sits in `SEND_DATA` with `io_res` payload bytes just
accepted after the first `buffer_pos`, and whose command channel takes the rest in the
chunks `cs`, puts exactly the rest of the payload on the wire. -/
theorem drain_payload (cs : List (Bool × Nat)) :
    ∀ s : DriverState WriteOperation,
      s.data.state = .WRITE_STATE_SEND_DATA →
      s.data.buffer_size < GSIZE →
      (∀ p ∈ cs, 1 ≤ p.2) →
      s.data.buffer_pos + s.io_data.io_res + (cs.map Prod.snd).sum = s.data.buffer_size →
      (cancellable = false → s.io_data.cancelled = false) →
      ∃ s1 : DriverState WriteOperation,
        run_sync_rounds K (iterate_write_state_machine K host stale) cancellable
          (write_events cs) s = some s1 ∧
        s1.data = { s.data with buffer_pos := s1.data.buffer_pos } ∧
        s1.data.buffer_pos + s1.io_data.io_res = s.data.buffer_size ∧
        (cancellable = false → s1.io_data.cancelled = false) ∧
        s1.file = s.file ∧
        s1.chan.wire = s.chan.wire
          ++ (s.data.buffer.drop (s.data.buffer_pos + s.io_data.io_res)).take
              (cs.map Prod.snd).sum ∧
        ∃ W, s1.chan.steps = s.chan.steps ++ W ∧ ∀ st ∈ W, st.kind = .STATE_OP_WRITE := by
  induction cs with
  | nil =>
    intro s _ _ _ hsum hcan
    refine ⟨s, rfl, rfl, by simpa using hsum, hcan, rfl, by simp, [], by simp, by simp⟩
  | cons p cs ih =>
    intro s hst hn hpos hsum hcan
    have hp : 1 ≤ p.2 := hpos p (List.mem_cons_self _ _)
    simp only [List.map_cons, List.sum_cons] at hsum
    obtain ⟨f1, f2, f3, f4, f5, f6⟩ := poll_cancellable_fields cancellable p.1 s.io_data
    have hlt : s.data.buffer_pos + (poll_cancellable cancellable p.1 s.io_data).io_res
        < s.data.buffer_size := by rw [f1]; omega
    have hit := iterate_of_ret K host stale _ _ _
      (write_switch_send_more K host stale s.file (poll_cancellable cancellable p.1 s.io_data)
        s.data hst hlt hn)
    have hround := sync_round_write K (iterate_write_state_machine K host stale) cancellable
      p.1 p.2 s _ _ _ hit hp (by simp only [f1]; omega)
    obtain ⟨s1, h1, h2, h3, h4, h5, h6, W, hW, hWk⟩ :=
      ih { file := s.file
           io_data := { cancelled := (poll_cancellable cancellable p.1 s.io_data).cancelled
                        io_buffer := .source
                          (s.data.buffer.drop (s.data.buffer_pos + s.io_data.io_res))
                        io_size := s.data.buffer_size - (s.data.buffer_pos + s.io_data.io_res)
                        io_res := p.2
                        io_allow_cancel := false
                        io_cancelled := false }
           data := { s.data with buffer_pos := s.data.buffer_pos + s.io_data.io_res }
           chan := s.chan.record
             (io_step .STATE_OP_WRITE
               { cancelled := (poll_cancellable cancellable p.1 s.io_data).cancelled
                 io_buffer := .source
                   (s.data.buffer.drop (s.data.buffer_pos + s.io_data.io_res))
                 io_size := s.data.buffer_size - (s.data.buffer_pos + s.io_data.io_res)
                 io_res := s.io_data.io_res
                 io_allow_cancel := false
                 io_cancelled := s.io_data.io_cancelled } cancellable)
             ((s.data.buffer.drop (s.data.buffer_pos + s.io_data.io_res)).take p.2) }
        hst hn (fun q hq => hpos q (List.mem_cons_of_mem _ hq))
        (by simp only; omega)
        (fun hcf => f6 hcf (hcan hcf))
    refine ⟨s1, ?_, ?_, h3, h4, h5, ?_, ?_⟩
    · simp only [write_events, List.map_cons, run_sync_rounds] at h1 ⊢
      rw [hround]
      simp only [f1, f2, f3, f4, f5] at h1 ⊢
      exact h1
    · rw [h2]
    · rw [h6]
      simp only [Channels.record, List.append_assoc, IOBuffer.bytes, List.map_cons,
        List.sum_cons, List.take_add, List.drop_drop]
    · rw [hW]
      simp only [Channels.record]
      refine ⟨_, List.append_assoc _ _ _, ?_⟩
      intro st hst'
      rcases List.mem_append.mp hst' with h | h
      · rw [List.mem_singleton.mp h]; rfl
      · exact hWk st h
end

/-! ## The send phase of a write -/

section
variable (K : GVfsConstants) (host : ByteOrder) (stale : Nat → Nat) (cancellable : Bool)

theorem sum_pos_cons (cs : List (Bool × Nat)) (h : 1 ≤ (cs.map Prod.snd).sum) :
    ∃ p rest, cs = p :: rest := by
  cases cs with
  | nil => simp at h
  | cons p rest => exact ⟨p, rest, rfl⟩

theorem write_operation_new_size (buffer : List Nat) (n : Nat) (h : n ≤ MAX_WRITE_SIZE) :
    (write_operation_new buffer n).buffer_size = n := by
  have : ¬ n > MAX_WRITE_SIZE := by omega
  simp only [write_operation_new, this, if_false]

/-- With the cancellation flag set and no CANCEL sent yet, the await state appends a CANCEL
request and offers the output buffer. -/
theorem write_switch_hi_cancel (file : GFileOutputStreamDaemon) (io : IOOperationData)
    (op : WriteOperation)
    (h : op.state = .WRITE_STATE_HANDLE_INPUT)
    (hcan : io.cancelled = true) (hs : op.sent_cancel = false) :
    write_switch K host stale (file, io, op)
      = .ret .STATE_OP_WRITE
          ((append_request host file K.REQUEST_CANCEL op.seq_nr 0 0).1,
           { io with
              io_buffer := .source
                (append_request host file K.REQUEST_CANCEL op.seq_nr 0 0).1.output_buffer
              io_size := (append_request host file K.REQUEST_CANCEL op.seq_nr 0 0).1.output_buffer.length
              io_allow_cancel := false },
           { op with sent_cancel := true, state := .WRITE_STATE_WROTE_COMMAND }) := by
  simp only [write_switch, h, hcan, hs, Bool.not_false, Bool.and_self, if_true]

/-- The whole send phase of a write, for any chunking of the request and of the payload. -/
theorem write_send_phase (file : GFileOutputStreamDaemon) (buffer : List Nat) (n : Nat)
    (hs ps : List (Bool × Nat)) (chan : Channels)
    (hout : file.output_buffer = []) (hin : file.input_buffer = none)
    (hn1 : 1 ≤ n) (hn2 : n ≤ MAX_WRITE_SIZE)
    (hhs : ∀ p ∈ hs, 1 ≤ p.2) (hhsum : (hs.map Prod.snd).sum = 20)
    (hps : ∀ p ∈ ps, 1 ≤ p.2) (hpsum : (ps.map Prod.snd).sum = n) :
    ∃ s : DriverState WriteOperation,
      run_sync_rounds K (iterate_write_state_machine K host stale) cancellable
          (write_events hs ++ write_events ps)
          { file := file, io_data := io_data_zero, data := write_operation_new buffer n
            chan := chan } = some s ∧
      s.chan.wire = chan.wire
        ++ (be32 K.REQUEST_WRITE ++ be32 file.seq_nr ++ be32 n ++ be32 0 ++ store32 host n)
        ++ buffer.take n ∧
      (∃ W, s.chan.steps = chan.steps ++ W ∧ ∀ st ∈ W, st.kind = .STATE_OP_WRITE) ∧
      ∀ flag : Bool,
        iterate_write_state_machine K host stale
            (s.file, poll_cancellable cancellable flag s.io_data, s.data)
          = await_first K host stale file buffer n (cancellable && flag) := by
  obtain ⟨h0, hs', rfl⟩ := sum_pos_cons hs (by omega)
  obtain ⟨p0, ps', rfl⟩ := sum_pos_cons ps (by omega)
  simp only [List.map_cons, List.sum_cons] at hhsum hpsum
  have hsz := write_operation_new_size buffer n hn2
  have hG : n < GSIZE := by unfold MAX_WRITE_SIZE at hn2; unfold GSIZE; omega
  -- round 1: the request is appended and offered whole
  have hbuf := append_request_output host file K.REQUEST_WRITE n 0 n
  rw [hout, List.nil_append] at hbuf
  have hlen : (append_request host file K.REQUEST_WRITE n 0 n).1.output_buffer.length = 20 := by
    rw [hbuf]; simp [be32_length, store32_length]
  have hit1 := iterate_of_ret K host stale _ _ _
    (write_switch_init K host stale file (poll_cancellable cancellable h0.1 io_data_zero)
      (write_operation_new buffer n) rfl)
  rw [hsz] at hit1
  have hr1 := sync_round_write K (iterate_write_state_machine K host stale) cancellable
    h0.1 h0.2
    { file := file, io_data := io_data_zero, data := write_operation_new buffer n, chan := chan }
    _ _ _ hit1 (hhs h0 (List.mem_cons_self _ _)) (by simp only [hlen]; omega)
  obtain ⟨s1, e1, d1, c1, r1, k1, fl1, w1, t1⟩ : ∃ s1 : DriverState WriteOperation,
      sync_round K (iterate_write_state_machine K host stale) cancellable
        ⟨h0.1, .wrote h0.2⟩
        { file := file, io_data := io_data_zero, data := write_operation_new buffer n
          chan := chan } = some (.inr s1) ∧
      s1.data = { state := .WRITE_STATE_WROTE_COMMAND, buffer := buffer, buffer_size := n
                  buffer_pos := 0, ret_val := 0, ret_error := none, sent_cancel := false
                  seq_nr := file.seq_nr } ∧
      s1.io_data.io_cancelled = false ∧
      s1.io_data.io_res = h0.2 ∧
      (cancellable = false → s1.io_data.cancelled = false) ∧
      s1.file = (append_request host file K.REQUEST_WRITE n 0 n).1 ∧
      s1.chan.wire = chan.wire
        ++ (append_request host file K.REQUEST_WRITE n 0 n).1.output_buffer.take h0.2 ∧
      s1.chan.steps = chan.steps ++ [io_step .STATE_OP_WRITE
        { poll_cancellable cancellable h0.1 io_data_zero with
            io_buffer := .source (append_request host file K.REQUEST_WRITE n 0 n).1.output_buffer
            io_size := (append_request host file K.REQUEST_WRITE n 0 n).1.output_buffer.length
            io_allow_cancel := true } cancellable] :=
    ⟨_, hr1, rfl, rfl, rfl,
      fun hc => (poll_cancellable_fields cancellable h0.1 io_data_zero).2.2.2.2.2 hc rfl,
      rfl, rfl, rfl⟩
  -- the rest of the request is drained
  obtain ⟨s2, e2, d2, c2, r2, k2, q2, i2, o2, cs2, w2, W2, t2, tk2⟩ :=
    drain_output_buffer K host stale cancellable hs' s1 (by rw [d1]) c1
      (fun q hq => hhs q (List.mem_cons_of_mem _ hq))
      (by rw [r1, fl1, hlen]; omega) k1
  have hd2 := d2.trans d1
  -- the round in which the drained request is noticed and the payload is offered
  obtain ⟨f1, f2, f3, f4, f5, f6⟩ := poll_cancellable_fields cancellable p0.1 s2.io_data
  have hit3 : iterate_write_state_machine K host stale
      (s2.file, poll_cancellable cancellable p0.1 s2.io_data, s2.data)
      = some (.STATE_OP_WRITE,
          ({ s2.file with output_buffer := [] },
           { cancelled := (poll_cancellable cancellable p0.1 s2.io_data).cancelled
             io_buffer := .source buffer, io_size := n, io_res := 0
             io_allow_cancel := false, io_cancelled := false },
           { state := .WRITE_STATE_SEND_DATA, buffer := buffer, buffer_size := n
             buffer_pos := 0, ret_val := 0, ret_error := none, sent_cancel := false
             seq_nr := file.seq_nr })) := by
    rw [hd2]
    refine iterate_of_again_ret K host stale _ _ _ _ _ _
      (write_switch_wc_drained K host stale s2.file _ _ rfl (by rw [f3]; exact c2)
        (by rw [f1, r2])) ?_
    have h := write_switch_send_more K host stale { s2.file with output_buffer := [] }
      (clear_io_op (poll_cancellable cancellable p0.1 s2.io_data))
      { state := .WRITE_STATE_SEND_DATA, buffer := buffer, buffer_size := n
        buffer_pos := 0, ret_val := 0, ret_error := none, sent_cancel := false
        seq_nr := file.seq_nr } rfl (by simp only [clear_io_op]; omega) hG
    simpa [clear_io_op] using h
  have hp0 : 1 ≤ p0.2 := hps p0 (List.mem_cons_self _ _)
  have hr3 := sync_round_write K (iterate_write_state_machine K host stale) cancellable
    p0.1 p0.2 s2 _ _ _ hit3 hp0 (by simp only; omega)
  obtain ⟨s3, e3, d3, r3, k3, fl3, w3, t3⟩ : ∃ s3 : DriverState WriteOperation,
      sync_round K (iterate_write_state_machine K host stale) cancellable
        ⟨p0.1, .wrote p0.2⟩ s2 = some (.inr s3) ∧
      s3.data = { state := .WRITE_STATE_SEND_DATA, buffer := buffer, buffer_size := n
                  buffer_pos := 0, ret_val := 0, ret_error := none, sent_cancel := false
                  seq_nr := file.seq_nr } ∧
      s3.io_data.io_res = p0.2 ∧
      (cancellable = false → s3.io_data.cancelled = false) ∧
      s3.file = { s2.file with output_buffer := [] } ∧
      s3.chan.wire = s2.chan.wire ++ buffer.take p0.2 ∧
      s3.chan.steps = s2.chan.steps ++ [io_step .STATE_OP_WRITE
        { cancelled := (poll_cancellable cancellable p0.1 s2.io_data).cancelled
          io_buffer := .source buffer, io_size := n, io_res := 0
          io_allow_cancel := false, io_cancelled := false } cancellable] :=
    ⟨_, hr3, rfl, rfl, fun hc => f6 hc (k2 hc), rfl, rfl, rfl⟩
  -- the rest of the payload
  obtain ⟨s4, e4, d4, r4, k4, fl4, w4, W4, t4, tk4⟩ :=
    drain_payload K host stale cancellable ps' s3 (by rw [d3]) (by rw [d3]; exact hG)
      (fun q hq => hps q (List.mem_cons_of_mem _ hq))
      (by rw [d3, r3]; simp only; omega) k3
  have hfile4 : s4.file = { file with seq_nr := (file.seq_nr + 1) % 4294967296
                                      output_buffer := [] } := by
    rw [fl4, fl3]
    have hext : ∀ a b : GFileOutputStreamDaemon, a.seq_nr = b.seq_nr →
        a.input_buffer = b.input_buffer → a.current_offset = b.current_offset →
        a.can_seek = b.can_seek →
        { a with output_buffer := [] } = { b with output_buffer := ([] : List Nat) } := by
      intro a b h1 h2 h3 h4
      cases a; cases b
      simp only at h1 h2 h3 h4
      simp only [h1, h2, h3, h4]
    rw [hext s2.file s1.file q2 i2 o2 cs2, fl1]
    rfl
  have hd4 : s4.data
      = { state := .WRITE_STATE_SEND_DATA, buffer := buffer, buffer_size := n
          buffer_pos := s4.data.buffer_pos, ret_val := 0, ret_error := none
          sent_cancel := false, seq_nr := file.seq_nr } := by rw [d4, d3]
  rw [d3] at r4
  simp only at r4
  -- the next call of the state machine: a CANCEL request if the cancellable is set by then,
  -- otherwise the pass that awaits the reply faults on the input buffer
  have hit5 : ∀ flag : Bool,
      iterate_write_state_machine K host stale
          (s4.file, poll_cancellable cancellable flag s4.io_data, s4.data)
        = await_first K host stale file buffer n (cancellable && flag) := by
    intro flag
    obtain ⟨g1, g2, g3, g4, g5, g6⟩ := poll_cancellable_fields cancellable flag s4.io_data
    rw [hd4, hfile4]
    have hsd := write_switch_send_done K host stale
      { file with seq_nr := (file.seq_nr + 1) % 4294967296, output_buffer := [] }
      (poll_cancellable cancellable flag s4.io_data)
      { state := .WRITE_STATE_SEND_DATA, buffer := buffer, buffer_size := n
        buffer_pos := s4.data.buffer_pos, ret_val := 0, ret_error := none
        sent_cancel := false, seq_nr := file.seq_nr } rfl (by rw [g1]; exact r4) hG
    rcases Bool.eq_false_or_eq_true (cancellable && flag) with hcf | hcf
    · rw [hcf]
      simp only [Bool.and_eq_true] at hcf
      have hcanc : (poll_cancellable cancellable flag s4.io_data).cancelled = true := by
        simp only [poll_cancellable, hcf.1, if_true, hcf.2]
      simp only [await_first, if_true]
      refine iterate_of_again_ret K host stale _ _ _ _ _ _ hsd ?_
      refine (write_switch_hi_cancel K host stale _ _ _ ?_ ?_ ?_).trans ?_
      · rfl
      · exact hcanc
      · rfl
      · simp only [clear_io_op, hcanc]
    · rw [hcf]
      have hcanc : (poll_cancellable cancellable flag s4.io_data).cancelled = false := by
        rcases Bool.eq_false_or_eq_true cancellable with hcb | hcb
        · rw [hcb] at hcf
          simp only [Bool.true_and] at hcf
          simp only [poll_cancellable, hcb, if_true, hcf]
        · exact g6 hcb (k4 hcb)
      simp only [await_first, Bool.false_eq_true, if_false]
      refine iterate_of_again_fault K host stale _ _ _ _ hsd ?_
      refine write_switch_hi_null K host stale _ _ _ rfl ?_ hin
      show ((poll_cancellable cancellable flag s4.io_data).cancelled && !false) = false
      rw [hcanc]; rfl
  refine ⟨s4, ?_, ?_, ?_, hit5⟩
  · rw [run_sync_rounds_append]
    have ha : run_sync_rounds K (iterate_write_state_machine K host stale) cancellable
        (write_events (h0 :: hs'))
        { file := file, io_data := io_data_zero, data := write_operation_new buffer n
          chan := chan } = some s2 := by
      simp only [write_events, List.map_cons, run_sync_rounds, e1]
      exact e2
    have hb : run_sync_rounds K (iterate_write_state_machine K host stale) cancellable
        (write_events (p0 :: ps')) s2 = some s4 := by
      simp only [write_events, List.map_cons, run_sync_rounds, e3]
      exact e4
    rw [ha]
    exact hb
  · rw [w4, w3, w2, w1, d3, r3, r1, fl1, hbuf]
    simp only [List.append_assoc, List.map_cons, List.sum_cons, Nat.zero_add,
      List.take_append_drop, ← hpsum, List.take_add, List.drop_drop]
  · rw [t4, t3, t2, t1]
    simp only [List.append_assoc]
    refine ⟨_, rfl, ?_⟩
    intro st hst
    simp only [List.mem_append, List.mem_singleton] at hst
    rcases hst with h | h | h | h
    · rw [h]; rfl
    · exact tk2 st h
    · rw [h]; rfl
    · exact tk4 st h
end

/-! ## Start of the payload, rounds of the cooperative driver -/

section
variable (K : GVfsConstants) (host : ByteOrder) (stale : Nat → Nat)

/-- Once the request is drained, the same call of the state machine offers the whole
payload. -/
theorem iterate_payload_start (file : GFileOutputStreamDaemon) (io : IOOperationData)
    (op : WriteOperation)
    (h : op.state = .WRITE_STATE_WROTE_COMMAND) (hc : io.io_cancelled = false)
    (hr : file.output_buffer.length ≤ io.io_res) (hs : op.sent_cancel = false)
    (hn : 0 < op.buffer_size) (hn2 : op.buffer_size < GSIZE) :
    iterate_write_state_machine K host stale (file, io, op)
      = some (.STATE_OP_WRITE,
          ({ file with output_buffer := [] },
           { cancelled := io.cancelled, io_buffer := .source op.buffer
             io_size := op.buffer_size, io_res := 0, io_allow_cancel := false
             io_cancelled := false },
           { op with buffer_pos := 0, state := .WRITE_STATE_SEND_DATA })) := by
  refine iterate_of_again_ret K host stale _ _ _ _ _ _
    (write_switch_wc_drained K host stale file io op h hc hr) ?_
  refine (write_switch_send_more K host stale _ _ _ ?_ ?_ ?_).trans ?_
  · simp only [hs, Bool.false_eq_true, if_false]
  · simp only [clear_io_op]; omega
  · exact hn2
  · simp only [clear_io_op, hs, Bool.false_eq_true, if_false, Nat.add_zero, Nat.sub_zero,
      List.drop_zero]
end

section
variable {Op : Type} (K : GVfsConstants)
  (iterator : GFileOutputStreamDaemon × IOOperationData × Op →
    Option (StateOp × (GFileOutputStreamDaemon × IOOperationData × Op)))
  (cancellable : Bool)

theorem async_round_write (flag : Bool) (c : Nat) (s : DriverState Op)
    (file1 : GFileOutputStreamDaemon) (io1 : IOOperationData) (op1 : Op)
    (hit : iterator (s.file, { s.io_data with cancelled := cancellable && flag }, s.data)
      = some (.STATE_OP_WRITE, (file1, io1, op1)))
    (hc1 : 1 ≤ c) (hc2 : c ≤ io1.io_size) :
    async_round K iterator cancellable ⟨flag, .wrote c⟩ s
      = some (.inr
          { file := file1
            io_data := { io1 with io_res := c, io_cancelled := false }
            data := op1
            chan := s.chan.record (io_step .STATE_OP_WRITE io1 cancellable)
              (io1.io_buffer.bytes.take c) }) := by
  have hmin : min c io1.io_size = c := Nat.min_eq_left hc2
  have h2 : ¬ ((c : Int) = 0 ∧ io1.io_size ≠ 0) := by omega
  simp only [async_round, hit, perform_io, hmin, async_op_handle, h2, if_false,
    Int.toNat_ofNat]

theorem async_round_error (flag : Bool) (e : GError) (step : StateOp) (s : DriverState Op)
    (file1 : GFileOutputStreamDaemon) (io1 : IOOperationData) (op1 : Op)
    (hit : iterator (s.file, { s.io_data with cancelled := cancellable && flag }, s.data)
      = some (step, (file1, io1, op1)))
    (hstep : step ≠ .STATE_OP_DONE)
    (he : error_is_cancel K (some e) = false) :
    async_round K iterator cancellable ⟨flag, .error e⟩ s
      = some (.inl
          { io_error := some (protocol_error K e.message), file := file1, op := op1
            chan := s.chan.record (io_step step io1 cancellable) [] }) := by
  cases step <;> simp_all [async_round, perform_io, async_op_handle]
end

theorem write_operation_new_eq (buffer : List Nat) (count : Nat) :
    write_operation_new buffer count
      = { state := .WRITE_STATE_INIT, buffer := buffer, buffer_size := min count 4194304
          buffer_pos := 0, ret_val := 0, ret_error := none, sent_cancel := false
          seq_nr := 0 } := by
  unfold write_operation_new MAX_WRITE_SIZE
  congr 1
  split_ifs <;> omega

/-! ## One pass of the close and seek state machines -/

section
variable (K : GVfsConstants) (host : ByteOrder) (stale : Nat → Nat)

theorem write_switch_wc_cancelled (file : GFileOutputStreamDaemon) (io : IOOperationData)
    (op : WriteOperation)
    (h : op.state = .WRITE_STATE_WROTE_COMMAND) (hc : io.io_cancelled = true) :
    write_switch K host stale (file, io, op)
      = .ret .STATE_OP_DONE
          (file, io,
           { op with
              ret_val := -1
              ret_error := some { domain := K.G_VFS_ERROR, code := K.G_VFS_ERROR_CANCELLED,
                                  message := MSG_CANCELLED } }) := by
  simp only [write_switch, h, hc, if_true]

theorem iterate_close_loop_succ (fuel : Nat) (s : CloseConf) :
    iterate_close_loop K host stale (fuel + 1) s
      = match close_switch K host stale s with
        | .ret step s1 => some (step, s1)
        | .again (file, io_op, op) =>
          iterate_close_loop K host stale fuel (file, clear_io_op io_op, op)
        | .fault => none := rfl

theorem close_iterate_of_ret (s s1 : CloseConf) (step : StateOp)
    (h : close_switch K host stale s = .ret step s1) :
    iterate_close_state_machine K host stale s = some (step, s1) := by
  rw [iterate_close_state_machine, iterate_close_loop_succ, h]

theorem close_switch_wr_cancelled (file : GFileOutputStreamDaemon) (io : IOOperationData)
    (op : CloseOperation)
    (h : op.state = .CLOSE_STATE_WROTE_REQUEST) (hc : io.io_cancelled = true) :
    close_switch K host stale (file, io, op)
      = .ret .STATE_OP_DONE
          (file, io,
           { op with
              ret_val := 0
              ret_error := some { domain := K.G_VFS_ERROR, code := K.G_VFS_ERROR_CANCELLED,
                                  message := MSG_CANCELLED } }) := by
  simp only [close_switch, h, hc, if_true]

theorem close_switch_hi_cancel (file : GFileOutputStreamDaemon) (io : IOOperationData)
    (op : CloseOperation)
    (h : op.state = .CLOSE_STATE_HANDLE_INPUT)
    (hcan : io.cancelled = true) (hs : op.sent_cancel = false) :
    close_switch K host stale (file, io, op)
      = .ret .STATE_OP_WRITE
          ((append_request host file K.REQUEST_CANCEL op.seq_nr 0 0).1,
           { io with
              io_buffer := .source
                (append_request host file K.REQUEST_CANCEL op.seq_nr 0 0).1.output_buffer
              io_size := (append_request host file K.REQUEST_CANCEL op.seq_nr 0 0).1.output_buffer.length
              io_allow_cancel := false },
           { op with sent_cancel := true, state := .CLOSE_STATE_WROTE_REQUEST }) := by
  simp only [close_switch, h, hcan, hs, Bool.not_false, Bool.and_self, if_true]

/-- The await state of a close on a stream whose input buffer is `NULL`, no CANCEL request
being due: the pass faults. -/
theorem close_switch_hi_null (file : GFileOutputStreamDaemon) (io : IOOperationData)
    (op : CloseOperation)
    (h : op.state = .CLOSE_STATE_HANDLE_INPUT)
    (hcan : (io.cancelled && !op.sent_cancel) = false)
    (hin : file.input_buffer = none) :
    close_switch K host stale (file, io, op) = .fault := by
  simp only [close_switch, h, hcan, hin, Bool.false_eq_true, if_false]

/-- The await state of a close on a stream whose input buffer holds `input_buffer`, no CANCEL
request being due. -/
theorem close_switch_hi_some (file : GFileOutputStreamDaemon) (io : IOOperationData)
    (op : CloseOperation) (input_buffer : List Nat)
    (h : op.state = .CLOSE_STATE_HANDLE_INPUT)
    (hcan : (io.cancelled && !op.sent_cancel) = false)
    (hin : file.input_buffer = some input_buffer) :
    close_switch K host stale (file, io, op)
      = if get_reply_header_missing_bytes K host (drop_unread stale input_buffer io) > 0 then
          .ret .STATE_OP_READ
            ({ file with
                input_buffer := some (g_string_set_size stale (drop_unread stale input_buffer io)
                  (gsize_add (drop_unread stale input_buffer io).length
                    (get_reply_header_missing_bytes K host
                      (drop_unread stale input_buffer io)))) },
             { io with
                io_buffer := .input_str (drop_unread stale input_buffer io).length
                io_size := get_reply_header_missing_bytes K host
                  (drop_unread stale input_buffer io)
                io_allow_cancel := !op.sent_cancel },
             op)
        else if (decode_reply host (drop_unread stale input_buffer io)).1.type = K.REPLY_ERROR ∧
            (decode_reply host (drop_unread stale input_buffer io)).1.seq_nr = op.seq_nr then
          .ret .STATE_OP_DONE
            ({ file with input_buffer := some [] }, io,
             { op with
                ret_val := 0
                ret_error := decode_error (decode_reply host (drop_unread stale input_buffer io)).1
                  (decode_reply host (drop_unread stale input_buffer io)).2 })
        else if (decode_reply host (drop_unread stale input_buffer io)).1.type
            = K.REPLY_CLOSED then
          .ret .STATE_OP_DONE
            ({ file with input_buffer := some [] }, io,
             { op with
                ret_val := 1 })
        else
          .again ({ file with input_buffer := some [] }, io,
            { op with state := .CLOSE_STATE_HANDLE_INPUT }) := by
  simp only [close_switch, h, hcan, hin, Bool.false_eq_true, if_false, g_string_truncate,
    List.take_zero]

end
section
variable (K : GVfsConstants) (host : ByteOrder) (stale : Nat → Nat)

theorem iterate_seek_loop_succ (fuel : Nat) (s : SeekConf) :
    iterate_seek_loop K host stale (fuel + 1) s
      = match seek_switch K host stale s with
        | .ret step s1 => some (step, s1)
        | .again (file, io_op, op) =>
          iterate_seek_loop K host stale fuel (file, clear_io_op io_op, op)
        | .fault => none := rfl

theorem seek_iterate_of_ret (s s1 : SeekConf) (step : StateOp)
    (h : seek_switch K host stale s = .ret step s1) :
    iterate_seek_state_machine K host stale s = some (step, s1) := by
  rw [iterate_seek_state_machine, iterate_seek_loop_succ, h]

theorem seek_switch_init (file : GFileOutputStreamDaemon) (io : IOOperationData)
    (op : SeekOperation) (h : op.state = .SEEK_STATE_INIT) :
    seek_switch K host stale (file, io, op)
      = .ret .STATE_OP_WRITE
          ((append_request host file (seek_request K op.seek_type)
              (offset_low op.offset) (offset_high op.offset) 0).1,
           { io with
              io_buffer := .source (append_request host file (seek_request K op.seek_type)
              (offset_low op.offset) (offset_high op.offset) 0).1.output_buffer
              io_size := (append_request host file (seek_request K op.seek_type)
              (offset_low op.offset) (offset_high op.offset) 0).1.output_buffer.length
              io_allow_cancel := true },
           { op with seq_nr := file.seq_nr, state := .SEEK_STATE_WROTE_REQUEST }) := by
  simp only [seek_switch, h]
  rfl

theorem seek_switch_wr_cancelled (file : GFileOutputStreamDaemon) (io : IOOperationData)
    (op : SeekOperation)
    (h : op.state = .SEEK_STATE_WROTE_REQUEST) (hc : io.io_cancelled = true) :
    seek_switch K host stale (file, io, op)
      = .ret .STATE_OP_DONE
          (file, io,
           { op with
              ret_val := -1
              ret_error := some { domain := K.G_VFS_ERROR, code := K.G_VFS_ERROR_CANCELLED,
                                  message := MSG_CANCELLED } }) := by
  simp only [seek_switch, h, hc, if_true]

theorem seek_switch_hi_cancel (file : GFileOutputStreamDaemon) (io : IOOperationData)
    (op : SeekOperation)
    (h : op.state = .SEEK_STATE_HANDLE_INPUT)
    (hcan : io.cancelled = true) (hs : op.sent_cancel = false) :
    seek_switch K host stale (file, io, op)
      = .ret .STATE_OP_WRITE
          ((append_request host file K.REQUEST_CANCEL op.seq_nr 0 0).1,
           { io with
              io_buffer := .source
                (append_request host file K.REQUEST_CANCEL op.seq_nr 0 0).1.output_buffer
              io_size := (append_request host file K.REQUEST_CANCEL op.seq_nr 0 0).1.output_buffer.length
              io_allow_cancel := false },
           { op with sent_cancel := true, state := .SEEK_STATE_WROTE_REQUEST }) := by
  simp only [seek_switch, h, hcan, hs, Bool.not_false, Bool.and_self, if_true]

/-- The await state of a seek on a stream whose input buffer is `NULL`, no CANCEL request
being due: the pass faults. -/
theorem seek_switch_hi_null (file : GFileOutputStreamDaemon) (io : IOOperationData)
    (op : SeekOperation)
    (h : op.state = .SEEK_STATE_HANDLE_INPUT)
    (hcan : (io.cancelled && !op.sent_cancel) = false)
    (hin : file.input_buffer = none) :
    seek_switch K host stale (file, io, op) = .fault := by
  simp only [seek_switch, h, hcan, hin, Bool.false_eq_true, if_false]

/-- The await state of a seek on a stream whose input buffer holds `input_buffer`, no CANCEL
request being due. -/
theorem seek_switch_hi_some (file : GFileOutputStreamDaemon) (io : IOOperationData)
    (op : SeekOperation) (input_buffer : List Nat)
    (h : op.state = .SEEK_STATE_HANDLE_INPUT)
    (hcan : (io.cancelled && !op.sent_cancel) = false)
    (hin : file.input_buffer = some input_buffer) :
    seek_switch K host stale (file, io, op)
      = if get_reply_header_missing_bytes K host (drop_unread stale input_buffer io) > 0 then
          .ret .STATE_OP_READ
            ({ file with
                input_buffer := some (g_string_set_size stale (drop_unread stale input_buffer io)
                  (gsize_add (drop_unread stale input_buffer io).length
                    (get_reply_header_missing_bytes K host
                      (drop_unread stale input_buffer io)))) },
             { io with
                io_buffer := .input_str (drop_unread stale input_buffer io).length
                io_size := get_reply_header_missing_bytes K host
                  (drop_unread stale input_buffer io)
                io_allow_cancel := !op.sent_cancel },
             op)
        else if (decode_reply host (drop_unread stale input_buffer io)).1.type = K.REPLY_ERROR ∧
            (decode_reply host (drop_unread stale input_buffer io)).1.seq_nr = op.seq_nr then
          .ret .STATE_OP_DONE
            ({ file with input_buffer := some [] }, io,
             { op with
                ret_val := 0
                ret_error := decode_error (decode_reply host (drop_unread stale input_buffer io)).1
                  (decode_reply host (drop_unread stale input_buffer io)).2 })
        else if (decode_reply host (drop_unread stale input_buffer io)).1.type
            = K.REPLY_SEEK_POS then
          .ret .STATE_OP_DONE
            ({ file with input_buffer := some [] }, io,
             { op with
                ret_val := 1
                ret_offset := seek_pos_offset (decode_reply host (drop_unread stale input_buffer io)).1 })
        else
          .again ({ file with input_buffer := some [] }, io,
            { op with state := .SEEK_STATE_HANDLE_INPUT }) := by
  simp only [seek_switch, h, hcan, hin, Bool.false_eq_true, if_false, g_string_truncate,
    List.take_zero]

end

/-! ## The request for cancellation -/

theorem store32_zero (host : ByteOrder) : store32 host 0 = be32 0 := by
  cases host <;> rfl

/-- The stream after `append_request` for a CANCEL request. -/
theorem append_request_cancel (K : GVfsConstants) (host : ByteOrder)
    (file : GFileOutputStreamDaemon) (seq : Nat) :
    (append_request host file K.REQUEST_CANCEL seq 0 0).1
      = { file with
          seq_nr := (file.seq_nr + 1) % 4294967296
          output_buffer := file.output_buffer ++ (be32 K.REQUEST_CANCEL ++ be32 file.seq_nr
            ++ be32 seq ++ be32 0 ++ be32 0) } := by
  have h := append_request_output host file K.REQUEST_CANCEL seq 0 0
  rw [store32_zero] at h
  have h2 : (append_request host file K.REQUEST_CANCEL seq 0 0).1
      = { file with
          seq_nr := (file.seq_nr + 1) % 4294967296
          output_buffer := (append_request host file K.REQUEST_CANCEL seq 0 0).1.output_buffer } := rfl
  rw [h2, h]

/-! ## The stream counter during an operation -/

section
variable (K : GVfsConstants) (host : ByteOrder) (stale : Nat → Nat)

/-- A pass of the write state machine keeps the counter relation and leaves the initial
state. -/
theorem write_switch_counter (s0 : Nat) (hs0 : s0 < 4294967296) (s : WriteConf)
    (h : write_counter_inv s0 s.1.seq_nr s.2.2) :
    match write_switch K host stale s with
    | .ret _ s1 => write_counter_inv s0 s1.1.seq_nr s1.2.2 ∧ s1.2.2.state ≠ .WRITE_STATE_INIT
    | .again s1 => write_counter_inv s0 s1.1.seq_nr s1.2.2 ∧ s1.2.2.state ≠ .WRITE_STATE_INIT
    | .fault => True := by
  obtain ⟨file, io, op⟩ := s
  obtain ⟨st, b, bs, bp, rv, re, sc, sq⟩ := op
  obtain ⟨cs, fsq, co, ib, ob⟩ := file
  unfold write_counter_inv at h
  simp only at h
  cases st
  · simp only [write_switch, append_request, write_counter_inv, u32_add, U32]
    have hsc := h.2.1 rfl
    subst hsc
    simp at h ⊢
    omega
  · simp only [write_switch]
    split_ifs
    all_goals simp only [write_counter_inv, g_string_truncate]
    all_goals simp at h ⊢
    all_goals exact h
  · simp only [write_switch]
    split_ifs
    all_goals simp only [write_counter_inv]
    all_goals simp at h ⊢
    all_goals exact h
  · cases ib
    all_goals simp only [write_switch]
    all_goals split_ifs with h1
    all_goals simp only [write_counter_inv, append_request, u32_add, U32]
    all_goals simp at h ⊢
    all_goals first | exact h | skip
    all_goals
      simp at h1
      rw [h1.2] at h
      simp at h
      omega

theorem iterate_write_loop_counter (s0 : Nat) (hs0 : s0 < 4294967296) (fuel : Nat) :
    ∀ (s s1 : WriteConf) (step : StateOp),
      write_counter_inv s0 s.1.seq_nr s.2.2 →
      iterate_write_loop K host stale fuel s = some (step, s1) →
      write_counter_inv s0 s1.1.seq_nr s1.2.2 ∧ s1.2.2.state ≠ .WRITE_STATE_INIT := by
  induction fuel with
  | zero => intro s s1 step _ h; simp [iterate_write_loop] at h
  | succ fuel ih =>
    intro s s1 step hinv h
    have hsw := write_switch_counter K host stale s0 hs0 s hinv
    rw [iterate_write_loop_succ] at h
    cases hw : write_switch K host stale s with
    | ret st s2 =>
      rw [hw] at h hsw
      simp only [Option.some.injEq, Prod.mk.injEq] at h
      rw [← h.2]
      exact hsw
    | again s2 =>
      rw [hw] at h hsw
      obtain ⟨f2, i2, o2⟩ := s2
      simp only at h hsw
      exact ih _ _ _ hsw.1 h
    | fault =>
      rw [hw] at h
      simp at h

end

section
variable {Op : Type} (K : GVfsConstants)
  (iterator : GFileOutputStreamDaemon × IOOperationData × Op →
    Option (StateOp × (GFileOutputStreamDaemon × IOOperationData × Op)))
  (cancellable : Bool) (I J : Nat → Op → Prop)

theorem perform_io_seq_nr (step : StateOp) (file : GFileOutputStreamDaemon)
    (io : IOOperationData) (res : IOResult) :
    (perform_io step file io res).2.1.seq_nr = file.seq_nr := by
  unfold perform_io
  cases res with
  | error e => rfl
  | wrote n => cases step <;> rfl
  | read data =>
    cases step <;> cases io.io_buffer <;> rfl

/-- A relation between the stream counter and the operation record that every call of the
iterator establishes is found after every round of the blocking driver. -/
theorem sync_round_invariant
    (hit : ∀ file io op step file1 io1 op1, I file.seq_nr op →
      iterator (file, io, op) = some (step, (file1, io1, op1)) → J file1.seq_nr op1)
    (ev : DriverEvent) (s : DriverState Op) (hs : I s.file.seq_nr s.data) :
    match sync_round K iterator cancellable ev s with
    | none => True
    | some (.inl o) => J o.file.seq_nr o.op
    | some (.inr s1) => J s1.file.seq_nr s1.data := by
  unfold sync_round
  simp only
  cases hi : iterator (s.file, poll_cancellable cancellable ev.cancelled s.io_data, s.data) with
  | none => simp
  | some r =>
    obtain ⟨step, f1, i1, d1⟩ := r
    have hj : J f1.seq_nr d1 := hit _ _ _ _ _ _ _ hs hi
    cases step
    all_goals simp only
    all_goals (try split_ifs)
    all_goals first
      | exact hj
      | (simp only [perform_io_seq_nr]; exact hj)

theorem run_sync_rounds_invariant
    (hit : ∀ file io op step file1 io1 op1, I file.seq_nr op →
      iterator (file, io, op) = some (step, (file1, io1, op1)) → J file1.seq_nr op1)
    (hJI : ∀ seq op, J seq op → I seq op) (events : List DriverEvent) :
    ∀ s s1 : DriverState Op, I s.file.seq_nr s.data →
      run_sync_rounds K iterator cancellable events s = some s1 →
      I s1.file.seq_nr s1.data := by
  induction events with
  | nil =>
    intro s s1 hs h
    simp only [run_sync_rounds, Option.some.injEq] at h
    rw [← h]
    exact hs
  | cons ev rest ih =>
    intro s s1 hs h
    have hr := sync_round_invariant K iterator cancellable I J hit ev s hs
    simp only [run_sync_rounds] at h
    cases hsr : sync_round K iterator cancellable ev s with
    | none => rw [hsr] at h; simp at h
    | some r =>
      cases r with
      | inl o => rw [hsr] at h; simp at h
      | inr s2 =>
        rw [hsr] at h hr
        simp only at h hr
        exact ih s2 s1 (hJI _ _ hr) h

theorem run_sync_loop_invariant
    (hit : ∀ file io op step file1 io1 op1, I file.seq_nr op →
      iterator (file, io, op) = some (step, (file1, io1, op1)) → J file1.seq_nr op1)
    (hJI : ∀ seq op, J seq op → I seq op) (events : List DriverEvent) :
    ∀ (s : DriverState Op) (out : DriverOutcome Op), I s.file.seq_nr s.data →
      run_sync_loop K iterator cancellable events s = some out →
      J out.file.seq_nr out.op := by
  induction events with
  | nil =>
    intro s out _ h
    simp [run_sync_loop] at h
  | cons ev rest ih =>
    intro s out hs h
    have hr := sync_round_invariant K iterator cancellable I J hit ev s hs
    simp only [run_sync_loop] at h
    cases hsr : sync_round K iterator cancellable ev s with
    | none => rw [hsr] at h; simp at h
    | some r =>
      cases r with
      | inl o =>
        rw [hsr] at h hr
        simp only [Option.some.injEq] at h hr
        rw [← h]
        exact hr
      | inr s2 =>
        rw [hsr] at h hr
        simp only at h hr
        exact ih s2 out (hJI _ _ hr) h

end
section
variable (K : GVfsConstants) (host : ByteOrder) (stale : Nat → Nat)

/-- A pass of the close state machine keeps the counter relation and leaves the initial
state. -/
theorem close_switch_counter (s0 : Nat) (hs0 : s0 < 4294967296) (s : CloseConf)
    (h : close_counter_inv s0 s.1.seq_nr s.2.2) :
    match close_switch K host stale s with
    | .ret _ s1 => close_counter_inv s0 s1.1.seq_nr s1.2.2 ∧ s1.2.2.state ≠ .CLOSE_STATE_INIT
    | .again s1 => close_counter_inv s0 s1.1.seq_nr s1.2.2 ∧ s1.2.2.state ≠ .CLOSE_STATE_INIT
    | .fault => True := by
  obtain ⟨file, io, op⟩ := s
  obtain ⟨cs, fsq, co, ib, ob⟩ := file
  obtain ⟨st, rv, re, sc, sq⟩ := op
  unfold close_counter_inv at h
  simp only at h
  cases st
  · simp only [close_switch, append_request, close_counter_inv, u32_add, U32]
    have hsc := h.2.1 rfl
    subst hsc
    simp at h ⊢
    omega
  · simp only [close_switch]
    split_ifs
    all_goals simp only [close_counter_inv, g_string_truncate]
    all_goals simp at h ⊢
    all_goals exact h
  · cases ib
    all_goals simp only [close_switch]
    all_goals split_ifs with h1
    all_goals simp only [close_counter_inv, append_request, u32_add, U32]
    all_goals simp at h ⊢
    all_goals first | exact h | skip
    all_goals
      simp at h1
      rw [h1.2] at h
      simp at h
      omega

theorem iterate_close_loop_counter (s0 : Nat) (hs0 : s0 < 4294967296) (fuel : Nat) :
    ∀ (s s1 : CloseConf) (step : StateOp),
      close_counter_inv s0 s.1.seq_nr s.2.2 →
      iterate_close_loop K host stale fuel s = some (step, s1) →
      close_counter_inv s0 s1.1.seq_nr s1.2.2 ∧ s1.2.2.state ≠ .CLOSE_STATE_INIT := by
  induction fuel with
  | zero => intro s s1 step _ h; simp [iterate_close_loop] at h
  | succ fuel ih =>
    intro s s1 step hinv h
    have hsw := close_switch_counter K host stale s0 hs0 s hinv
    rw [iterate_close_loop_succ] at h
    cases hw : close_switch K host stale s with
    | ret st s2 =>
      rw [hw] at h hsw
      simp only [Option.some.injEq, Prod.mk.injEq] at h
      rw [← h.2]
      exact hsw
    | again s2 =>
      rw [hw] at h hsw
      obtain ⟨f2, i2, o2⟩ := s2
      simp only at h hsw
      exact ih _ _ _ hsw.1 h
    | fault =>
      rw [hw] at h
      simp at h

/-- A pass of the seek state machine keeps the counter relation and leaves the initial
state. -/
theorem seek_switch_counter (s0 : Nat) (hs0 : s0 < 4294967296) (s : SeekConf)
    (h : seek_counter_inv s0 s.1.seq_nr s.2.2) :
    match seek_switch K host stale s with
    | .ret _ s1 => seek_counter_inv s0 s1.1.seq_nr s1.2.2 ∧ s1.2.2.state ≠ .SEEK_STATE_INIT
    | .again s1 => seek_counter_inv s0 s1.1.seq_nr s1.2.2 ∧ s1.2.2.state ≠ .SEEK_STATE_INIT
    | .fault => True := by
  obtain ⟨file, io, op⟩ := s
  obtain ⟨cs, fsq, co, ib, ob⟩ := file
  obtain ⟨st, o, ty, rv, re, ro, sc, sq⟩ := op
  unfold seek_counter_inv at h
  simp only at h
  cases st
  · simp only [seek_switch, append_request, seek_counter_inv, u32_add, U32]
    have hsc := h.2.1 rfl
    subst hsc
    simp at h ⊢
    omega
  · simp only [seek_switch]
    split_ifs
    all_goals simp only [seek_counter_inv, g_string_truncate]
    all_goals simp at h ⊢
    all_goals exact h
  · cases ib
    all_goals simp only [seek_switch]
    all_goals split_ifs with h1
    all_goals simp only [seek_counter_inv, append_request, u32_add, U32]
    all_goals simp at h ⊢
    all_goals first | exact h | skip
    all_goals
      simp at h1
      rw [h1.2] at h
      simp at h
      omega

theorem iterate_seek_loop_counter (s0 : Nat) (hs0 : s0 < 4294967296) (fuel : Nat) :
    ∀ (s s1 : SeekConf) (step : StateOp),
      seek_counter_inv s0 s.1.seq_nr s.2.2 →
      iterate_seek_loop K host stale fuel s = some (step, s1) →
      seek_counter_inv s0 s1.1.seq_nr s1.2.2 ∧ s1.2.2.state ≠ .SEEK_STATE_INIT := by
  induction fuel with
  | zero => intro s s1 step _ h; simp [iterate_seek_loop] at h
  | succ fuel ih =>
    intro s s1 step hinv h
    have hsw := seek_switch_counter K host stale s0 hs0 s hinv
    rw [iterate_seek_loop_succ] at h
    cases hw : seek_switch K host stale s with
    | ret st s2 =>
      rw [hw] at h hsw
      simp only [Option.some.injEq, Prod.mk.injEq] at h
      rw [← h.2]
      exact hsw
    | again s2 =>
      rw [hw] at h hsw
      obtain ⟨f2, i2, o2⟩ := s2
      simp only at h hsw
      exact ih _ _ _ hsw.1 h
    | fault =>
      rw [hw] at h
      simp at h

end
section
variable (K : GVfsConstants) (host : ByteOrder) (stale : Nat → Nat) (cancellable : Bool)

/-- The counter relation through a run of the blocking driver over the write machine. -/
theorem write_run_counter (s0 : Nat) (hs0 : s0 < 4294967296) (events : List DriverEvent)
    (s : DriverState WriteOperation) (hs : write_counter_inv s0 s.file.seq_nr s.data) :
    (∀ s1, run_sync_rounds K (iterate_write_state_machine K host stale) cancellable events s
        = some s1 → write_counter_inv s0 s1.file.seq_nr s1.data) ∧
    (∀ out, run_sync_loop K (iterate_write_state_machine K host stale) cancellable events s
        = some out →
      write_counter_inv s0 out.file.seq_nr out.op ∧ out.op.state ≠ .WRITE_STATE_INIT) := by
  have hit : ∀ file io op step file1 io1 op1, write_counter_inv s0 file.seq_nr op →
      iterate_write_state_machine K host stale (file, io, op) = some (step, (file1, io1, op1)) →
      write_counter_inv s0 file1.seq_nr op1 ∧ op1.state ≠ .WRITE_STATE_INIT :=
    fun file io op step file1 io1 op1 h1 h2 =>
      iterate_write_loop_counter K host stale s0 hs0 8 (file, io, op) (file1, io1, op1) step h1 h2
  exact ⟨fun s1 h => run_sync_rounds_invariant K _ cancellable (write_counter_inv s0)
      (fun seq op => write_counter_inv s0 seq op ∧ op.state ≠ .WRITE_STATE_INIT)
      hit (fun _ _ h => h.1) events s s1 hs h,
    fun out h => run_sync_loop_invariant K _ cancellable (write_counter_inv s0)
      (fun seq op => write_counter_inv s0 seq op ∧ op.state ≠ .WRITE_STATE_INIT)
      hit (fun _ _ h => h.1) events s out hs h⟩

/-- The counter relation through a run of the blocking driver over the close machine. -/
theorem close_run_counter (s0 : Nat) (hs0 : s0 < 4294967296) (events : List DriverEvent)
    (s : DriverState CloseOperation) (hs : close_counter_inv s0 s.file.seq_nr s.data) :
    (∀ s1, run_sync_rounds K (iterate_close_state_machine K host stale) cancellable events s
        = some s1 → close_counter_inv s0 s1.file.seq_nr s1.data) ∧
    (∀ out, run_sync_loop K (iterate_close_state_machine K host stale) cancellable events s
        = some out →
      close_counter_inv s0 out.file.seq_nr out.op ∧ out.op.state ≠ .CLOSE_STATE_INIT) := by
  have hit : ∀ file io op step file1 io1 op1, close_counter_inv s0 file.seq_nr op →
      iterate_close_state_machine K host stale (file, io, op) = some (step, (file1, io1, op1)) →
      close_counter_inv s0 file1.seq_nr op1 ∧ op1.state ≠ .CLOSE_STATE_INIT :=
    fun file io op step file1 io1 op1 h1 h2 =>
      iterate_close_loop_counter K host stale s0 hs0 8 (file, io, op) (file1, io1, op1) step h1 h2
  exact ⟨fun s1 h => run_sync_rounds_invariant K _ cancellable (close_counter_inv s0)
      (fun seq op => close_counter_inv s0 seq op ∧ op.state ≠ .CLOSE_STATE_INIT)
      hit (fun _ _ h => h.1) events s s1 hs h,
    fun out h => run_sync_loop_invariant K _ cancellable (close_counter_inv s0)
      (fun seq op => close_counter_inv s0 seq op ∧ op.state ≠ .CLOSE_STATE_INIT)
      hit (fun _ _ h => h.1) events s out hs h⟩

/-- The counter relation through a run of the blocking driver over the seek machine. -/
theorem seek_run_counter (s0 : Nat) (hs0 : s0 < 4294967296) (events : List DriverEvent)
    (s : DriverState SeekOperation) (hs : seek_counter_inv s0 s.file.seq_nr s.data) :
    (∀ s1, run_sync_rounds K (iterate_seek_state_machine K host stale) cancellable events s
        = some s1 → seek_counter_inv s0 s1.file.seq_nr s1.data) ∧
    (∀ out, run_sync_loop K (iterate_seek_state_machine K host stale) cancellable events s
        = some out →
      seek_counter_inv s0 out.file.seq_nr out.op ∧ out.op.state ≠ .SEEK_STATE_INIT) := by
  have hit : ∀ file io op step file1 io1 op1, seek_counter_inv s0 file.seq_nr op →
      iterate_seek_state_machine K host stale (file, io, op) = some (step, (file1, io1, op1)) →
      seek_counter_inv s0 file1.seq_nr op1 ∧ op1.state ≠ .SEEK_STATE_INIT :=
    fun file io op step file1 io1 op1 h1 h2 =>
      iterate_seek_loop_counter K host stale s0 hs0 8 (file, io, op) (file1, io1, op1) step h1 h2
  exact ⟨fun s1 h => run_sync_rounds_invariant K _ cancellable (seek_counter_inv s0)
      (fun seq op => seek_counter_inv s0 seq op ∧ op.state ≠ .SEEK_STATE_INIT)
      hit (fun _ _ h => h.1) events s s1 hs h,
    fun out h => run_sync_loop_invariant K _ cancellable (seek_counter_inv s0)
      (fun seq op => seek_counter_inv s0 seq op ∧ op.state ≠ .SEEK_STATE_INIT)
      hit (fun _ _ h => h.1) events s out hs h⟩

theorem write_counter_inv_new (file : GFileOutputStreamDaemon) (buffer : List Nat)
    (count : Nat) (hseq : file.seq_nr < 4294967296) :
    write_counter_inv file.seq_nr file.seq_nr (write_operation_new buffer count) := by
  refine ⟨?_, fun _ => rfl, fun h => absurd rfl h⟩
  simp [write_operation_new]
  omega

theorem close_counter_inv_new (file : GFileOutputStreamDaemon)
    (hseq : file.seq_nr < 4294967296) :
    close_counter_inv file.seq_nr file.seq_nr close_operation_new := by
  refine ⟨?_, fun _ => rfl, fun h => absurd rfl h⟩
  simp [close_operation_new]
  omega

theorem seek_counter_inv_new (file : GFileOutputStreamDaemon) (offset : Int)
    (type : GSeekType) (hseq : file.seq_nr < 4294967296) :
    seek_counter_inv file.seq_nr file.seq_nr (seek_operation_new offset type) := by
  refine ⟨?_, fun _ => rfl, fun h => absurd rfl h⟩
  simp [seek_operation_new]
  omega

end

/-! ## The account of the wire during a write -/

section
variable (K : GVfsConstants) (host : ByteOrder) (stale : Nat → Nat)

end

section
variable (K : GVfsConstants) (host : ByteOrder) (stale : Nat → Nat)

end

section
variable (K : GVfsConstants) (host : ByteOrder) (stale : Nat → Nat) (cancellable : Bool)

end

section
variable (K : GVfsConstants) (host : ByteOrder) (stale : Nat → Nat) (cancellable : Bool)

end

/-! ## Blocking calls on the stream base class -/

section
variable {σ : Type} (K : GVfsConstants) (E : GOutputStreamErrors) (cls : GOutputStreamClass σ)

theorem to_gssize_small (count : Nat) (h : count ≤ G_MAXSSIZE) : ¬ to_gssize count < 0 := by
  unfold to_gssize G_MAXSSIZE GSIZE at *
  split_ifs <;> omega

theorem to_gssize_large (count : Nat) (h1 : G_MAXSSIZE < count) (h2 : count < GSIZE) :
    to_gssize count < 0 := by
  unfold to_gssize G_MAXSSIZE GSIZE at *
  split_ifs <;> omega

/-- The blocking calls on a closed stream: none reaches the implementation. -/
theorem closed_stream_results (stream : GOutputStream σ) (h : stream.priv.closed = true) :
    (∀ (buffer : List Nat) (count : Nat) (c : Bool), 1 ≤ count → count ≤ G_MAXSSIZE →
      g_output_stream_write K E cls stream buffer count c
        = { ret := -1
            error := some { domain := K.G_VFS_ERROR, code := E.G_VFS_ERROR_CLOSED,
                            message := MSG_CLOSED }
            stream := stream }) ∧
    (∀ c : Bool,
      g_output_stream_flush K E cls stream c
        = { ret := 0
            error := some { domain := K.G_VFS_ERROR, code := E.G_VFS_ERROR_CLOSED,
                            message := MSG_CLOSED }
            stream := stream }) ∧
    (∀ c : Bool,
      g_output_stream_close K E cls stream c = { ret := 1, error := none, stream := stream }) := by
  refine ⟨fun buffer count c h1 h2 => ?_, fun c => ?_, fun c => ?_⟩
  · have h0 : ¬ count = 0 := by omega
    simp only [g_output_stream_write, h0, to_gssize_small count h2, h, if_true, if_false]
  · simp only [g_output_stream_flush, h, if_true]
  · simp only [g_output_stream_close, h, if_true]

/-- The calls that stop before the tests of the flags: a count of zero, or one above
`G_MAXSSIZE`. -/
theorem write_count_results (stream : GOutputStream σ) (buffer : List Nat) (c : Bool) :
    g_output_stream_write K E cls stream buffer 0 c
      = { ret := 0, error := none, stream := stream } ∧
    (∀ count, G_MAXSSIZE < count → count < GSIZE →
      g_output_stream_write K E cls stream buffer count c
        = { ret := -1
            error := some { domain := K.G_FILE_ERROR, code := E.G_FILE_ERROR_INVAL,
                            message := MSG_TOO_LARGE }
            stream := stream }) := by
  refine ⟨by simp only [g_output_stream_write, if_true], fun count h1 h2 => ?_⟩
  have h0 : ¬ count = 0 := by unfold G_MAXSSIZE at h1; omega
  simp only [g_output_stream_write, h0, to_gssize_large count h1 h2, if_true, if_false]

/-- No blocking call changes a closed stream. -/
theorem closed_stream_call (stream : GOutputStream σ) (h : stream.priv.closed = true)
    (call : StreamCall) : (g_output_stream_call K E cls stream call).stream = stream := by
  cases call with
  | write buffer count c =>
    simp only [g_output_stream_call, g_output_stream_write, h, if_true]
    split_ifs <;> rfl
  | flush c => simp only [g_output_stream_call, g_output_stream_flush, h, if_true]
  | close c => simp only [g_output_stream_call, g_output_stream_close, h, if_true]

theorem closed_stream_calls (calls : List StreamCall) (stream : GOutputStream σ)
    (h : stream.priv.closed = true) : g_output_stream_calls K E cls calls stream = stream := by
  induction calls with
  | nil => rfl
  | cons call rest ih =>
    simp only [g_output_stream_calls, closed_stream_call K E cls stream h call]
    exact ih

/-- The flags after `g_output_stream_close` on a stream with no call pending. -/
theorem close_flags (stream : GOutputStream σ) (c : Bool) (h : stream.priv.pending = false) :
    (g_output_stream_close K E cls stream c).stream.priv = { closed := true, pending := false } := by
  obtain ⟨⟨cl, pe⟩, impl, calls⟩ := stream
  simp only at h
  subst h
  cases cl
  · simp only [g_output_stream_close, Bool.false_eq_true, if_false]
  · simp only [g_output_stream_close, if_true]
end

section
variable {σ : Type} (K : GVfsConstants) (E : GOutputStreamErrors) (cls : GOutputStreamClass σ)

/-- What a blocking call adds to the record of the calls into the implementation: every
call recorded found `pending` set; if any was made, `pending` was clear before the blocking
call and is clear after it; at most one of them is a close, and then the stream is closed
afterwards. -/
theorem call_record (stream : GOutputStream σ) (call : StreamCall) :
    ∃ new : List ImplCall,
      (g_output_stream_call K E cls stream call).stream.calls = stream.calls ++ new ∧
      (∀ c ∈ new, c.pending = true ∧ c.closed = false) ∧
      (new ≠ [] → stream.priv.pending = false ∧ stream.priv.closed = false ∧
        (g_output_stream_call K E cls stream call).stream.priv.pending = false) ∧
      new.countP (fun c => c.method = .close) ≤ 1 ∧
      (new.countP (fun c => c.method = .close) = 1 →
        (g_output_stream_call K E cls stream call).stream.priv.closed = true) := by
  obtain ⟨⟨cl, pe⟩, impl, calls⟩ := stream
  cases call with
  | write buffer count c =>
    simp only [g_output_stream_call, g_output_stream_write]
    by_cases h0 : count = 0
    · exact ⟨[], by simp [h0], by simp, by simp, by simp, by simp⟩
    by_cases h1 : to_gssize count < 0
    · exact ⟨[], by simp [h0, h1], by simp, by simp, by simp, by simp⟩
    cases cl
    · cases pe
      · cases hw : cls.write with
        | none => exact ⟨[], by simp [h0, h1], by simp, by simp, by simp, by simp⟩
        | some w =>
          refine ⟨[{ method := .write, closed := false, pending := true }], ?_, ?_, ?_, ?_, ?_⟩
          · simp [h0, h1, GOutputStream.invoked, GOutputStream.set_pending]
          · simp
          · simp [h0, h1, GOutputStream.invoked, GOutputStream.set_pending]
          · simp
          · simp
      · exact ⟨[], by simp [h0, h1], by simp, by simp, by simp, by simp⟩
    · exact ⟨[], by simp [h0, h1], by simp, by simp, by simp, by simp⟩
  | flush c =>
    simp only [g_output_stream_call, g_output_stream_flush]
    cases cl
    · cases pe
      · cases hf : cls.flush with
        | none => exact ⟨[], by simp, by simp, by simp, by simp, by simp⟩
        | some f =>
          refine ⟨[{ method := .flush, closed := false, pending := true }], ?_, ?_, ?_, ?_, ?_⟩
          · simp [GOutputStream.invoked, GOutputStream.set_pending]
          · simp
          · simp [GOutputStream.invoked, GOutputStream.set_pending]
          · simp
          · simp
      · exact ⟨[], by simp, by simp, by simp, by simp, by simp⟩
    · exact ⟨[], by simp, by simp, by simp, by simp, by simp⟩
  | close c =>
    simp only [g_output_stream_call, g_output_stream_close, g_output_stream_flush]
    cases cl
    · cases pe
      · cases hf : cls.flush with
        | none =>
          cases hc : cls.close with
          | none =>
            exact ⟨[], by simp [GOutputStream.set_pending], by simp, by simp, by simp, by simp⟩
          | some cf =>
            refine ⟨[{ method := .close, closed := false, pending := true }], ?_, ?_, ?_, ?_, ?_⟩
            · simp [GOutputStream.invoked, GOutputStream.set_pending]
            · simp
            · simp
            · simp
            · simp
        | some f =>
          cases hc : cls.close with
          | none =>
            refine ⟨[{ method := .flush, closed := false, pending := true }], ?_, ?_, ?_, ?_, ?_⟩
            · simp only [Bool.false_eq_true, if_false]
              split_ifs <;> simp [GOutputStream.invoked, GOutputStream.set_pending]
            · simp
            · simp
            · simp
            · simp
          | some cf =>
            refine ⟨[{ method := .flush, closed := false, pending := true },
              { method := .close, closed := false, pending := true }], ?_, ?_, ?_, ?_, ?_⟩
            · simp only [Bool.false_eq_true, if_false]
              split_ifs <;> simp [GOutputStream.invoked, GOutputStream.set_pending]
            · simp
            · simp
            · simp
            · simp
      · exact ⟨[], by simp, by simp, by simp, by simp, by simp⟩
    · exact ⟨[], by simp, by simp, by simp, by simp, by simp⟩

end

section
variable {σ : Type} (K : GVfsConstants) (E : GOutputStreamErrors) (cls : GOutputStreamClass σ)

/-- Over any sequence of blocking calls the implementation's close is called at most once
more, and not at all when the stream is closed already. -/
theorem calls_close_invocations (calls : List StreamCall) :
    ∀ stream : GOutputStream σ,
      close_invocations (g_output_stream_calls K E cls calls stream)
        ≤ close_invocations stream + (if stream.priv.closed then 0 else 1) := by
  induction calls with
  | nil =>
    intro stream
    simp only [g_output_stream_calls]
    omega
  | cons call rest ih =>
    intro stream
    simp only [g_output_stream_calls]
    by_cases hcl : stream.priv.closed = true
    · rw [closed_stream_call K E cls stream hcl call]
      exact ih stream
    · obtain ⟨new, hnew, _, _, hle, hone⟩ := call_record K E cls stream call
      have hih := ih (g_output_stream_call K E cls stream call).stream
      have hcount : close_invocations (g_output_stream_call K E cls stream call).stream
          = close_invocations stream + new.countP (fun c => c.method = .close) := by
        unfold close_invocations
        rw [hnew, List.countP_append]
      rw [hcount] at hih
      have hcl' : stream.priv.closed = false := by simpa using hcl
      simp only [hcl', Bool.false_eq_true, if_false]
      by_cases h1 : new.countP (fun c => c.method = .close) = 1
      · rw [hone h1] at hih
        simp only [if_true] at hih
        omega
      · have h0 : new.countP (fun c => c.method = .close) = 0 := by omega
        rw [h0] at hih
        split_ifs at hih <;> omega

end

/-! ## Results of the I/O calls of a driver -/

/-- Storing no bytes leaves a byte string as it is. -/
theorem store_at_nil (s : List Nat) (off : Nat) : store_at s off [] = s := by
  simp [store_at]

/-- The return value and error of an I/O call that reports a count. -/
theorem perform_io_wrote_res (step : StateOp) (file : GFileOutputStreamDaemon)
    (io : IOOperationData) (n : Nat) :
    (perform_io step file io (.wrote n)).1 = (((min n io.io_size : Nat) : Int), none) := by
  cases step <;> rfl

/-- The return value and error of an I/O call that delivers bytes. -/
theorem perform_io_read_res (step : StateOp) (file : GFileOutputStreamDaemon)
    (io : IOOperationData) (data : List Nat) :
    (perform_io step file io (.read data)).1
      = ((((data.take io.io_size).length : Nat) : Int), none) := by
  unfold perform_io
  cases step <;> cases io.io_buffer <;> rfl

/-- An I/O call that moves no byte leaves the stream as it is and puts nothing on the
wire. -/
theorem perform_io_zero (step : StateOp) (file : GFileOutputStreamDaemon)
    (io : IOOperationData) :
    (perform_io step file io (.wrote 0)).2 = (file, []) ∧
    (perform_io step file io (.read [])).2 = (file, []) := by
  unfold perform_io
  constructor
  · cases step <;> simp
  · cases step <;> cases io.io_buffer <;> simp [store_at_nil]

/-- A round of the blocking driver in which the state machine asks for a step: the I/O call
is made and its result is translated. -/
theorem sync_round_step {Op : Type} (K : GVfsConstants)
    (iterator : GFileOutputStreamDaemon × IOOperationData × Op →
      Option (StateOp × (GFileOutputStreamDaemon × IOOperationData × Op)))
    (cancellable : Bool) (ev : DriverEvent) (s : DriverState Op) (step : StateOp)
    (file1 : GFileOutputStreamDaemon) (io1 : IOOperationData) (op1 : Op)
    (hit : iterator (s.file, poll_cancellable cancellable ev.cancelled s.io_data, s.data)
      = some (step, (file1, io1, op1)))
    (hstep : step ≠ .STATE_OP_DONE) :
    sync_round K iterator cancellable ev s
      = if (perform_io step file1 io1 ev.result).1.1 = -1 then
          if error_is_cancel K (perform_io step file1 io1 ev.result).1.2 then
            some (.inr { file := (perform_io step file1 io1 ev.result).2.1
                         io_data := { io1 with io_res := 0, io_cancelled := true }
                         data := op1
                         chan := s.chan.record (io_step step io1 cancellable)
                           (perform_io step file1 io1 ev.result).2.2 })
          else
            some (.inl { ok := false
                         error := some (protocol_error K
                           (match (perform_io step file1 io1 ev.result).1.2 with
                            | some e => e.message
                            | none => []))
                         file := (perform_io step file1 io1 ev.result).2.1, op := op1
                         chan := s.chan.record (io_step step io1 cancellable)
                           (perform_io step file1 io1 ev.result).2.2 })
        else if (perform_io step file1 io1 ev.result).1.1 = 0 ∧ io1.io_size ≠ 0 then
          some (.inl { ok := false, error := some (protocol_error K (ascii "End of stream"))
                       file := (perform_io step file1 io1 ev.result).2.1, op := op1
                       chan := s.chan.record (io_step step io1 cancellable)
                         (perform_io step file1 io1 ev.result).2.2 })
        else
          some (.inr { file := (perform_io step file1 io1 ev.result).2.1
                       io_data := { io1 with
                                    io_res := (perform_io step file1 io1 ev.result).1.1.toNat
                                    io_cancelled := false }
                       data := op1
                       chan := s.chan.record (io_step step io1 cancellable)
                         (perform_io step file1 io1 ev.result).2.2 }) := by
  cases step <;> first | exact absurd rfl hstep | (unfold sync_round; dsimp only; rw [hit])

/-! ## Passes of one call, and the calls a run records -/

/-- More fuel does not change what the loop of the write state machine returns. -/
theorem iterate_write_loop_mono (K : GVfsConstants) (host : ByteOrder) (stale : Nat → Nat)
    (n k : Nat) (s : WriteConf) (r : StateOp × WriteConf)
    (h : iterate_write_loop K host stale n s = some r) :
    iterate_write_loop K host stale (n + k) s = some r := by
  induction n generalizing s with
  | zero => simp [iterate_write_loop] at h
  | succ n ih =>
    rw [Nat.add_right_comm, iterate_write_loop_succ]
    rw [iterate_write_loop_succ] at h
    cases hw : write_switch K host stale s with
    | ret step s1 => rw [hw] at h; exact h
    | again s1 =>
      obtain ⟨f, i, o⟩ := s1
      rw [hw] at h
      exact ih _ h
    | fault => rw [hw] at h; simp at h

/-- A call of the write state machine whose first pass faults does not return, however many
passes are allowed. -/
theorem iterate_write_loop_fault (K : GVfsConstants) (host : ByteOrder) (stale : Nat → Nat)
    (s : WriteConf) (h : write_switch K host stale s = .fault) (n : Nat) :
    iterate_write_loop K host stale n s = none := by
  cases n with
  | zero => rfl
  | succ n => rw [iterate_write_loop_succ, h]

/-- A call of the write state machine whose first pass goes round the loop again does not
return when the call from the state that pass leaves does not. -/
theorem iterate_write_loop_again_none (K : GVfsConstants) (host : ByteOrder)
    (stale : Nat → Nat) (s : WriteConf) (f : GFileOutputStreamDaemon) (i : IOOperationData)
    (o : WriteOperation) (h : write_switch K host stale s = .again (f, i, o))
    (h1 : ∀ n, iterate_write_loop K host stale n (f, clear_io_op i, o) = none) (n : Nat) :
    iterate_write_loop K host stale n s = none := by
  cases n with
  | zero => rfl
  | succ n => rw [iterate_write_loop_succ, h]; exact h1 n

theorem drop_unread_zero (stale : Nat → Nat) (input_buffer : List Nat) (io : IOOperationData)
    (h : io.io_res = 0) : drop_unread stale input_buffer io = input_buffer := by
  simp [drop_unread, h]

/-- A pass of the write state machine that starts awaiting replies with an empty incoming
buffer and no bytes reported returns a step. -/
theorem write_switch_hi_empty (K : GVfsConstants) (host : ByteOrder) (stale : Nat → Nat)
    (file : GFileOutputStreamDaemon) (io : IOOperationData) (op : WriteOperation)
    (h : op.state = .WRITE_STATE_HANDLE_INPUT) (hb : file.input_buffer = some [])
    (hr : io.io_res = 0) :
    ∃ step s1, write_switch K host stale (file, io, op) = .ret step s1 := by
  by_cases hcan : (io.cancelled && !op.sent_cancel) = true
  · simp only [Bool.and_eq_true, Bool.not_eq_true'] at hcan
    exact ⟨_, _, write_switch_hi_cancel K host stale file io op h hcan.1 hcan.2⟩
  · rw [write_switch_hi_some K host stale file io op [] h (by simpa using hcan) hb,
      drop_unread_zero stale [] io hr, get_reply_header_missing_bytes_nil]
    exact ⟨_, _, if_pos (by decide)⟩

/-- A pass of the write state machine that does not return: from the state after the
command it goes on to the payload or to the replies, from the payload to the replies, and
when awaiting replies it has emptied the incoming buffer. -/
theorem write_switch_again (K : GVfsConstants) (host : ByteOrder) (stale : Nat → Nat)
    (file f : GFileOutputStreamDaemon) (io i : IOOperationData) (op o : WriteOperation)
    (h : write_switch K host stale (file, io, op) = .again (f, i, o)) :
    (op.state = .WRITE_STATE_WROTE_COMMAND ∧
      (o.state = .WRITE_STATE_SEND_DATA ∨
        (o.state = .WRITE_STATE_HANDLE_INPUT ∧ op.sent_cancel = true))) ∨
    (op.state = .WRITE_STATE_SEND_DATA ∧ o.state = .WRITE_STATE_HANDLE_INPUT ∧
      f.input_buffer = file.input_buffer) ∨
    (op.state = .WRITE_STATE_HANDLE_INPUT ∧ o.state = .WRITE_STATE_HANDLE_INPUT ∧
      f.input_buffer = some []) := by
  obtain ⟨st, bf, bs, bp, rv, re, sc, sq⟩ := op
  cases st
  · simp [write_switch] at h
  · left
    cases sc <;>
      (simp only [write_switch, Bool.false_eq_true, if_false, if_true] at h
       split_ifs at h
       simp only [Pass.again.injEq, Prod.mk.injEq] at h
       obtain ⟨_, _, rfl⟩ := h
       simp)
  · right; left
    simp only [write_switch] at h
    split_ifs at h
    simp only [Pass.again.injEq, Prod.mk.injEq] at h
    obtain ⟨rfl, _, rfl⟩ := h
    simp
  · right; right
    by_cases hcan : (io.cancelled && !sc) = true
    · simp [write_switch, hcan] at h
    · rcases hib : file.input_buffer with _ | ib
      · rw [write_switch_hi_null K host stale file io _ rfl (by simpa using hcan) hib] at h
        cases h
      · rw [write_switch_hi_some K host stale file io _ ib rfl (by simpa using hcan) hib] at h
        split_ifs at h
        simp only [Pass.again.injEq, Prod.mk.injEq] at h
        obtain ⟨rfl, _, rfl⟩ := h
        simp

/-- From the state that awaits replies, the loop of the write state machine returns within
two passes, or it does not return however many passes are allowed. -/
theorem iterate_write_loop_hi (K : GVfsConstants) (host : ByteOrder) (stale : Nat → Nat)
    (file : GFileOutputStreamDaemon) (io : IOOperationData) (op : WriteOperation)
    (h : op.state = .WRITE_STATE_HANDLE_INPUT) :
    (∃ r, iterate_write_loop K host stale 2 (file, io, op) = some r) ∨
    ∀ n, iterate_write_loop K host stale n (file, io, op) = none := by
  cases hw : write_switch K host stale (file, io, op) with
  | ret step s1 => exact .inl ⟨_, by rw [iterate_write_loop_succ, hw]⟩
  | fault => exact .inr (iterate_write_loop_fault K host stale _ hw)
  | again s1 =>
    obtain ⟨f, i, o⟩ := s1
    rcases write_switch_again K host stale file f io i op o hw with
      ⟨h1, _⟩ | ⟨h1, _⟩ | ⟨_, h2, h3⟩
    · rw [h] at h1; cases h1
    · rw [h] at h1; cases h1
    · obtain ⟨step, s1, hs⟩ := write_switch_hi_empty K host stale f (clear_io_op i) o h2 h3 rfl
      exact .inl ⟨(step, s1), by
        rw [iterate_write_loop_succ, hw]
        simp only []
        rw [iterate_write_loop_succ, hs]⟩

/-- From the state that sends the payload, the loop of the write state machine returns
within three passes, or it does not return however many passes are allowed. -/
theorem iterate_write_loop_sd (K : GVfsConstants) (host : ByteOrder) (stale : Nat → Nat)
    (file : GFileOutputStreamDaemon) (io : IOOperationData) (op : WriteOperation)
    (h : op.state = .WRITE_STATE_SEND_DATA) :
    (∃ r, iterate_write_loop K host stale 3 (file, io, op) = some r) ∨
    ∀ n, iterate_write_loop K host stale n (file, io, op) = none := by
  cases hw : write_switch K host stale (file, io, op) with
  | ret step s1 => exact .inl ⟨_, by rw [iterate_write_loop_succ, hw]⟩
  | fault => exact .inr (iterate_write_loop_fault K host stale _ hw)
  | again s1 =>
    obtain ⟨f, i, o⟩ := s1
    rcases write_switch_again K host stale file f io i op o hw with
      ⟨h1, _⟩ | ⟨_, h2, _⟩ | ⟨h1, _⟩
    · rw [h] at h1; cases h1
    · rcases iterate_write_loop_hi K host stale f (clear_io_op i) o h2 with ⟨r, hr⟩ | hn
      · exact .inl ⟨r, by rw [iterate_write_loop_succ, hw]; exact hr⟩
      · exact .inr (iterate_write_loop_again_none K host stale _ f i o hw hn)
    · rw [h] at h1; cases h1

/-- Every call of the write state machine returns within four passes through its switch, or
it does not return however many passes are allowed. -/
theorem iterate_write_loop_returns (K : GVfsConstants) (host : ByteOrder) (stale : Nat → Nat)
    (s : WriteConf) :
    (∃ r, iterate_write_loop K host stale 4 s = some r) ∨
    ∀ n, iterate_write_loop K host stale n s = none := by
  obtain ⟨file, io, op⟩ := s
  cases hw : write_switch K host stale (file, io, op) with
  | ret step s1 => exact .inl ⟨_, by rw [iterate_write_loop_succ, hw]⟩
  | fault => exact .inr (iterate_write_loop_fault K host stale _ hw)
  | again s1 =>
    obtain ⟨f, i, o⟩ := s1
    have hhi : o.state = .WRITE_STATE_HANDLE_INPUT →
        (∃ r, iterate_write_loop K host stale 4 (file, io, op) = some r) ∨
        ∀ n, iterate_write_loop K host stale n (file, io, op) = none := by
      intro h2
      rcases iterate_write_loop_hi K host stale f (clear_io_op i) o h2 with ⟨r, hr⟩ | hn
      · exact .inl ⟨r, by
          rw [iterate_write_loop_succ, hw]
          exact iterate_write_loop_mono K host stale 2 1 _ r hr⟩
      · exact .inr (iterate_write_loop_again_none K host stale _ f i o hw hn)
    rcases write_switch_again K host stale file f io i op o hw with
      ⟨_, h2 | ⟨h2, _⟩⟩ | ⟨_, h2, _⟩ | ⟨_, h2, _⟩
    · rcases iterate_write_loop_sd K host stale f (clear_io_op i) o h2 with ⟨r, hr⟩ | hn
      · exact .inl ⟨r, by rw [iterate_write_loop_succ, hw]; exact hr⟩
      · exact .inr (iterate_write_loop_again_none K host stale _ f i o hw hn)
    · exact hhi h2
    · exact hhi h2
    · exact hhi h2

/-- More fuel does not change what the loop of the close state machine returns. -/
theorem iterate_close_loop_mono (K : GVfsConstants) (host : ByteOrder) (stale : Nat → Nat)
    (n k : Nat) (s : CloseConf) (r : StateOp × CloseConf)
    (h : iterate_close_loop K host stale n s = some r) :
    iterate_close_loop K host stale (n + k) s = some r := by
  induction n generalizing s with
  | zero => simp [iterate_close_loop] at h
  | succ n ih =>
    rw [Nat.add_right_comm, iterate_close_loop_succ]
    rw [iterate_close_loop_succ] at h
    cases hw : close_switch K host stale s with
    | ret step s1 => rw [hw] at h; exact h
    | again s1 =>
      obtain ⟨f, i, o⟩ := s1
      rw [hw] at h
      exact ih _ h
    | fault => rw [hw] at h; simp at h

/-- A call of the close state machine whose first pass faults does not return, however many
passes are allowed. -/
theorem iterate_close_loop_fault (K : GVfsConstants) (host : ByteOrder) (stale : Nat → Nat)
    (s : CloseConf) (h : close_switch K host stale s = .fault) (n : Nat) :
    iterate_close_loop K host stale n s = none := by
  cases n with
  | zero => rfl
  | succ n => rw [iterate_close_loop_succ, h]

/-- A call of the close state machine whose first pass goes round the loop again does not
return when the call from the state that pass leaves does not. -/
theorem iterate_close_loop_again_none (K : GVfsConstants) (host : ByteOrder)
    (stale : Nat → Nat) (s : CloseConf) (f : GFileOutputStreamDaemon) (i : IOOperationData)
    (o : CloseOperation) (h : close_switch K host stale s = .again (f, i, o))
    (h1 : ∀ n, iterate_close_loop K host stale n (f, clear_io_op i, o) = none) (n : Nat) :
    iterate_close_loop K host stale n s = none := by
  cases n with
  | zero => rfl
  | succ n => rw [iterate_close_loop_succ, h]; exact h1 n

/-- A pass of the close state machine that starts awaiting replies with an empty incoming
buffer and no bytes reported returns a step. -/
theorem close_switch_hi_empty (K : GVfsConstants) (host : ByteOrder) (stale : Nat → Nat)
    (file : GFileOutputStreamDaemon) (io : IOOperationData) (op : CloseOperation)
    (h : op.state = .CLOSE_STATE_HANDLE_INPUT) (hb : file.input_buffer = some [])
    (hr : io.io_res = 0) :
    ∃ step s1, close_switch K host stale (file, io, op) = .ret step s1 := by
  by_cases hcan : (io.cancelled && !op.sent_cancel) = true
  · simp only [Bool.and_eq_true, Bool.not_eq_true'] at hcan
    exact ⟨_, _, close_switch_hi_cancel K host stale file io op h hcan.1 hcan.2⟩
  · rw [close_switch_hi_some K host stale file io op [] h (by simpa using hcan) hb,
      drop_unread_zero stale [] io hr, get_reply_header_missing_bytes_nil]
    exact ⟨_, _, if_pos (by decide)⟩

/-- A pass of the close state machine that does not return: from the state after the
request it goes on to the replies, and when awaiting replies it has emptied the incoming
buffer. -/
theorem close_switch_again (K : GVfsConstants) (host : ByteOrder) (stale : Nat → Nat)
    (file f : GFileOutputStreamDaemon) (io i : IOOperationData) (op o : CloseOperation)
    (h : close_switch K host stale (file, io, op) = .again (f, i, o)) :
    (op.state = .CLOSE_STATE_WROTE_REQUEST ∧ o.state = .CLOSE_STATE_HANDLE_INPUT) ∨
    (op.state = .CLOSE_STATE_HANDLE_INPUT ∧ o.state = .CLOSE_STATE_HANDLE_INPUT ∧
      f.input_buffer = some []) := by
  obtain ⟨st, rv, re, sc, sq⟩ := op
  cases st
  · simp [close_switch] at h
  · left
    simp only [close_switch] at h
    split_ifs at h
    simp only [Pass.again.injEq, Prod.mk.injEq] at h
    obtain ⟨_, _, rfl⟩ := h
    simp
  · right
    by_cases hcan : (io.cancelled && !sc) = true
    · simp [close_switch, hcan] at h
    · rcases hib : file.input_buffer with _ | ib
      · rw [close_switch_hi_null K host stale file io _ rfl (by simpa using hcan) hib] at h
        cases h
      · rw [close_switch_hi_some K host stale file io _ ib rfl (by simpa using hcan) hib] at h
        split_ifs at h
        simp only [Pass.again.injEq, Prod.mk.injEq] at h
        obtain ⟨rfl, _, rfl⟩ := h
        simp

/-- From the state that awaits replies, the loop of the close state machine returns within
two passes, or it does not return however many passes are allowed. -/
theorem iterate_close_loop_hi (K : GVfsConstants) (host : ByteOrder) (stale : Nat → Nat)
    (file : GFileOutputStreamDaemon) (io : IOOperationData) (op : CloseOperation)
    (h : op.state = .CLOSE_STATE_HANDLE_INPUT) :
    (∃ r, iterate_close_loop K host stale 2 (file, io, op) = some r) ∨
    ∀ n, iterate_close_loop K host stale n (file, io, op) = none := by
  cases hw : close_switch K host stale (file, io, op) with
  | ret step s1 => exact .inl ⟨_, by rw [iterate_close_loop_succ, hw]⟩
  | fault => exact .inr (iterate_close_loop_fault K host stale _ hw)
  | again s1 =>
    obtain ⟨f, i, o⟩ := s1
    rcases close_switch_again K host stale file f io i op o hw with ⟨h1, _⟩ | ⟨_, h2, h3⟩
    · rw [h] at h1; cases h1
    · obtain ⟨step, s1, hs⟩ := close_switch_hi_empty K host stale f (clear_io_op i) o h2 h3 rfl
      exact .inl ⟨(step, s1), by
        rw [iterate_close_loop_succ, hw]
        simp only []
        rw [iterate_close_loop_succ, hs]⟩

/-- Every call of the close state machine returns within three passes through its switch, or
it does not return however many passes are allowed. -/
theorem iterate_close_loop_returns (K : GVfsConstants) (host : ByteOrder) (stale : Nat → Nat)
    (s : CloseConf) :
    (∃ r, iterate_close_loop K host stale 3 s = some r) ∨
    ∀ n, iterate_close_loop K host stale n s = none := by
  obtain ⟨file, io, op⟩ := s
  cases hw : close_switch K host stale (file, io, op) with
  | ret step s1 => exact .inl ⟨_, by rw [iterate_close_loop_succ, hw]⟩
  | fault => exact .inr (iterate_close_loop_fault K host stale _ hw)
  | again s1 =>
    obtain ⟨f, i, o⟩ := s1
    have hhi : o.state = .CLOSE_STATE_HANDLE_INPUT →
        (∃ r, iterate_close_loop K host stale 3 (file, io, op) = some r) ∨
        ∀ n, iterate_close_loop K host stale n (file, io, op) = none := by
      intro h2
      rcases iterate_close_loop_hi K host stale f (clear_io_op i) o h2 with ⟨r, hr⟩ | hn
      · exact .inl ⟨r, by rw [iterate_close_loop_succ, hw]; exact hr⟩
      · exact .inr (iterate_close_loop_again_none K host stale _ f i o hw hn)
    rcases close_switch_again K host stale file f io i op o hw with ⟨_, h2⟩ | ⟨_, h2, _⟩
    · exact hhi h2
    · exact hhi h2

/-- More fuel does not change what the loop of the seek state machine returns. -/
theorem iterate_seek_loop_mono (K : GVfsConstants) (host : ByteOrder) (stale : Nat → Nat)
    (n k : Nat) (s : SeekConf) (r : StateOp × SeekConf)
    (h : iterate_seek_loop K host stale n s = some r) :
    iterate_seek_loop K host stale (n + k) s = some r := by
  induction n generalizing s with
  | zero => simp [iterate_seek_loop] at h
  | succ n ih =>
    rw [Nat.add_right_comm, iterate_seek_loop_succ]
    rw [iterate_seek_loop_succ] at h
    cases hw : seek_switch K host stale s with
    | ret step s1 => rw [hw] at h; exact h
    | again s1 =>
      obtain ⟨f, i, o⟩ := s1
      rw [hw] at h
      exact ih _ h
    | fault => rw [hw] at h; simp at h

/-- A call of the seek state machine whose first pass faults does not return, however many
passes are allowed. -/
theorem iterate_seek_loop_fault (K : GVfsConstants) (host : ByteOrder) (stale : Nat → Nat)
    (s : SeekConf) (h : seek_switch K host stale s = .fault) (n : Nat) :
    iterate_seek_loop K host stale n s = none := by
  cases n with
  | zero => rfl
  | succ n => rw [iterate_seek_loop_succ, h]

/-- A call of the seek state machine whose first pass goes round the loop again does not
return when the call from the state that pass leaves does not. -/
theorem iterate_seek_loop_again_none (K : GVfsConstants) (host : ByteOrder)
    (stale : Nat → Nat) (s : SeekConf) (f : GFileOutputStreamDaemon) (i : IOOperationData)
    (o : SeekOperation) (h : seek_switch K host stale s = .again (f, i, o))
    (h1 : ∀ n, iterate_seek_loop K host stale n (f, clear_io_op i, o) = none) (n : Nat) :
    iterate_seek_loop K host stale n s = none := by
  cases n with
  | zero => rfl
  | succ n => rw [iterate_seek_loop_succ, h]; exact h1 n

/-- A pass of the seek state machine that starts awaiting replies with an empty incoming
buffer and no bytes reported returns a step. -/
theorem seek_switch_hi_empty (K : GVfsConstants) (host : ByteOrder) (stale : Nat → Nat)
    (file : GFileOutputStreamDaemon) (io : IOOperationData) (op : SeekOperation)
    (h : op.state = .SEEK_STATE_HANDLE_INPUT) (hb : file.input_buffer = some [])
    (hr : io.io_res = 0) :
    ∃ step s1, seek_switch K host stale (file, io, op) = .ret step s1 := by
  by_cases hcan : (io.cancelled && !op.sent_cancel) = true
  · simp only [Bool.and_eq_true, Bool.not_eq_true'] at hcan
    exact ⟨_, _, seek_switch_hi_cancel K host stale file io op h hcan.1 hcan.2⟩
  · rw [seek_switch_hi_some K host stale file io op [] h (by simpa using hcan) hb,
      drop_unread_zero stale [] io hr, get_reply_header_missing_bytes_nil]
    exact ⟨_, _, if_pos (by decide)⟩

/-- A pass of the seek state machine that does not return: from the state after the
request it goes on to the replies, and when awaiting replies it has emptied the incoming
buffer. -/
theorem seek_switch_again (K : GVfsConstants) (host : ByteOrder) (stale : Nat → Nat)
    (file f : GFileOutputStreamDaemon) (io i : IOOperationData) (op o : SeekOperation)
    (h : seek_switch K host stale (file, io, op) = .again (f, i, o)) :
    (op.state = .SEEK_STATE_WROTE_REQUEST ∧ o.state = .SEEK_STATE_HANDLE_INPUT) ∨
    (op.state = .SEEK_STATE_HANDLE_INPUT ∧ o.state = .SEEK_STATE_HANDLE_INPUT ∧
      f.input_buffer = some []) := by
  obtain ⟨st, of, ty, rv, re, ro, sc, sq⟩ := op
  cases st
  · simp [seek_switch] at h
  · left
    simp only [seek_switch] at h
    split_ifs at h
    simp only [Pass.again.injEq, Prod.mk.injEq] at h
    obtain ⟨_, _, rfl⟩ := h
    simp
  · right
    by_cases hcan : (io.cancelled && !sc) = true
    · simp [seek_switch, hcan] at h
    · rcases hib : file.input_buffer with _ | ib
      · rw [seek_switch_hi_null K host stale file io _ rfl (by simpa using hcan) hib] at h
        cases h
      · rw [seek_switch_hi_some K host stale file io _ ib rfl (by simpa using hcan) hib] at h
        split_ifs at h
        simp only [Pass.again.injEq, Prod.mk.injEq] at h
        obtain ⟨rfl, _, rfl⟩ := h
        simp

/-- From the state that awaits replies, the loop of the seek state machine returns within
two passes, or it does not return however many passes are allowed. -/
theorem iterate_seek_loop_hi (K : GVfsConstants) (host : ByteOrder) (stale : Nat → Nat)
    (file : GFileOutputStreamDaemon) (io : IOOperationData) (op : SeekOperation)
    (h : op.state = .SEEK_STATE_HANDLE_INPUT) :
    (∃ r, iterate_seek_loop K host stale 2 (file, io, op) = some r) ∨
    ∀ n, iterate_seek_loop K host stale n (file, io, op) = none := by
  cases hw : seek_switch K host stale (file, io, op) with
  | ret step s1 => exact .inl ⟨_, by rw [iterate_seek_loop_succ, hw]⟩
  | fault => exact .inr (iterate_seek_loop_fault K host stale _ hw)
  | again s1 =>
    obtain ⟨f, i, o⟩ := s1
    rcases seek_switch_again K host stale file f io i op o hw with ⟨h1, _⟩ | ⟨_, h2, h3⟩
    · rw [h] at h1; cases h1
    · obtain ⟨step, s1, hs⟩ := seek_switch_hi_empty K host stale f (clear_io_op i) o h2 h3 rfl
      exact .inl ⟨(step, s1), by
        rw [iterate_seek_loop_succ, hw]
        simp only []
        rw [iterate_seek_loop_succ, hs]⟩

/-- Every call of the seek state machine returns within three passes through its switch, or
it does not return however many passes are allowed. -/
theorem iterate_seek_loop_returns (K : GVfsConstants) (host : ByteOrder) (stale : Nat → Nat)
    (s : SeekConf) :
    (∃ r, iterate_seek_loop K host stale 3 s = some r) ∨
    ∀ n, iterate_seek_loop K host stale n s = none := by
  obtain ⟨file, io, op⟩ := s
  cases hw : seek_switch K host stale (file, io, op) with
  | ret step s1 => exact .inl ⟨_, by rw [iterate_seek_loop_succ, hw]⟩
  | fault => exact .inr (iterate_seek_loop_fault K host stale _ hw)
  | again s1 =>
    obtain ⟨f, i, o⟩ := s1
    have hhi : o.state = .SEEK_STATE_HANDLE_INPUT →
        (∃ r, iterate_seek_loop K host stale 3 (file, io, op) = some r) ∨
        ∀ n, iterate_seek_loop K host stale n (file, io, op) = none := by
      intro h2
      rcases iterate_seek_loop_hi K host stale f (clear_io_op i) o h2 with ⟨r, hr⟩ | hn
      · exact .inl ⟨r, by rw [iterate_seek_loop_succ, hw]; exact hr⟩
      · exact .inr (iterate_seek_loop_again_none K host stale _ f i o hw hn)
    rcases seek_switch_again K host stale file f io i op o hw with ⟨_, h2⟩ | ⟨_, h2, _⟩
    · exact hhi h2
    · exact hhi h2

/-- A pass of the write state machine that returns: the operation has left its initial
state, and a Write step allows cancellation exactly when the pass started in the initial
state. -/
theorem write_switch_ret_allow_cancel (K : GVfsConstants) (host : ByteOrder)
    (stale : Nat → Nat) (file f : GFileOutputStreamDaemon) (io i : IOOperationData)
    (op o : WriteOperation) (step : StateOp)
    (h : write_switch K host stale (file, io, op) = .ret step (f, i, o)) :
    o.state ≠ .WRITE_STATE_INIT ∧
    (step = .STATE_OP_WRITE → (i.io_allow_cancel = true ↔ op.state = .WRITE_STATE_INIT)) := by
  obtain ⟨st, bf, bs, bp, rv, re, sc, sq⟩ := op
  obtain ⟨cs, fsq, co, ib, ob⟩ := file
  cases st <;> cases ib <;> simp only [write_switch] at h <;> (try split_ifs at h) <;>
    first
    | exact Pass.noConfusion h
    | (simp only [Pass.ret.injEq, Prod.mk.injEq] at h
       obtain ⟨rfl, _, rfl, rfl⟩ := h
       simp)

/-- A call of the write state machine: the operation has left its initial state when the
call returns, and a Write step allows cancellation exactly when the call started in the
initial state. -/
theorem iterate_write_loop_allow_cancel (K : GVfsConstants) (host : ByteOrder)
    (stale : Nat → Nat) (n : Nat) (file f : GFileOutputStreamDaemon)
    (io i : IOOperationData) (op o : WriteOperation) (step : StateOp)
    (h : iterate_write_loop K host stale n (file, io, op) = some (step, (f, i, o))) :
    o.state ≠ .WRITE_STATE_INIT ∧
    (step = .STATE_OP_WRITE → (i.io_allow_cancel = true ↔ op.state = .WRITE_STATE_INIT)) := by
  induction n generalizing file io op with
  | zero => simp [iterate_write_loop] at h
  | succ n ih =>
    rw [iterate_write_loop_succ] at h
    cases hw : write_switch K host stale (file, io, op) with
    | ret step1 s1 =>
      rw [hw] at h
      simp only [Option.some.injEq, Prod.mk.injEq] at h
      obtain ⟨rfl, rfl⟩ := h
      exact write_switch_ret_allow_cancel K host stale file f io i op o step1 hw
    | again s1 =>
      obtain ⟨f1, i1, o1⟩ := s1
      rw [hw] at h
      obtain ⟨h1, h2⟩ := ih f1 (clear_io_op i1) o1 h
      refine ⟨h1, fun hs => ?_⟩
      have ha := write_switch_again K host stale file f1 io i1 op o1 hw
      have hn1 : o1.state ≠ .WRITE_STATE_INIT := by
        rcases ha with ⟨_, hx | ⟨hx, _⟩⟩ | ⟨_, hx, _⟩ | ⟨_, hx, _⟩ <;> simp [*]
      have hn0 : op.state ≠ .WRITE_STATE_INIT := by
        rcases ha with ⟨hx, _⟩ | ⟨hx, _⟩ | ⟨hx, _⟩ <;> simp [*]
      rw [h2 hs]
      exact ⟨fun hx => absurd hx hn1, fun hx => absurd hx hn0⟩
    | fault => rw [hw] at h; simp at h

/-- A pass of the close state machine that returns: the operation has left its initial
state, and a Write step allows cancellation exactly when the pass started in the initial
state. -/
theorem close_switch_ret_allow_cancel (K : GVfsConstants) (host : ByteOrder)
    (stale : Nat → Nat) (file f : GFileOutputStreamDaemon) (io i : IOOperationData)
    (op o : CloseOperation) (step : StateOp)
    (h : close_switch K host stale (file, io, op) = .ret step (f, i, o)) :
    o.state ≠ .CLOSE_STATE_INIT ∧
    (step = .STATE_OP_WRITE → (i.io_allow_cancel = true ↔ op.state = .CLOSE_STATE_INIT)) := by
  obtain ⟨st, rv, re, sc, sq⟩ := op
  obtain ⟨cs, fsq, co, ib, ob⟩ := file
  cases st <;> cases ib <;> simp only [close_switch] at h <;> (try split_ifs at h) <;>
    first
    | exact Pass.noConfusion h
    | (simp only [Pass.ret.injEq, Prod.mk.injEq] at h
       obtain ⟨rfl, _, rfl, rfl⟩ := h
       simp)

/-- A call of the close state machine: the operation has left its initial state when the
call returns, and a Write step allows cancellation exactly when the call started in the
initial state. -/
theorem iterate_close_loop_allow_cancel (K : GVfsConstants) (host : ByteOrder)
    (stale : Nat → Nat) (n : Nat) (file f : GFileOutputStreamDaemon)
    (io i : IOOperationData) (op o : CloseOperation) (step : StateOp)
    (h : iterate_close_loop K host stale n (file, io, op) = some (step, (f, i, o))) :
    o.state ≠ .CLOSE_STATE_INIT ∧
    (step = .STATE_OP_WRITE → (i.io_allow_cancel = true ↔ op.state = .CLOSE_STATE_INIT)) := by
  induction n generalizing file io op with
  | zero => simp [iterate_close_loop] at h
  | succ n ih =>
    rw [iterate_close_loop_succ] at h
    cases hw : close_switch K host stale (file, io, op) with
    | ret step1 s1 =>
      rw [hw] at h
      simp only [Option.some.injEq, Prod.mk.injEq] at h
      obtain ⟨rfl, rfl⟩ := h
      exact close_switch_ret_allow_cancel K host stale file f io i op o step1 hw
    | again s1 =>
      obtain ⟨f1, i1, o1⟩ := s1
      rw [hw] at h
      obtain ⟨h1, h2⟩ := ih f1 (clear_io_op i1) o1 h
      refine ⟨h1, fun hs => ?_⟩
      have ha := close_switch_again K host stale file f1 io i1 op o1 hw
      have hn1 : o1.state ≠ .CLOSE_STATE_INIT := by
        rcases ha with ⟨_, hx⟩ | ⟨_, hx, _⟩ <;> simp [*]
      have hn0 : op.state ≠ .CLOSE_STATE_INIT := by
        rcases ha with ⟨hx, _⟩ | ⟨hx, _⟩ <;> simp [*]
      rw [h2 hs]
      exact ⟨fun hx => absurd hx hn1, fun hx => absurd hx hn0⟩
    | fault => rw [hw] at h; simp at h

/-- A pass of the seek state machine that returns: the operation has left its initial
state, and a Write step allows cancellation exactly when the pass started in the initial
state. -/
theorem seek_switch_ret_allow_cancel (K : GVfsConstants) (host : ByteOrder)
    (stale : Nat → Nat) (file f : GFileOutputStreamDaemon) (io i : IOOperationData)
    (op o : SeekOperation) (step : StateOp)
    (h : seek_switch K host stale (file, io, op) = .ret step (f, i, o)) :
    o.state ≠ .SEEK_STATE_INIT ∧
    (step = .STATE_OP_WRITE → (i.io_allow_cancel = true ↔ op.state = .SEEK_STATE_INIT)) := by
  obtain ⟨st, of, ty, rv, re, ro, sc, sq⟩ := op
  obtain ⟨cs, fsq, co, ib, ob⟩ := file
  cases st <;> cases ib <;> simp only [seek_switch] at h <;> (try split_ifs at h) <;>
    first
    | exact Pass.noConfusion h
    | (simp only [Pass.ret.injEq, Prod.mk.injEq] at h
       obtain ⟨rfl, _, rfl, rfl⟩ := h
       simp)

/-- A call of the seek state machine: the operation has left its initial state when the
call returns, and a Write step allows cancellation exactly when the call started in the
initial state. -/
theorem iterate_seek_loop_allow_cancel (K : GVfsConstants) (host : ByteOrder)
    (stale : Nat → Nat) (n : Nat) (file f : GFileOutputStreamDaemon)
    (io i : IOOperationData) (op o : SeekOperation) (step : StateOp)
    (h : iterate_seek_loop K host stale n (file, io, op) = some (step, (f, i, o))) :
    o.state ≠ .SEEK_STATE_INIT ∧
    (step = .STATE_OP_WRITE → (i.io_allow_cancel = true ↔ op.state = .SEEK_STATE_INIT)) := by
  induction n generalizing file io op with
  | zero => simp [iterate_seek_loop] at h
  | succ n ih =>
    rw [iterate_seek_loop_succ] at h
    cases hw : seek_switch K host stale (file, io, op) with
    | ret step1 s1 =>
      rw [hw] at h
      simp only [Option.some.injEq, Prod.mk.injEq] at h
      obtain ⟨rfl, rfl⟩ := h
      exact seek_switch_ret_allow_cancel K host stale file f io i op o step1 hw
    | again s1 =>
      obtain ⟨f1, i1, o1⟩ := s1
      rw [hw] at h
      obtain ⟨h1, h2⟩ := ih f1 (clear_io_op i1) o1 h
      refine ⟨h1, fun hs => ?_⟩
      have ha := seek_switch_again K host stale file f1 io i1 op o1 hw
      have hn1 : o1.state ≠ .SEEK_STATE_INIT := by
        rcases ha with ⟨_, hx⟩ | ⟨_, hx, _⟩ <;> simp [*]
      have hn0 : op.state ≠ .SEEK_STATE_INIT := by
        rcases ha with ⟨hx, _⟩ | ⟨hx, _⟩ <;> simp [*]
      rw [h2 hs]
      exact ⟨fun hx => absurd hx hn1, fun hx => absurd hx hn0⟩
    | fault => rw [hw] at h; simp at h

/-- A property of the driver state that every round keeps holds after any number of
rounds. -/
theorem run_sync_rounds_induct {Op : Type} (K : GVfsConstants)
    (iterator : GFileOutputStreamDaemon × IOOperationData × Op →
      Option (StateOp × (GFileOutputStreamDaemon × IOOperationData × Op)))
    (cancellable : Bool) (P : DriverState Op → Prop)
    (hstep : ∀ s ev s1, P s → sync_round K iterator cancellable ev s = some (.inr s1) → P s1)
    (events : List DriverEvent) (s0 s : DriverState Op) (h0 : P s0)
    (h : run_sync_rounds K iterator cancellable events s0 = some s) : P s := by
  induction events generalizing s0 with
  | nil =>
    simp only [run_sync_rounds, Option.some.injEq] at h
    exact h ▸ h0
  | cons ev rest ih =>
    rw [run_sync_rounds] at h
    cases hr : sync_round K iterator cancellable ev s0 with
    | none => simp [hr] at h
    | some r =>
      cases r with
      | inl out => simp [hr] at h
      | inr s1 =>
        rw [hr] at h
        exact ih s1 (hstep s0 ev s1 h0 hr) h

/-- A property of the driver state that every round keeps, and that gives a property of the
outcome in the round that ends the run, gives that property of the outcome of every run. -/
theorem run_sync_loop_induct {Op : Type} (K : GVfsConstants)
    (iterator : GFileOutputStreamDaemon × IOOperationData × Op →
      Option (StateOp × (GFileOutputStreamDaemon × IOOperationData × Op)))
    (cancellable : Bool) (P : DriverState Op → Prop) (Q : DriverOutcome Op → Prop)
    (hstep : ∀ s ev s1, P s → sync_round K iterator cancellable ev s = some (.inr s1) → P s1)
    (hend : ∀ s ev out, P s → sync_round K iterator cancellable ev s = some (.inl out) → Q out)
    (events : List DriverEvent) (s0 : DriverState Op) (out : DriverOutcome Op) (h0 : P s0)
    (h : run_sync_loop K iterator cancellable events s0 = some out) : Q out := by
  induction events generalizing s0 with
  | nil => simp [run_sync_loop] at h
  | cons ev rest ih =>
    rw [run_sync_loop] at h
    cases hr : sync_round K iterator cancellable ev s0 with
    | none => simp [hr] at h
    | some r =>
      cases r with
      | inl out1 =>
        simp only [hr, Option.some.injEq] at h
        exact h ▸ hend s0 ev out1 h0 hr
      | inr s1 =>
        rw [hr] at h
        exact ih s1 (hstep s0 ev s1 h0 hr) h

/-- What a round of the blocking driver does to the record of the calls: a round in which
the state machine ends the operation leaves it as it is, any other round adds the call for
the step the state machine asked for. -/
theorem sync_round_steps {Op : Type} (K : GVfsConstants)
    (iterator : GFileOutputStreamDaemon × IOOperationData × Op →
      Option (StateOp × (GFileOutputStreamDaemon × IOOperationData × Op)))
    (cancellable : Bool) (ev : DriverEvent) (s : DriverState Op)
    (r : DriverOutcome Op ⊕ DriverState Op)
    (h : sync_round K iterator cancellable ev s = some r) :
    ∃ step file1 io1 op1,
      iterator (s.file, poll_cancellable cancellable ev.cancelled s.io_data, s.data)
        = some (step, (file1, io1, op1)) ∧
      (step = .STATE_OP_DONE →
        r = .inl { ok := true, error := none, file := file1, op := op1, chan := s.chan }) ∧
      (step ≠ .STATE_OP_DONE →
        (match r with
          | .inl out => out.op = op1 ∧ out.ok = false ∧
              out.chan.steps = s.chan.steps ++ [io_step step io1 cancellable]
          | .inr s1 => s1.data = op1 ∧
              s1.chan.steps = s.chan.steps ++ [io_step step io1 cancellable])) := by
  cases hit : iterator (s.file, poll_cancellable cancellable ev.cancelled s.io_data, s.data) with
  | none => simp [sync_round, hit] at h
  | some q =>
    obtain ⟨step, file1, io1, op1⟩ := q
    refine ⟨step, file1, io1, op1, rfl, fun hd => ?_, fun hd => ?_⟩
    · subst hd
      simp only [sync_round, hit, Option.some.injEq] at h
      exact h.symm
    · rw [sync_round_step K iterator cancellable ev s step file1 io1 op1 hit hd] at h
      split_ifs at h <;>
        (simp only [Option.some.injEq] at h
         subst h
         simp [Channels.record])

/-- The calls a run of the blocking driver records, for a state machine whose Write steps
allow cancellation only when the call starts on a fresh operation record, and whose calls
never leave the record fresh: of the calls recorded during the run, every write after the
first call is made without the cancellable. -/
theorem run_steps_after_first {Op : Type} (K : GVfsConstants)
    (iterator : GFileOutputStreamDaemon × IOOperationData × Op →
      Option (StateOp × (GFileOutputStreamDaemon × IOOperationData × Op)))
    (cancellable : Bool) (fresh : Op → Prop)
    (hit : ∀ file io op step f i o, iterator (file, io, op) = some (step, (f, i, o)) →
      ¬ fresh o ∧ (step = .STATE_OP_WRITE → i.io_allow_cancel = true → fresh op))
    (events : List DriverEvent) (s0 : DriverState Op) :
    (∀ s, run_sync_rounds K iterator cancellable events s0 = some s →
      ∃ l, s.chan.steps = s0.chan.steps ++ l ∧
        ∀ st ∈ l.tail, st.kind = .STATE_OP_WRITE → st.with_cancellable = false) ∧
    (∀ out, run_sync_loop K iterator cancellable events s0 = some out →
      ∃ l, out.chan.steps = s0.chan.steps ++ l ∧
        ∀ st ∈ l.tail, st.kind = .STATE_OP_WRITE → st.with_cancellable = false) := by
  have key : ∀ (l : List IOStep) (op op1 : Op) (step : StateOp) (file f : GFileOutputStreamDaemon)
      (io io1 : IOOperationData),
      (l ≠ [] → ¬ fresh op) →
      (∀ st ∈ l.tail, st.kind = .STATE_OP_WRITE → st.with_cancellable = false) →
      iterator (file, io, op) = some (step, (f, io1, op1)) →
      ∀ st ∈ (l ++ [io_step step io1 cancellable]).tail,
        st.kind = .STATE_OP_WRITE → st.with_cancellable = false := by
    intro l op op1 step file f io io1 hl ht hi st hst hk
    cases l with
    | nil => simp at hst
    | cons a l1 =>
      simp only [List.cons_append, List.tail_cons, List.mem_append, List.mem_singleton] at hst
      rcases hst with hst | rfl
      · exact ht st (by simpa using hst) hk
      · have hk1 : step = .STATE_OP_WRITE := hk
        have hf := (hit file io op step f io1 op1 hi).2 hk1
        have hnf := hl (by simp)
        simp only [io_step]
        cases hb : io1.io_allow_cancel with
        | false => simp
        | true => exact absurd (hf hb) hnf
  let P : DriverState Op → Prop := fun s =>
    ∃ l, s.chan.steps = s0.chan.steps ++ l ∧ (l ≠ [] → ¬ fresh s.data) ∧
      ∀ st ∈ l.tail, st.kind = .STATE_OP_WRITE → st.with_cancellable = false
  have h0 : P s0 := ⟨[], by simp, by simp, by simp⟩
  have hstep : ∀ s ev s1, P s → sync_round K iterator cancellable ev s = some (.inr s1) →
      P s1 := by
    rintro s ev s1 ⟨l, hl1, hl2, hl3⟩ hr
    obtain ⟨step, file1, io1, op1, hi, hd, hn⟩ := sync_round_steps K iterator cancellable ev s _ hr
    have hne : step ≠ .STATE_OP_DONE := by
      intro hx
      cases hd hx
    obtain ⟨hdat, hst⟩ := hn hne
    refine ⟨l ++ [io_step step io1 cancellable], by rw [hst, hl1, List.append_assoc],
      fun _ => ?_, key l s.data op1 step _ _ _ io1 hl2 hl3 hi⟩
    rw [hdat]
    exact (hit _ _ _ _ _ _ _ hi).1
  refine ⟨fun s hs => ?_, fun out ho => ?_⟩
  · obtain ⟨l, h1, _, h3⟩ := run_sync_rounds_induct K iterator cancellable P hstep events s0 s h0 hs
    exact ⟨l, h1, h3⟩
  · refine run_sync_loop_induct K iterator cancellable P
      (fun out => ∃ l, out.chan.steps = s0.chan.steps ++ l ∧
        ∀ st ∈ l.tail, st.kind = .STATE_OP_WRITE → st.with_cancellable = false)
      hstep ?_ events s0 out h0 ho
    rintro s ev out1 ⟨l, hl1, hl2, hl3⟩ hr
    obtain ⟨step, file1, io1, op1, hi, hd, hn⟩ := sync_round_steps K iterator cancellable ev s _ hr
    by_cases hx : step = .STATE_OP_DONE
    · have := hd hx
      simp only [Sum.inl.injEq] at this
      subst this
      exact ⟨l, hl1, hl3⟩
    · obtain ⟨_, _, hst⟩ := hn hx
      exact ⟨l ++ [io_step step io1 cancellable], by rw [hst, hl1, List.append_assoc],
        key l s.data op1 step _ _ _ io1 hl2 hl3 hi⟩

/-! ## The cancellation flag of the operation through a run -/

/-- The two drivers give the iterator the same `cancelled` when a cancellable is passed, or
when none is passed and the field is clear. -/
theorem async_poll_eq (cancellable flag : Bool) (io : IOOperationData)
    (h : cancellable = true ∨ io.cancelled = false) :
    ({ io with cancelled := cancellable && flag } : IOOperationData)
      = poll_cancellable cancellable flag io := by
  obtain ⟨c, b, sz, rs, ac, ic⟩ := io
  rcases h with h | h
  · subst h
    simp [poll_cancellable]
  · simp only at h
    subst h
    cases cancellable <;> simp [poll_cancellable]

/-- An I/O call reports -1 exactly when it reports an error. -/
theorem perform_io_error_iff (step : StateOp) (file : GFileOutputStreamDaemon)
    (io : IOOperationData) (result : IOResult) :
    ((perform_io step file io result).1.1 = -1 ∧
      ∃ e, (perform_io step file io result).1.2 = some e) ∨
    (0 ≤ (perform_io step file io result).1.1 ∧
      (perform_io step file io result).1.2 = none) := by
  cases result with
  | error e => left; exact ⟨rfl, e, rfl⟩
  | wrote n => right; rw [perform_io_wrote_res]; exact ⟨Int.natCast_nonneg _, rfl⟩
  | read d => right; rw [perform_io_read_res]; exact ⟨Int.natCast_nonneg _, rfl⟩

/-- A link of the cooperative driver in which the state machine asks for a step: the I/O call
is made and `async_op_handle` deals with its result. -/
theorem async_round_step {Op : Type} (K : GVfsConstants)
    (iterator : GFileOutputStreamDaemon × IOOperationData × Op →
      Option (StateOp × (GFileOutputStreamDaemon × IOOperationData × Op)))
    (cancellable : Bool) (ev : DriverEvent) (s : DriverState Op) (step : StateOp)
    (file1 : GFileOutputStreamDaemon) (io1 : IOOperationData) (op1 : Op)
    (hit : iterator (s.file, { s.io_data with cancelled := cancellable && ev.cancelled }, s.data)
      = some (step, (file1, io1, op1)))
    (hstep : step ≠ .STATE_OP_DONE) :
    async_round K iterator cancellable ev s
      = match async_op_handle K io1 (perform_io step file1 io1 ev.result).1.1
            (perform_io step file1 io1 ev.result).1.2 with
        | .inl e =>
          some (.inl { io_error := some e, file := (perform_io step file1 io1 ev.result).2.1
                       op := op1
                       chan := s.chan.record (io_step step io1 cancellable)
                         (perform_io step file1 io1 ev.result).2.2 })
        | .inr io_data3 =>
          some (.inr { file := (perform_io step file1 io1 ev.result).2.1
                       io_data := io_data3, data := op1
                       chan := s.chan.record (io_step step io1 cancellable)
                         (perform_io step file1 io1 ev.result).2.2 }) := by
  cases step <;> first | exact absurd rfl hstep | (unfold async_round; dsimp only; rw [hit])

/-- One link of the cooperative driver does what one round of the blocking driver does, when
both give the iterator the same `cancelled`. -/
theorem async_round_eq_sync {Op : Type} (K : GVfsConstants)
    (iterator : GFileOutputStreamDaemon × IOOperationData × Op →
      Option (StateOp × (GFileOutputStreamDaemon × IOOperationData × Op)))
    (cancellable : Bool) (ev : DriverEvent) (s : DriverState Op)
    (h : cancellable = true ∨ s.io_data.cancelled = false) :
    async_round K iterator cancellable ev s
      = (sync_round K iterator cancellable ev s).map (Sum.map DriverOutcome.as_async id) := by
  have hp := async_poll_eq cancellable ev.cancelled s.io_data h
  cases hit : iterator (s.file, poll_cancellable cancellable ev.cancelled s.io_data, s.data) with
  | none =>
    unfold async_round sync_round
    dsimp only
    rw [hp, hit]
    rfl
  | some q =>
    obtain ⟨step, file1, io1, op1⟩ := q
    by_cases hd : step = .STATE_OP_DONE
    · subst hd
      unfold async_round sync_round
      dsimp only
      rw [hp, hit]
      rfl
    · rw [sync_round_step K iterator cancellable ev s step file1 io1 op1 hit hd,
        async_round_step K iterator cancellable ev s step file1 io1 op1 (by rw [hp]; exact hit) hd]
      rcases perform_io_error_iff step file1 io1 ev.result with ⟨h1, e, h2⟩ | ⟨h1, h2⟩
      · rw [h1, h2]
        by_cases hc : error_is_cancel K (some e) = true
        · simp [async_op_handle, hc]
        · simp [async_op_handle, hc, DriverOutcome.as_async]
      · rw [h2]
        have hne : (perform_io step file1 io1 ev.result).1.1 ≠ -1 := by omega
        by_cases hz : (perform_io step file1 io1 ev.result).1.1 = 0 ∧ io1.io_size ≠ 0
        · simp [async_op_handle, hz, hne, DriverOutcome.as_async]
        · simp [async_op_handle, hz, hne]

/-- A round of the blocking driver without a cancellable, over a state machine that leaves
`cancelled` alone, leaves the field clear when it found it clear. -/
theorem sync_round_cancelled_clear {Op : Type} (K : GVfsConstants)
    (iterator : GFileOutputStreamDaemon × IOOperationData × Op →
      Option (StateOp × (GFileOutputStreamDaemon × IOOperationData × Op)))
    (hk : ∀ conf r, iterator conf = some r → r.2.2.1.cancelled = conf.2.1.cancelled)
    (ev : DriverEvent) (s s1 : DriverState Op) (hs : s.io_data.cancelled = false)
    (h : sync_round K iterator false ev s = some (.inr s1)) :
    s1.io_data.cancelled = false := by
  cases hit : iterator (s.file, poll_cancellable false ev.cancelled s.io_data, s.data) with
  | none => simp [sync_round, hit] at h
  | some q =>
    obtain ⟨step, file1, io1, op1⟩ := q
    have hc : io1.cancelled = false := by
      have := hk _ _ hit
      simp only [poll_cancellable, Bool.false_eq_true, if_false] at this
      rw [this, hs]
    by_cases hd : step = .STATE_OP_DONE
    · subst hd
      simp [sync_round, hit] at h
    · rw [sync_round_step K iterator false ev s step file1 io1 op1 hit hd] at h
      split_ifs at h <;> simp only [Option.some.injEq, Sum.inr.injEq, reduceCtorEq] at h <;>
        (subst h
         exact hc)

/-- The cooperative driver does what the blocking driver does, when a cancellable is passed,
or when none is passed, the step descriptor starts with `cancelled` clear and the state
machine leaves that field alone: the iterator is called with the same values, the state
between rounds is the same, and so is the outcome. -/
theorem drivers_equivalent {Op : Type} (K : GVfsConstants)
    (iterator : GFileOutputStreamDaemon × IOOperationData × Op →
      Option (StateOp × (GFileOutputStreamDaemon × IOOperationData × Op)))
    (cancellable : Bool) (events : List DriverEvent) (s : DriverState Op)
    (h : cancellable = true ∨
      (s.io_data.cancelled = false ∧
        ∀ conf r, iterator conf = some r → r.2.2.1.cancelled = conf.2.1.cancelled)) :
    async_calls K iterator cancellable events s = sync_calls K iterator cancellable events s ∧
    run_async_rounds K iterator cancellable events s
      = run_sync_rounds K iterator cancellable events s ∧
    async_iterate K iterator cancellable events s
      = (run_sync_loop K iterator cancellable events s).map DriverOutcome.as_async := by
  induction events generalizing s with
  | nil => exact ⟨rfl, rfl, rfl⟩
  | cons ev rest ih =>
    have hc : cancellable = true ∨ s.io_data.cancelled = false := by
      rcases h with h | h
      · exact Or.inl h
      · exact Or.inr h.1
    have hr := async_round_eq_sync K iterator cancellable ev s hc
    have hp := async_poll_eq cancellable ev.cancelled s.io_data hc
    have hcall : (cancellable && ev.cancelled, s.io_data.io_res, s.io_data.io_cancelled)
        = ((poll_cancellable cancellable ev.cancelled s.io_data).cancelled,
           (poll_cancellable cancellable ev.cancelled s.io_data).io_res,
           (poll_cancellable cancellable ev.cancelled s.io_data).io_cancelled) := by
      rw [← hp]
    simp only [async_calls, sync_calls, run_async_rounds, run_sync_rounds, async_iterate,
      run_sync_loop, hr, hcall]
    cases hsr : sync_round K iterator cancellable ev s with
    | none => exact ⟨rfl, rfl, rfl⟩
    | some q =>
      cases q with
      | inl out => exact ⟨rfl, rfl, rfl⟩
      | inr s1 =>
        have h1 : cancellable = true ∨
            (s1.io_data.cancelled = false ∧
              ∀ conf r, iterator conf = some r → r.2.2.1.cancelled = conf.2.1.cancelled) := by
          rcases h with h | h
          · exact Or.inl h
          · cases hcb : cancellable with
            | true => exact Or.inl rfl
            | false =>
              rw [hcb] at hsr
              exact Or.inr ⟨sync_round_cancelled_clear K iterator h.2 ev s s1 h.1 hsr, h.2⟩
        obtain ⟨i1, i2, i3⟩ := ih s1 h1
        simp only [Option.map_some', Sum.map_inr, id]
        exact ⟨by rw [i1], i2, i3⟩

/-- No pass of the write state machine writes the `cancelled` field of the step descriptor. -/
theorem write_switch_cancelled (K : GVfsConstants) (host : ByteOrder) (stale : Nat → Nat)
    (s : WriteConf) :
    (match write_switch K host stale s with
      | .ret _ s1 => s1.2.1.cancelled
      | .again s1 => s1.2.1.cancelled
      | .fault => s.2.1.cancelled) = s.2.1.cancelled := by
  obtain ⟨file, io, op⟩ := s
  obtain ⟨st, bf, bs, bp, rv, re, sc, sq⟩ := op
  obtain ⟨cs, fsq, co, ib, ob⟩ := file
  cases st <;> cases ib <;> simp only [write_switch] <;> (try split_ifs) <;> rfl

/-- No call of the write state machine writes the `cancelled` field of the step descriptor. -/
theorem iterate_write_loop_cancelled (K : GVfsConstants) (host : ByteOrder)
    (stale : Nat → Nat) (n : Nat) (s : WriteConf) (r : StateOp × WriteConf)
    (h : iterate_write_loop K host stale n s = some r) :
    r.2.2.1.cancelled = s.2.1.cancelled := by
  induction n generalizing s with
  | zero => simp [iterate_write_loop] at h
  | succ n ih =>
    rw [iterate_write_loop_succ] at h
    have hp := write_switch_cancelled K host stale s
    cases hw : write_switch K host stale s with
    | ret step s1 =>
      rw [hw] at h hp
      simp only [Option.some.injEq] at h
      subst h
      exact hp
    | again s1 =>
      obtain ⟨f1, i1, o1⟩ := s1
      rw [hw] at h hp
      rw [ih _ h]
      exact hp
    | fault => rw [hw] at h; simp at h

/-- No pass of the close state machine writes the `cancelled` field of the step descriptor. -/
theorem close_switch_cancelled (K : GVfsConstants) (host : ByteOrder) (stale : Nat → Nat)
    (s : CloseConf) :
    (match close_switch K host stale s with
      | .ret _ s1 => s1.2.1.cancelled
      | .again s1 => s1.2.1.cancelled
      | .fault => s.2.1.cancelled) = s.2.1.cancelled := by
  obtain ⟨file, io, op⟩ := s
  obtain ⟨st, rv, re, sc, sq⟩ := op
  obtain ⟨cs, fsq, co, ib, ob⟩ := file
  cases st <;> cases ib <;> simp only [close_switch] <;> (try split_ifs) <;> rfl

/-- No call of the close state machine writes the `cancelled` field of the step descriptor. -/
theorem iterate_close_loop_cancelled (K : GVfsConstants) (host : ByteOrder)
    (stale : Nat → Nat) (n : Nat) (s : CloseConf) (r : StateOp × CloseConf)
    (h : iterate_close_loop K host stale n s = some r) :
    r.2.2.1.cancelled = s.2.1.cancelled := by
  induction n generalizing s with
  | zero => simp [iterate_close_loop] at h
  | succ n ih =>
    rw [iterate_close_loop_succ] at h
    have hp := close_switch_cancelled K host stale s
    cases hw : close_switch K host stale s with
    | ret step s1 =>
      rw [hw] at h hp
      simp only [Option.some.injEq] at h
      subst h
      exact hp
    | again s1 =>
      obtain ⟨f1, i1, o1⟩ := s1
      rw [hw] at h hp
      rw [ih _ h]
      exact hp
    | fault => rw [hw] at h; simp at h

/-- No pass of the seek state machine writes the `cancelled` field of the step descriptor. -/
theorem seek_switch_cancelled (K : GVfsConstants) (host : ByteOrder) (stale : Nat → Nat)
    (s : SeekConf) :
    (match seek_switch K host stale s with
      | .ret _ s1 => s1.2.1.cancelled
      | .again s1 => s1.2.1.cancelled
      | .fault => s.2.1.cancelled) = s.2.1.cancelled := by
  obtain ⟨file, io, op⟩ := s
  obtain ⟨st, of, ty, rv, re, ro, sc, sq⟩ := op
  obtain ⟨cs, fsq, co, ib, ob⟩ := file
  cases st <;> cases ib <;> simp only [seek_switch] <;> (try split_ifs) <;> rfl

/-- No call of the seek state machine writes the `cancelled` field of the step descriptor. -/
theorem iterate_seek_loop_cancelled (K : GVfsConstants) (host : ByteOrder)
    (stale : Nat → Nat) (n : Nat) (s : SeekConf) (r : StateOp × SeekConf)
    (h : iterate_seek_loop K host stale n s = some r) :
    r.2.2.1.cancelled = s.2.1.cancelled := by
  induction n generalizing s with
  | zero => simp [iterate_seek_loop] at h
  | succ n ih =>
    rw [iterate_seek_loop_succ] at h
    have hp := seek_switch_cancelled K host stale s
    cases hw : seek_switch K host stale s with
    | ret step s1 =>
      rw [hw] at h hp
      simp only [Option.some.injEq] at h
      subst h
      exact hp
    | again s1 =>
      obtain ⟨f1, i1, o1⟩ := s1
      rw [hw] at h hp
      rw [ih _ h]
      exact hp
    | fault => rw [hw] at h; simp at h

/-- The blocking driver returns TRUE exactly when it stores no error. -/
theorem run_sync_loop_ok_iff {Op : Type} (K : GVfsConstants)
    (iterator : GFileOutputStreamDaemon × IOOperationData × Op →
      Option (StateOp × (GFileOutputStreamDaemon × IOOperationData × Op)))
    (cancellable : Bool) (events : List DriverEvent) (s : DriverState Op)
    (out : DriverOutcome Op)
    (h : run_sync_loop K iterator cancellable events s = some out) :
    out.ok = true ↔ out.error = none := by
  refine run_sync_loop_induct K iterator cancellable (fun _ => True)
    (fun o => o.ok = true ↔ o.error = none) (fun _ _ _ _ _ => trivial) ?_ events s out trivial h
  intro t ev o _ hr
  cases hit : iterator (t.file, poll_cancellable cancellable ev.cancelled t.io_data, t.data) with
  | none => simp [sync_round, hit] at hr
  | some q =>
    obtain ⟨step, file1, io1, op1⟩ := q
    by_cases hd : step = .STATE_OP_DONE
    · subst hd
      simp only [sync_round, hit, Option.some.injEq, Sum.inl.injEq] at hr
      subst hr
      simp
    · rw [sync_round_step K iterator cancellable ev t step file1 io1 op1 hit hd] at hr
      split_ifs at hr <;> simp only [Option.some.injEq, Sum.inl.injEq, reduceCtorEq] at hr <;>
        (subst hr
         simp)

/-! ## Streams whose input buffer is NULL -/

/-- A round of the blocking driver in which the state machine does not return: the driver
does not return. -/
theorem sync_round_no_return {Op : Type} (K : GVfsConstants)
    (iterator : GFileOutputStreamDaemon × IOOperationData × Op →
      Option (StateOp × (GFileOutputStreamDaemon × IOOperationData × Op)))
    (cancellable : Bool) (ev : DriverEvent) (s : DriverState Op)
    (hit : iterator (s.file, poll_cancellable cancellable ev.cancelled s.io_data, s.data)
      = none) :
    sync_round K iterator cancellable ev s = none := by
  unfold sync_round
  dsimp only
  rw [hit]

/-- A run of the blocking driver that comes, after the rounds `pre`, to a round in which the
state machine does not return: the run has no outcome, whatever the I/O call of that round
would report and whatever events follow. -/
theorem run_sync_loop_no_return {Op : Type} (K : GVfsConstants)
    (iterator : GFileOutputStreamDaemon × IOOperationData × Op →
      Option (StateOp × (GFileOutputStreamDaemon × IOOperationData × Op)))
    (cancellable : Bool) (pre : List DriverEvent) (flag : Bool) (res : IOResult)
    (rest : List DriverEvent) (s s1 : DriverState Op)
    (h : run_sync_rounds K iterator cancellable pre s = some s1)
    (hit : iterator (s1.file, poll_cancellable cancellable flag s1.io_data, s1.data) = none) :
    run_sync_loop K iterator cancellable (pre ++ ⟨flag, res⟩ :: rest) s = none := by
  rw [run_sync_loop_append K iterator cancellable pre _ s s1 h, run_sync_loop,
    sync_round_no_return K iterator cancellable ⟨flag, res⟩ s1 hit]

/-! ## Escaping of names and decimal numbers -/

/-- A C string without a NUL is read whole. -/
theorem cstring_of_nonzero (s : List Nat) (h : ∀ b ∈ s, b ≠ 0) : cstring s = s := by
  unfold cstring
  rw [List.takeWhile_eq_self_iff]
  intro b hb
  simpa using h b hb

/-- The entries of the table `hex` are upper-case hexadecimal digits. -/
theorem hex_range (i : Nat) (h : i < 16) :
    (48 ≤ hex i ∧ hex i ≤ 57) ∨ (65 ≤ hex i ∧ hex i ≤ 70) := by
  unfold hex
  split_ifs <;> omega

/-- The value of the hexadecimal digit for `i` is `i`. -/
theorem g_ascii_xdigit_value_hex (i : Nat) (h : i < 16) :
    g_ascii_xdigit_value (hex i) = (i : Int) := by
  unfold g_ascii_xdigit_value hex
  split_ifs <;> omega

/-- Two hexadecimal digits joined as `append_unescaped_dbus_name` joins them. -/
theorem join_nibbles (hi lo : Nat) (h1 : hi < 16) (h2 : lo < 16) :
    (((hi : Int) * 16) % 256).toNat ||| (((lo : Int)) % 256).toNat = hi * 16 + lo := by
  have e1 : (((hi : Int) * 16) % 256).toNat = hi * 16 := by omega
  have e2 : (((lo : Int)) % 256).toNat = lo := by omega
  rw [e1, e2]
  have : ∀ a < 16, ∀ b < 16, a * 16 ||| b = a * 16 + b := by decide
  exact this hi h1 lo h2

/-- A byte that `append_escaped_name` copies is a letter or a digit. -/
theorem valid_name_character_range (first : Bool) (c : Nat)
    (h : (if first then VALID_INITIAL_NAME_CHARACTER c else VALID_NAME_CHARACTER c) = true) :
    (48 ≤ c ∧ c ≤ 57) ∨ (65 ≤ c ∧ c ≤ 90) ∨ (97 ≤ c ∧ c ≤ 122) := by
  cases first <;>
    simp only [if_true, Bool.false_eq_true, if_false, VALID_INITIAL_NAME_CHARACTER,
      VALID_NAME_CHARACTER, Bool.or_eq_true, Bool.and_eq_true, decide_eq_true_eq] at h <;>
    omega

/-- One step of `append_escaped_name` on a byte that is not NUL. -/
theorem append_escaped_name_cons (first : Bool) (c : Nat) (rest : List Nat) (h0 : c ≠ 0) :
    append_escaped_name first (c :: rest)
      = if (if first then VALID_INITIAL_NAME_CHARACTER c else VALID_NAME_CHARACTER c) = true
        then c :: append_escaped_name first rest
        else 95 :: hex ((c % 256) / 16) :: hex (c % 16) :: append_escaped_name false rest := by
  rw [append_escaped_name, if_neg h0]

/-- What `append_escaped_name` appends holds no dot and no NUL: letters, digits, and
underscores followed by two hexadecimal digits. -/
theorem append_escaped_name_bytes (first : Bool) (d : List Nat) :
    ∀ x ∈ append_escaped_name first d,
      x = 95 ∨ (48 ≤ x ∧ x ≤ 57) ∨ (65 ≤ x ∧ x ≤ 90) ∨ (97 ≤ x ∧ x ≤ 122) := by
  induction d generalizing first with
  | nil => simp [append_escaped_name]
  | cons c rest ih =>
    intro x hx
    by_cases h0 : c = 0
    · simp [append_escaped_name, h0] at hx
    · rw [append_escaped_name_cons first c rest h0] at hx
      by_cases hv : (if first then VALID_INITIAL_NAME_CHARACTER c else VALID_NAME_CHARACTER c)
          = true
      · rw [if_pos hv] at hx
        simp only [List.mem_cons] at hx
        rcases hx with rfl | hx
        · exact Or.inr (valid_name_character_range first x hv)
        · exact ih first x hx
      · rw [if_neg hv] at hx
        simp only [List.mem_cons] at hx
        rcases hx with rfl | rfl | rfl | hx
        · exact Or.inl rfl
        · have := hex_range (c % 256 / 16) (by omega)
          omega
        · have := hex_range (c % 16) (by omega)
          omega
        · exact ih false x hx

/-- A byte other than the underscore is copied by `append_unescaped_dbus_name`. -/
theorem append_unescaped_dbus_name_cons (c : Nat) (rest : List Nat) (h : c ≠ 95) :
    append_unescaped_dbus_name (c :: rest) = c :: append_unescaped_dbus_name rest := by
  match rest with
  | [] => simp [append_unescaped_dbus_name]
  | [a] => simp [append_unescaped_dbus_name, h]
  | a :: b :: r => simp [append_unescaped_dbus_name, h]

/-- Unescaping what `append_escaped_name` made of a string of non-NUL bytes gives the string
back, whatever `first` was. -/
theorem append_unescaped_escaped (first : Bool) (d : List Nat)
    (h : ∀ b ∈ d, 0 < b ∧ b < 256) :
    append_unescaped_dbus_name (append_escaped_name first d) = d := by
  induction d generalizing first with
  | nil => simp [append_escaped_name, append_unescaped_dbus_name]
  | cons c rest ih =>
    have hc := h c (by simp)
    have hrest : ∀ b ∈ rest, 0 < b ∧ b < 256 := fun b hb => h b (by simp [hb])
    rw [append_escaped_name_cons first c rest (by omega)]
    by_cases hv : (if first then VALID_INITIAL_NAME_CHARACTER c else VALID_NAME_CHARACTER c)
        = true
    · rw [if_pos hv]
      have hr := valid_name_character_range first c hv
      rw [append_unescaped_dbus_name_cons c _ (by omega), ih first hrest]
    · rw [if_neg hv]
      simp only [append_unescaped_dbus_name, if_true]
      rw [g_ascii_xdigit_value_hex _ (by omega), g_ascii_xdigit_value_hex _ (by omega),
        join_nibbles _ _ (by omega) (by omega), ih false hrest]
      congr 1
      omega

/-- The bytes of `decimal_digits` are decimal digits. -/
theorem decimal_digits_bytes (fuel n : Nat) :
    ∀ x ∈ decimal_digits fuel n, 48 ≤ x ∧ x ≤ 57 := by
  induction fuel generalizing n with
  | zero => simp [decimal_digits]
  | succ fuel ih =>
    intro x hx
    unfold decimal_digits at hx
    split_ifs at hx with h
    · simp only [List.mem_singleton] at hx
      omega
    · simp only [List.mem_append, List.mem_singleton] at hx
      rcases hx with hx | hx
      · exact ih _ x hx
      · omega

/-- With fuel there is at least one digit. -/
theorem decimal_digits_ne_nil (fuel n : Nat) : decimal_digits (fuel + 1) n ≠ [] := by
  unfold decimal_digits
  split_ifs <;> simp

/-- Reading back the digits of `n`. -/
theorem parse_decimal_digits (fuel n : Nat) (h : n < fuel) (acc : Nat) (tail : List Nat) :
    parse_digits acc (decimal_digits fuel n ++ tail)
      = parse_digits (acc * 10 ^ (decimal_digits fuel n).length + n) tail := by
  induction fuel generalizing n acc tail with
  | zero => omega
  | succ fuel ih =>
    unfold decimal_digits
    split_ifs with h10
    · have hd : 48 ≤ 48 + n ∧ 48 + n ≤ 57 := by omega
      simp only [List.singleton_append, parse_digits, hd, and_self, if_true, List.length_singleton,
        pow_one, Nat.add_sub_cancel_left]
      rfl
    · rw [List.append_assoc, ih (n / 10) (by omega)]
      have hd : 48 ≤ 48 + n % 10 ∧ 48 + n % 10 ≤ 57 := by omega
      simp only [List.singleton_append, parse_digits, hd, and_self, if_true, List.length_append,
        List.length_singleton, Nat.add_sub_cancel_left]
      congr 1
      rw [pow_succ]
      have := Nat.div_add_mod n 10
      nlinarith [this]

/-- Reading back the digits of `n`, alone in a string. -/
theorem parse_decimal (n : Nat) : parse_digits 0 (decimal_digits (n + 1) n) = n := by
  have := parse_decimal_digits (n + 1) n (by omega) 0 []
  simpa [parse_digits] using this

/-- The function `atoi` reads back what `%d` printed. -/
theorem atoi_format_d (n : Int) : atoi (format_d n) = n := by
  unfold format_d
  split_ifs with hneg
  · have : atoi (45 :: decimal_digits (n.natAbs + 1) n.natAbs)
        = -((parse_digits 0 (decimal_digits (n.natAbs + 1) n.natAbs) : Nat) : Int) := by
      simp [atoi, isspace, List.dropWhile]
    rw [this, parse_decimal]
    omega
  · have hb := decimal_digits_bytes (n.natAbs + 1) n.natAbs
    have hp := parse_decimal n.natAbs
    cases hdd : decimal_digits (n.natAbs + 1) n.natAbs with
    | nil => exact absurd hdd (decimal_digits_ne_nil _ _)
    | cons d r =>
      rw [hdd] at hb hp
      have hd := hb d (by simp)
      have hsp : isspace d = false := by
        simp only [isspace, Bool.or_eq_false_iff, decide_eq_false_iff_not, Bool.and_eq_false_imp,
          decide_eq_true_eq]
        omega
      have : atoi (d :: r) = ((parse_digits 0 (d :: r) : Nat) : Int) := by
        unfold atoi
        simp only [List.dropWhile, hsp]
        split
        · rename_i heq
          simp only [List.cons.injEq] at heq
          omega
        · rename_i heq
          simp only [List.cons.injEq] at heq
          omega
        · rfl
      rw [this, hp]
      omega

/-! ## Claims on the wire codec -/

/-- C1: `append_request` appends exactly 20 bytes after the bytes already in the output
buffer, reports the counter value it found, and leaves the counter at that value plus one
modulo 2^32; nothing else of the stream changes. -/
theorem append_request_spec (host : ByteOrder) (stream : GFileOutputStreamDaemon)
    (command arg1 arg2 data_len : Nat) :
    (∃ frame : List Nat, frame.length = 20 ∧
      (append_request host stream command arg1 arg2 data_len).1.output_buffer
        = stream.output_buffer ++ frame) ∧
    (append_request host stream command arg1 arg2 data_len).2 = stream.seq_nr ∧
    (append_request host stream command arg1 arg2 data_len).1.seq_nr
      = (stream.seq_nr + 1) % 4294967296 ∧
    (append_request host stream command arg1 arg2 data_len).1.input_buffer
      = stream.input_buffer ∧
    (append_request host stream command arg1 arg2 data_len).1.current_offset
      = stream.current_offset ∧
    (append_request host stream command arg1 arg2 data_len).1.can_seek = stream.can_seek := by
  refine ⟨⟨_, ?_, append_request_output host stream command arg1 arg2 data_len⟩,
    rfl, rfl, rfl, rfl, rfl⟩
  simp [be32_length, store32_length]

/-- C2 (defect): on a little-endian host the `data_len` word is copied out in host order.
For the request (1, seq 0, 0, 0, data_len 1) the last four bytes are 01 00 00 00, which
read in network order give 16777216 instead of 1, while the other four words read back
correctly. -/
theorem append_request_data_len_not_network_order :
    (append_request ByteOrder.G_LITTLE_ENDIAN
        { can_seek := false, seq_nr := 0, current_offset := 0, input_buffer := none,
          output_buffer := [] } 1 0 0 1).1.output_buffer
      = [0, 0, 0, 1, 0, 0, 0, 0, 0, 0, 0, 0, 0, 0, 0, 0, 1, 0, 0, 0] ∧
    read_be32 ((append_request ByteOrder.G_LITTLE_ENDIAN
        { can_seek := false, seq_nr := 0, current_offset := 0, input_buffer := none,
          output_buffer := [] } 1 0 0 1).1.output_buffer.drop 16) = 16777216 := by
  decide

/-- C3 (defect): for an ERROR header the missing-byte count is an unguarded unsigned
subtraction.  A complete ERROR frame with an empty payload followed by one more byte gives
2^64 - 1 instead of 0, and so does a bare 16-byte ERROR header announcing a payload of
2^32 - 1 bytes, where 2^32 - 1 bytes are missing. -/
theorem get_reply_header_missing_bytes_wraps :
    get_reply_header_missing_bytes sampleConstants ByteOrder.G_LITTLE_ENDIAN
      (be32 1 ++ be32 0 ++ be32 0 ++ be32 0 ++ [0]) = 18446744073709551615 ∧
    get_reply_header_missing_bytes sampleConstants ByteOrder.G_BIG_ENDIAN
      (be32 1 ++ be32 0 ++ be32 0 ++ be32 0 ++ [0]) = 18446744073709551615 ∧
    get_reply_header_missing_bytes sampleConstants ByteOrder.G_LITTLE_ENDIAN
      (be32 1 ++ be32 0 ++ be32 0 ++ be32 4294967295) = 18446744073709551615 := by
  decide

/-- C4: a buffer that starts with four 32-bit values written big-endian decodes to those
four values on either host, and the returned payload pointer is byte 16 of the buffer. -/
theorem decode_reply_roundtrip (host : ByteOrder) (type seq_nr arg1 arg2 : Nat)
    (payload : List Nat) (ht : type < 4294967296) (hs : seq_nr < 4294967296)
    (h1 : arg1 < 4294967296) (h2 : arg2 < 4294967296) :
    decode_reply host (be32 type ++ be32 seq_nr ++ be32 arg1 ++ be32 arg2 ++ payload)
      = ({ type := type, seq_nr := seq_nr, arg1 := arg1, arg2 := arg2 }, payload) ∧
    (decode_reply host (be32 type ++ be32 seq_nr ++ be32 arg1 ++ be32 arg2 ++ payload)).2
      = (be32 type ++ be32 seq_nr ++ be32 arg1 ++ be32 arg2 ++ payload).drop 16 := by
  obtain ⟨e0, e1, e2, e3, e4⟩ := read_reply_words type seq_nr arg1 arg2 payload
  have m0 : type % U32 = type := Nat.mod_eq_of_lt ht
  have m1 : seq_nr % U32 = seq_nr := Nat.mod_eq_of_lt hs
  have m2 : arg1 % U32 = arg1 := Nat.mod_eq_of_lt h1
  have m3 : arg2 % U32 = arg2 := Nat.mod_eq_of_lt h2
  rw [decode_reply_eq, e0, e1, e2, e3, e4, m0, m1, m2, m3]
  exact ⟨rfl, rfl⟩

/-- Instance of C4 on a little-endian host: the header (3, 5, 7, 0) followed by two payload
bytes. -/
theorem decode_reply_roundtrip_witness :
    decode_reply ByteOrder.G_LITTLE_ENDIAN
        (be32 3 ++ be32 5 ++ be32 7 ++ be32 0 ++ [65, 66])
      = ({ type := 3, seq_nr := 5, arg1 := 7, arg2 := 0 }, [65, 66]) ∧
    (decode_reply ByteOrder.G_LITTLE_ENDIAN (be32 3 ++ be32 5 ++ be32 7 ++ be32 0 ++ [65, 66])).2
      = (be32 3 ++ be32 5 ++ be32 7 ++ be32 0 ++ [65, 66]).drop 16 :=
  decode_reply_roundtrip ByteOrder.G_LITTLE_ENDIAN 3 5 7 0 [65, 66]
    (by decide) (by decide) (by decide) (by decide)

/-- C5 (defect): the message text is handed to `g_set_error` as a format string.  With the
payload org.test NUL 50%% NUL and arg1 = 5 the stored message is `50%`, not the four bytes
sent; with the message `100%d` the call is undefined.  The payload org.test NUL cancelled
NUL gives (org.test, 5, cancelled). -/
theorem decode_error_message_is_format :
    decode_error { type := 1, seq_nr := 0, arg1 := 5, arg2 := 14 }
        (ascii "org.test" ++ [0] ++ ascii "50%%" ++ [0])
      = some { domain := ascii "org.test", code := 5, message := ascii "50%" } ∧
    decode_error { type := 1, seq_nr := 0, arg1 := 5, arg2 := 15 }
        (ascii "org.test" ++ [0] ++ ascii "100%d" ++ [0]) = none ∧
    decode_error { type := 1, seq_nr := 0, arg1 := 5, arg2 := 19 }
        (ascii "org.test" ++ [0] ++ ascii "cancelled" ++ [0])
      = some { domain := ascii "org.test", code := 5, message := ascii "cancelled" } := by
  decide

/-! ## Claims on the write operation -/

/-- C8: the per-write cap.  A write of `count` bytes (at least one) on a stream with an empty
output buffer, through the blocking facade or through the asynchronous one, appends the
request (WRITE, seq, c, 0, c) with c = min (count, 4194304) in both arg1 and data_len, and
after the channel has taken the 20 bytes of the request the next write call offers exactly
the first c bytes of the caller's buffer.  (The run is ended here by a transport error on
that second call, so that the calls made are visible in the outcome.) -/
theorem write_cap (K : GVfsConstants) (host : ByteOrder) (stale : Nat → Nat)
    (cancellable : Bool) (file : GFileOutputStreamDaemon) (buffer : List Nat) (count : Nat)
    (f0 f1 : Bool) (e : GError) (chan : Channels)
    (hout : file.output_buffer = []) (hcount : 1 ≤ count)
    (he : error_is_cancel K (some e) = false) :
    g_file_output_stream_daemon_write K host stale file buffer count cancellable false
        [⟨f0, .wrote 20⟩, ⟨f1, .error e⟩] chan
      = some
          { ret := -1
            error := some (protocol_error K e.message)
            file := { file with seq_nr := (file.seq_nr + 1) % 4294967296, output_buffer := [] }
            chan :=
              { wire := chan.wire ++ (be32 K.REQUEST_WRITE ++ be32 file.seq_nr
                  ++ be32 (min count 4194304) ++ be32 0 ++ store32 host (min count 4194304))
                steps := chan.steps ++
                  [{ kind := .STATE_OP_WRITE, size := 20, with_cancellable := cancellable
                     offered := be32 K.REQUEST_WRITE ++ be32 file.seq_nr
                       ++ be32 (min count 4194304) ++ be32 0
                       ++ store32 host (min count 4194304) },
                   { kind := .STATE_OP_WRITE, size := min count 4194304
                     with_cancellable := false
                     offered := buffer.take (min count 4194304) }] } } ∧
    g_file_output_stream_daemon_write_async K host stale file buffer count cancellable
        [⟨f0, .wrote 20⟩, ⟨f1, .error e⟩] chan
      = some
          { bytes_requested := min count 4194304
            bytes_written := -1
            error := some (protocol_error K e.message)
            file := { file with seq_nr := (file.seq_nr + 1) % 4294967296, output_buffer := [] }
            chan :=
              { wire := chan.wire ++ (be32 K.REQUEST_WRITE ++ be32 file.seq_nr
                  ++ be32 (min count 4194304) ++ be32 0 ++ store32 host (min count 4194304))
                steps := chan.steps ++
                  [{ kind := .STATE_OP_WRITE, size := 20, with_cancellable := cancellable
                     offered := be32 K.REQUEST_WRITE ++ be32 file.seq_nr
                       ++ be32 (min count 4194304) ++ be32 0
                       ++ store32 host (min count 4194304) },
                   { kind := .STATE_OP_WRITE, size := min count 4194304
                     with_cancellable := false
                     offered := buffer.take (min count 4194304) }] } } := by
  have hc1 : 0 < min count 4194304 := by omega
  have hc2 : min count 4194304 < GSIZE := by unfold GSIZE; omega
  have hbuf := append_request_output host file K.REQUEST_WRITE (min count 4194304) 0
    (min count 4194304)
  rw [hout, List.nil_append] at hbuf
  have hlen : (append_request host file K.REQUEST_WRITE (min count 4194304) 0
      (min count 4194304)).1.output_buffer.length = 20 := by
    rw [hbuf]; simp [be32_length, store32_length]
  constructor
  · -- blocking facade
    have hit1 := iterate_of_ret K host stale _ _ _
      (write_switch_init K host stale file (poll_cancellable cancellable f0 io_data_zero)
        { state := .WRITE_STATE_INIT, buffer := buffer, buffer_size := min count 4194304
          buffer_pos := 0, ret_val := 0, ret_error := none, sent_cancel := false
          seq_nr := 0 } rfl)
    have hr1 := sync_round_write K (iterate_write_state_machine K host stale) cancellable
      f0 20
      { file := file, io_data := io_data_zero
        data := { state := .WRITE_STATE_INIT, buffer := buffer
                  buffer_size := min count 4194304
                  buffer_pos := 0, ret_val := 0, ret_error := none, sent_cancel := false
                  seq_nr := 0 }
        chan := chan }
      _ _ _ hit1 (by decide) (by simp only [hlen]; exact le_refl _)
    have hit2 := iterate_payload_start K host stale
      (append_request host file K.REQUEST_WRITE (min count 4194304) 0 (min count 4194304)).1
      (poll_cancellable cancellable f1
        { cancelled := (poll_cancellable cancellable f0 io_data_zero).cancelled
          io_buffer := .source (append_request host file K.REQUEST_WRITE (min count 4194304) 0
            (min count 4194304)).1.output_buffer
          io_size := (append_request host file K.REQUEST_WRITE (min count 4194304) 0
            (min count 4194304)).1.output_buffer.length
          io_res := 20, io_allow_cancel := true, io_cancelled := false })
      { state := .WRITE_STATE_WROTE_COMMAND, buffer := buffer
        buffer_size := min count 4194304
        buffer_pos := 0, ret_val := 0, ret_error := none, sent_cancel := false
        seq_nr := file.seq_nr } rfl
      (by rw [(poll_cancellable_fields cancellable f1 _).2.2.1])
      (by rw [(poll_cancellable_fields cancellable f1 _).1, hlen]) rfl hc1 hc2
    unfold g_file_output_stream_daemon_write run_sync_state_machine
    rw [write_operation_new_eq]
    simp only [Bool.and_false, Bool.false_eq_true, if_false, run_sync_loop, hr1]
    rw [sync_round_error K (iterate_write_state_machine K host stale) cancellable
      f1 e .STATE_OP_WRITE ⟨_, _, _, _⟩ _ _ _ hit2 (by decide) he]
    simp only [Option.map_some', write_finish, Bool.not_false, if_true]
    rw [hbuf]
    have hl : (be32 K.REQUEST_WRITE ++ be32 file.seq_nr ++ be32 (min count 4194304) ++ be32 0
        ++ store32 host (min count 4194304)).length = 20 := by
      simp [be32_length, store32_length]
    simp only [Channels.record, io_step, IOBuffer.bytes, hl,
      List.take_of_length_le (le_of_eq hl), List.append_nil, Bool.true_and, Bool.false_and,
      append_request, u32_add, U32]
    simp only [List.append_assoc, List.singleton_append]
  · -- asynchronous facade
    have hit1 := iterate_of_ret K host stale _ _ _
      (write_switch_init K host stale file
        { io_data_zero with cancelled := cancellable && f0 }
        { state := .WRITE_STATE_INIT, buffer := buffer, buffer_size := min count 4194304
          buffer_pos := 0, ret_val := 0, ret_error := none, sent_cancel := false
          seq_nr := 0 } rfl)
    have hr1 := async_round_write K (iterate_write_state_machine K host stale) cancellable
      f0 20
      { file := file, io_data := io_data_zero
        data := { state := .WRITE_STATE_INIT, buffer := buffer
                  buffer_size := min count 4194304
                  buffer_pos := 0, ret_val := 0, ret_error := none, sent_cancel := false
                  seq_nr := 0 }
        chan := chan }
      _ _ _ hit1 (by decide) (by simp only [hlen]; exact le_refl _)
    have hit2 := iterate_payload_start K host stale
      (append_request host file K.REQUEST_WRITE (min count 4194304) 0 (min count 4194304)).1
      { cancelled := cancellable && f1
        io_buffer := .source (append_request host file K.REQUEST_WRITE (min count 4194304) 0
          (min count 4194304)).1.output_buffer
        io_size := (append_request host file K.REQUEST_WRITE (min count 4194304) 0
          (min count 4194304)).1.output_buffer.length
        io_res := 20, io_allow_cancel := true, io_cancelled := false }
      { state := .WRITE_STATE_WROTE_COMMAND, buffer := buffer
        buffer_size := min count 4194304
        buffer_pos := 0, ret_val := 0, ret_error := none, sent_cancel := false
        seq_nr := file.seq_nr } rfl rfl (by simp only [hlen]; exact le_refl _) rfl hc1 hc2
    unfold g_file_output_stream_daemon_write_async run_async_state_machine
    rw [write_operation_new_eq]
    simp only [async_iterate, hr1]
    rw [async_round_error K (iterate_write_state_machine K host stale) cancellable
      f1 e .STATE_OP_WRITE ⟨_, _, _, _⟩ _ _ _ hit2 (by decide) he]
    simp only [Option.map_some', async_write_done]
    rw [hbuf]
    have hl : (be32 K.REQUEST_WRITE ++ be32 file.seq_nr ++ be32 (min count 4194304) ++ be32 0
        ++ store32 host (min count 4194304)).length = 20 := by
      simp [be32_length, store32_length]
    simp only [Channels.record, io_step, IOBuffer.bytes, hl,
      List.take_of_length_le (le_of_eq hl), List.append_nil, Bool.true_and, Bool.false_and,
      append_request, u32_add, U32]
    simp only [List.append_assoc, List.singleton_append]

/-- Instance of C8: a write of 5000000 bytes announces and offers 4194304 bytes, through
either facade. -/
theorem write_cap_witness :
    1 ≤ 5000000 ∧
    (g_file_output_stream_daemon_write sampleConstants ByteOrder.G_BIG_ENDIAN (fun _ => 0)
        (g_file_output_stream_daemon_new false 0) (List.replicate 5000000 65) 5000000 true false
        [⟨false, .wrote 20⟩, ⟨false, .error { domain := [], code := 0, message := [] }⟩]
        { wire := [], steps := [] }).map
        (fun r => (r.chan.wire, r.chan.steps.map (fun st => st.size)))
      = some ([0, 0, 0, 1, 0, 0, 0, 0, 0, 64, 0, 0, 0, 0, 0, 0, 0, 64, 0, 0], [20, 4194304]) ∧
    (g_file_output_stream_daemon_write_async sampleConstants ByteOrder.G_BIG_ENDIAN (fun _ => 0)
        (g_file_output_stream_daemon_new false 0) (List.replicate 5000000 65) 5000000 true
        [⟨false, .wrote 20⟩, ⟨false, .error { domain := [], code := 0, message := [] }⟩]
        { wire := [], steps := [] }).map
        (fun r => (r.bytes_requested, r.chan.wire, r.chan.steps.map (fun st => st.size)))
      = some (4194304, [0, 0, 0, 1, 0, 0, 0, 0, 0, 64, 0, 0, 0, 0, 0, 0, 0, 64, 0, 0],
          [20, 4194304]) :=
  ⟨by decide,
    by rw [(write_cap sampleConstants ByteOrder.G_BIG_ENDIAN (fun _ => 0) true
        (g_file_output_stream_daemon_new false 0) (List.replicate 5000000 65) 5000000
        false false { domain := [], code := 0, message := [] } { wire := [], steps := [] }
        rfl (by decide) (by decide)).1]
       rfl,
    by rw [(write_cap sampleConstants ByteOrder.G_BIG_ENDIAN (fun _ => 0) true
        (g_file_output_stream_daemon_new false 0) (List.replicate 5000000 65) 5000000
        false false { domain := [], code := 0, message := [] } { wire := [], steps := [] }
        rfl (by decide) (by decide)).2]
       rfl⟩

/-- C6 (defect): partial writes are put together as the claim says, but no Read step
follows.  A write of `n` payload bytes (1 ≤ n ≤ 4 MiB) starts with an empty output buffer
on a stream whose counter is `s` and whose input buffer is `NULL`, as
`g_file_output_stream_daemon_new` leaves it; the command channel accepts the 20 bytes of
the request in the chunks `hs` and the payload in the chunks `ps`, every chunk at least one
byte.  Then the driver is still running after these rounds, the bytes accepted are exactly
the request frame (WRITE, s, n, 0, n) as `append_request` encodes it followed by the first
`n` bytes of the caller's buffer, and every call made so far is a write.  The next call of
the state machine, the cancellation flag not seen set, does not return: it emits no Read
step, and the write has no result, whatever the data channel holds and whatever events
follow. -/
theorem write_chunked_then_no_read (K : GVfsConstants) (host : ByteOrder)
    (stale : Nat → Nat) (cancellable : Bool) (file : GFileOutputStreamDaemon)
    (buffer : List Nat) (n : Nat) (hs ps : List (Bool × Nat)) (chan : Channels)
    (hout : file.output_buffer = []) (hin : file.input_buffer = none)
    (hn1 : 1 ≤ n) (hn2 : n ≤ MAX_WRITE_SIZE)
    (hhs : ∀ p ∈ hs, 1 ≤ p.2) (hhsum : (hs.map Prod.snd).sum = 20)
    (hps : ∀ p ∈ ps, 1 ≤ p.2) (hpsum : (ps.map Prod.snd).sum = n) :
    (∃ s : DriverState WriteOperation,
      run_sync_rounds K (iterate_write_state_machine K host stale) cancellable
          (write_events hs ++ write_events ps)
          { file := file, io_data := io_data_zero, data := write_operation_new buffer n
            chan := chan } = some s ∧
      s.chan.wire = chan.wire
        ++ (be32 K.REQUEST_WRITE ++ be32 file.seq_nr ++ be32 n ++ be32 0 ++ store32 host n)
        ++ buffer.take n ∧
      (∃ W, s.chan.steps = chan.steps ++ W ∧ ∀ st ∈ W, st.kind = .STATE_OP_WRITE) ∧
      iterate_write_state_machine K host stale
          (s.file, poll_cancellable cancellable false s.io_data, s.data) = none) ∧
    ∀ (res : IOResult) (rest : List DriverEvent),
      g_file_output_stream_daemon_write K host stale file buffer n cancellable false
          (write_events hs ++ write_events ps ++ ⟨false, res⟩ :: rest) chan = none := by
  obtain ⟨s, e, w, t, it⟩ := write_send_phase K host stale cancellable file buffer n hs ps chan
    hout hin hn1 hn2 hhs hhsum hps hpsum
  have hit : iterate_write_state_machine K host stale
      (s.file, poll_cancellable cancellable false s.io_data, s.data) = none := by
    rw [it false]
    simp [await_first]
  refine ⟨⟨s, e, w, t, hit⟩, fun res rest => ?_⟩
  have h := run_sync_loop_no_return K (iterate_write_state_machine K host stale) cancellable
    (write_events hs ++ write_events ps) false res rest _ s e hit
  simp only [g_file_output_stream_daemon_write, Bool.and_false, Bool.false_eq_true, if_false,
    run_sync_state_machine]
  rw [h]
  rfl

/-- C6, an instance: `write ([0x41, 0x42, 0x43])` on a new stream with offset 100, the
request taken in chunks of 7, 12 and 1 bytes and the payload in chunks of 1 and 2 bytes.
The wire carries WRITE, 0, 3, 0, 3 and then 0x41 0x42 0x43, in five calls that are all
writes; with the reply (WRITTEN, 0, 3, 0) ready on the data channel the write has no
result. -/
theorem write_chunked_then_no_read_witness :
    (g_file_output_stream_daemon_new false 100).output_buffer = [] ∧
    (g_file_output_stream_daemon_new false 100).input_buffer = none ∧
    (1 ≤ 3 ∧ 3 ≤ MAX_WRITE_SIZE) ∧
    (([(false, 7), (true, 12), (false, 1)].map Prod.snd).sum = 20 ∧
      ([(false, 1), (false, 2)].map Prod.snd).sum = 3) ∧
    (run_sync_rounds sampleConstants
        (iterate_write_state_machine sampleConstants ByteOrder.G_BIG_ENDIAN (fun _ => 0)) false
        (write_events [(false, 7), (true, 12), (false, 1)]
          ++ write_events [(false, 1), (false, 2)])
        { file := g_file_output_stream_daemon_new false 100, io_data := io_data_zero
          data := write_operation_new [65, 66, 67] 3, chan := { wire := [], steps := [] } }).map
      (fun s => (s.chan.wire, s.chan.steps.map (fun st => (st.kind, st.size))))
      = some ([0, 0, 0, 1, 0, 0, 0, 0, 0, 0, 0, 3, 0, 0, 0, 0, 0, 0, 0, 3, 65, 66, 67],
          [(.STATE_OP_WRITE, 20), (.STATE_OP_WRITE, 13), (.STATE_OP_WRITE, 1),
           (.STATE_OP_WRITE, 3), (.STATE_OP_WRITE, 2)]) ∧
    g_file_output_stream_daemon_write sampleConstants ByteOrder.G_BIG_ENDIAN (fun _ => 0)
        (g_file_output_stream_daemon_new false 100) [65, 66, 67] 3 false false
        (write_events [(false, 7), (true, 12), (false, 1)] ++ write_events [(false, 1), (false, 2)]
          ++ ⟨false, .read (reply_header 3 0 3 0)⟩ :: [⟨false, .wrote 0⟩])
        { wire := [], steps := [] } = none :=
  ⟨rfl, rfl, by decide, by decide, by decide,
   (write_chunked_then_no_read sampleConstants ByteOrder.G_BIG_ENDIAN (fun _ => 0) false
      (g_file_output_stream_daemon_new false 100) [65, 66, 67] 3
      [(false, 7), (true, 12), (false, 1)] [(false, 1), (false, 2)] { wire := [], steps := [] }
      rfl rfl (by decide) (by decide) (by decide) (by decide) (by decide) (by decide)).2
      (.read (reply_header 3 0 3 0)) [⟨false, .wrote 0⟩]⟩

/-- C7, the code at the claim's own witness: a stream made by
`g_file_output_stream_daemon_new` with offset 100, a write of 3 bytes, no cancellable.
Request (20 bytes) and payload (3 bytes) are accepted: the driver is still running, the
operation has sent all its data, the input buffer is `NULL`, `tell ()` is 100 and the 23
bytes are on the wire.  The next call of the state machine is the one that has to read the
reply; it faults on the `NULL` input buffer, so the write has no result, whatever the data
channel would deliver, the reply (WRITTEN, 0, 2, 0) of the claim included: nothing is
returned and the offset is never advanced. -/
theorem write_written_reply_not_read :
    (run_sync_rounds sampleConstants
        (iterate_write_state_machine sampleConstants ByteOrder.G_BIG_ENDIAN (fun _ => 0)) false
        [⟨false, .wrote 20⟩, ⟨false, .wrote 3⟩]
        { file := g_file_output_stream_daemon_new false 100, io_data := io_data_zero
          data := write_operation_new [9, 8, 7] 3, chan := { wire := [], steps := [] } }).map
      (fun s => (s.data.state, s.file.input_buffer,
        g_file_output_stream_daemon_tell s.file, s.chan.wire,
        (iterate_write_state_machine sampleConstants ByteOrder.G_BIG_ENDIAN (fun _ => 0)
          (s.file, s.io_data, s.data)).isSome))
      = some (.WRITE_STATE_SEND_DATA, none, 100,
          [0, 0, 0, 1, 0, 0, 0, 0, 0, 0, 0, 3, 0, 0, 0, 0, 0, 0, 0, 3, 9, 8, 7], false) ∧
    (∀ (flag : Bool) (res : IOResult) (rest : List DriverEvent),
      g_file_output_stream_daemon_write sampleConstants ByteOrder.G_BIG_ENDIAN (fun _ => 0)
          (g_file_output_stream_daemon_new false 100) [9, 8, 7] 3 false false
          ([⟨false, .wrote 20⟩, ⟨false, .wrote 3⟩] ++ ⟨flag, res⟩ :: rest)
          { wire := [], steps := [] } = none) ∧
    g_file_output_stream_daemon_write sampleConstants ByteOrder.G_BIG_ENDIAN (fun _ => 0)
        (g_file_output_stream_daemon_new false 100) [9, 8, 7] 3 false false
        [⟨false, .wrote 20⟩, ⟨false, .wrote 3⟩,
         ⟨false, .read (reply_header 3 0 2 0)⟩, ⟨false, .wrote 0⟩]
        { wire := [], steps := [] } = none := by
  have key : ∀ (flag : Bool) (res : IOResult) (rest : List DriverEvent),
      g_file_output_stream_daemon_write sampleConstants ByteOrder.G_BIG_ENDIAN (fun _ => 0)
          (g_file_output_stream_daemon_new false 100) [9, 8, 7] 3 false false
          ([⟨false, .wrote 20⟩, ⟨false, .wrote 3⟩] ++ ⟨flag, res⟩ :: rest)
          { wire := [], steps := [] } = none := by
    intro flag res rest
    have h := run_sync_loop_no_return sampleConstants
      (iterate_write_state_machine sampleConstants ByteOrder.G_BIG_ENDIAN (fun _ => 0)) false
      [⟨false, .wrote 20⟩, ⟨false, .wrote 3⟩] flag res rest
      { file := g_file_output_stream_daemon_new false 100, io_data := io_data_zero
        data := write_operation_new [9, 8, 7] 3, chan := { wire := [], steps := [] } }
      _ rfl (by cases flag <;> decide)
    simp only [g_file_output_stream_daemon_write, g_file_output_stream_daemon_new,
      run_sync_state_machine, Bool.false_eq_true, if_false, Bool.and_false] at h ⊢
    rw [h]
    rfl
  exact ⟨by decide, key,
    key false (.read (reply_header 3 0 2 0)) [⟨false, .wrote 0⟩]⟩

/-- C10, the code at the claim's own witness.  A stream made by
`g_file_output_stream_daemon_new` on which five writes of one byte have each failed in the
transport while sending the payload has counter 5, an empty output buffer and the `NULL`
input buffer.  The next write on it records sequence number 5 and sends the request
(WRITE, 5, 1, 0, 1) and its byte.  The call that awaits the reply then faults on the
`NULL` input buffer: the write has no result whatever the data channel would deliver,
the stale reply (WRITTEN, 4, 7, 0) followed by (WRITTEN, 5, 7, 0) included.  No reply is
read, so none is discarded and none makes the write return. -/
theorem write_stale_reply_not_read :
    ((List.range 5).foldl
        (fun (acc : Option GFileOutputStreamDaemon) _ =>
          acc.bind (fun f =>
            (g_file_output_stream_daemon_write sampleConstants ByteOrder.G_BIG_ENDIAN
              (fun _ => 0) f [0] 1 false false
              [⟨false, .wrote 20⟩,
               ⟨false, .error { domain := ascii "g-file-error-quark", code := 32
                                message := ascii "Broken pipe" }⟩]
              { wire := [], steps := [] }).map (fun r => r.file)))
        (some (g_file_output_stream_daemon_new false 0)))
      = some { can_seek := false, seq_nr := 5, current_offset := 0, input_buffer := none
               output_buffer := [] } ∧
    (run_sync_rounds sampleConstants
        (iterate_write_state_machine sampleConstants ByteOrder.G_BIG_ENDIAN (fun _ => 0)) false
        [⟨false, .wrote 20⟩, ⟨false, .wrote 1⟩]
        { file := { can_seek := false, seq_nr := 5, current_offset := 0, input_buffer := none
                    output_buffer := [] }
          io_data := io_data_zero
          data := write_operation_new [0] 1, chan := { wire := [], steps := [] } }).map
      (fun s => (s.data.seq_nr, s.file.seq_nr, s.file.input_buffer, s.chan.wire,
        (iterate_write_state_machine sampleConstants ByteOrder.G_BIG_ENDIAN (fun _ => 0)
          (s.file, s.io_data, s.data)).isSome))
      = some (5, 6, none,
          [0, 0, 0, 1, 0, 0, 0, 5, 0, 0, 0, 1, 0, 0, 0, 0, 0, 0, 0, 1, 0], false) ∧
    (∀ (flag : Bool) (res : IOResult) (rest : List DriverEvent),
      g_file_output_stream_daemon_write sampleConstants ByteOrder.G_BIG_ENDIAN (fun _ => 0)
          { can_seek := false, seq_nr := 5, current_offset := 0, input_buffer := none
            output_buffer := [] } [0] 1 false false
          ([⟨false, .wrote 20⟩, ⟨false, .wrote 1⟩] ++ ⟨flag, res⟩ :: rest)
          { wire := [], steps := [] } = none) ∧
    g_file_output_stream_daemon_write sampleConstants ByteOrder.G_BIG_ENDIAN (fun _ => 0)
        { can_seek := false, seq_nr := 5, current_offset := 0, input_buffer := none
          output_buffer := [] } [0] 1 false false
        [⟨false, .wrote 20⟩, ⟨false, .wrote 1⟩,
         ⟨false, .read (reply_header 3 4 7 0)⟩,
         ⟨false, .read (reply_header 3 5 7 0)⟩, ⟨false, .wrote 0⟩]
        { wire := [], steps := [] } = none := by
  have key : ∀ (flag : Bool) (res : IOResult) (rest : List DriverEvent),
      g_file_output_stream_daemon_write sampleConstants ByteOrder.G_BIG_ENDIAN (fun _ => 0)
          { can_seek := false, seq_nr := 5, current_offset := 0, input_buffer := none
            output_buffer := [] } [0] 1 false false
          ([⟨false, .wrote 20⟩, ⟨false, .wrote 1⟩] ++ ⟨flag, res⟩ :: rest)
          { wire := [], steps := [] } = none := by
    intro flag res rest
    have h := run_sync_loop_no_return sampleConstants
      (iterate_write_state_machine sampleConstants ByteOrder.G_BIG_ENDIAN (fun _ => 0)) false
      [⟨false, .wrote 20⟩, ⟨false, .wrote 1⟩] flag res rest
      { file := { can_seek := false, seq_nr := 5, current_offset := 0, input_buffer := none
                  output_buffer := [] }
        io_data := io_data_zero
        data := write_operation_new [0] 1, chan := { wire := [], steps := [] } }
      _ rfl (by cases flag <;> decide)
    simp only [g_file_output_stream_daemon_write,
      run_sync_state_machine, Bool.false_eq_true, if_false, Bool.and_false] at h ⊢
    rw [h]
    rfl
  exact ⟨by decide, by decide, key,
    key false (.read (reply_header 3 4 7 0))
      [⟨false, .read (reply_header 3 5 7 0)⟩, ⟨false, .wrote 0⟩]⟩

/-- C12: in every run of the blocking driver over the write, the close or the seek state
machine, for every list of I/O results and values of the cancellation flag, at most one
CANCEL frame is appended.  The stream counter, which `append_request` advances by one for
each frame it appends and nothing else changes, stands at the top of every round at the
value found at the start plus one once the initial state is left (the primary request)
plus one if `sent_cancel` is set (the CANCEL frame), modulo 2^32; when the run ends it
stands at that value plus one, plus one if `sent_cancel` is set. -/
theorem at_most_one_cancel (K : GVfsConstants) (host : ByteOrder) (stale : Nat → Nat)
    (cancellable : Bool) (file : GFileOutputStreamDaemon) (chan : Channels)
    (events : List DriverEvent) (hseq : file.seq_nr < 4294967296) :
    (∀ (buffer : List Nat) (count : Nat),
      (∀ s1, run_sync_rounds K (iterate_write_state_machine K host stale) cancellable events
          { file := file, io_data := io_data_zero, data := write_operation_new buffer count
            chan := chan } = some s1 →
        s1.file.seq_nr
          = (file.seq_nr + (if s1.data.state = .WRITE_STATE_INIT then 0 else 1)
              + (if s1.data.sent_cancel then 1 else 0)) % 4294967296) ∧
      (∀ out, run_sync_loop K (iterate_write_state_machine K host stale) cancellable events
          { file := file, io_data := io_data_zero, data := write_operation_new buffer count
            chan := chan } = some out →
        out.file.seq_nr
          = (file.seq_nr + 1 + (if out.op.sent_cancel then 1 else 0)) % 4294967296)) ∧
    ((∀ s1, run_sync_rounds K (iterate_close_state_machine K host stale) cancellable events
          { file := file, io_data := io_data_zero, data := close_operation_new
            chan := chan } = some s1 →
        s1.file.seq_nr
          = (file.seq_nr + (if s1.data.state = .CLOSE_STATE_INIT then 0 else 1)
              + (if s1.data.sent_cancel then 1 else 0)) % 4294967296) ∧
      (∀ out, run_sync_loop K (iterate_close_state_machine K host stale) cancellable events
          { file := file, io_data := io_data_zero, data := close_operation_new
            chan := chan } = some out →
        out.file.seq_nr
          = (file.seq_nr + 1 + (if out.op.sent_cancel then 1 else 0)) % 4294967296)) ∧
    (∀ (offset : Int) (type : GSeekType),
      (∀ s1, run_sync_rounds K (iterate_seek_state_machine K host stale) cancellable events
          { file := file, io_data := io_data_zero, data := seek_operation_new offset type
            chan := chan } = some s1 →
        s1.file.seq_nr
          = (file.seq_nr + (if s1.data.state = .SEEK_STATE_INIT then 0 else 1)
              + (if s1.data.sent_cancel then 1 else 0)) % 4294967296) ∧
      (∀ out, run_sync_loop K (iterate_seek_state_machine K host stale) cancellable events
          { file := file, io_data := io_data_zero, data := seek_operation_new offset type
            chan := chan } = some out →
        out.file.seq_nr
          = (file.seq_nr + 1 + (if out.op.sent_cancel then 1 else 0)) % 4294967296)) := by
  refine ⟨fun buffer count => ?_, ?_, fun offset type => ?_⟩
  · obtain ⟨h1, h2⟩ := write_run_counter K host stale cancellable file.seq_nr hseq events
      { file := file, io_data := io_data_zero, data := write_operation_new buffer count
        chan := chan } (write_counter_inv_new file buffer count hseq)
    refine ⟨fun s1 h => (h1 s1 h).1, fun out h => ?_⟩
    obtain ⟨hinv, hst⟩ := h2 out h
    have := hinv.1
    rw [if_neg hst] at this
    exact this
  · obtain ⟨h1, h2⟩ := close_run_counter K host stale cancellable file.seq_nr hseq events
      { file := file, io_data := io_data_zero, data := close_operation_new
        chan := chan } (close_counter_inv_new file hseq)
    refine ⟨fun s1 h => (h1 s1 h).1, fun out h => ?_⟩
    obtain ⟨hinv, hst⟩ := h2 out h
    have := hinv.1
    rw [if_neg hst] at this
    exact this
  · obtain ⟨h1, h2⟩ := seek_run_counter K host stale cancellable file.seq_nr hseq events
      { file := file, io_data := io_data_zero, data := seek_operation_new offset type
        chan := chan } (seek_counter_inv_new file offset type hseq)
    refine ⟨fun s1 h => (h1 s1 h).1, fun out h => ?_⟩
    obtain ⟨hinv, hst⟩ := h2 out h
    have := hinv.1
    rw [if_neg hst] at this
    exact this

/-- C12, an instance: a seek on a stream with counter 4 whose cancellation flag is set
from the moment the request is out and stays set: the CANCEL request is appended once, and
after the two rounds in which the command channel accepts it (12 bytes, then 8) the counter
stands at 6. -/
theorem at_most_one_cancel_witness :
    (run_sync_rounds sampleConstants
        (iterate_seek_state_machine sampleConstants ByteOrder.G_BIG_ENDIAN (fun _ => 0)) true
        [⟨false, .wrote 20⟩, ⟨true, .wrote 12⟩, ⟨true, .wrote 8⟩]
        { file := { can_seek := true, seq_nr := 4, current_offset := 0, input_buffer := none
                    output_buffer := [] }
          io_data := io_data_zero, data := seek_operation_new 9 GSeekType.G_SEEK_SET
          chan := { wire := [], steps := [] } }).map
      (fun s1 => (s1.data.state, s1.data.sent_cancel, s1.file.seq_nr))
      = some (.SEEK_STATE_WROTE_REQUEST, true, 6) ∧
    ((4 + (if SeekState.SEEK_STATE_WROTE_REQUEST = SeekState.SEEK_STATE_INIT then 0 else 1)
        + (if true = true then 1 else 0)) % 4294967296 = 6) :=
  ⟨by decide,
   ((at_most_one_cancel sampleConstants ByteOrder.G_BIG_ENDIAN (fun _ => 0) true
      { can_seek := true, seq_nr := 4, current_offset := 0, input_buffer := none
        output_buffer := [] } { wire := [], steps := [] }
      [⟨false, .wrote 20⟩, ⟨true, .wrote 12⟩, ⟨true, .wrote 8⟩] (by decide)).2.2 9
      GSeekType.G_SEEK_SET).1
      _ rfl⟩

/-- C13: when a state machine that awaits its reply sees the cancellation flag set and has
sent no CANCEL yet, the call returns a Write step after appending one frame to the output
buffer: command CANCEL, the current value of the stream counter as the sequence number of
the frame, arg1 the sequence number recorded for the primary request of the operation,
arg2 and data_len zero.  The operation record keeps its recorded sequence number; only
`sent_cancel` and the state change.  So for the write, close and seek machines alike. -/
theorem cancel_frame_contents (K : GVfsConstants) (host : ByteOrder) (stale : Nat → Nat)
    (file : GFileOutputStreamDaemon) (io : IOOperationData) (hcan : io.cancelled = true) :
    (∀ op : WriteOperation, op.state = .WRITE_STATE_HANDLE_INPUT → op.sent_cancel = false →
      iterate_write_state_machine K host stale (file, io, op)
        = some (.STATE_OP_WRITE,
            ({ file with
                seq_nr := (file.seq_nr + 1) % 4294967296
                output_buffer := file.output_buffer ++ (be32 K.REQUEST_CANCEL
                  ++ be32 file.seq_nr ++ be32 op.seq_nr ++ be32 0 ++ be32 0) },
             { io with
                io_buffer := .source (file.output_buffer ++ (be32 K.REQUEST_CANCEL
                  ++ be32 file.seq_nr ++ be32 op.seq_nr ++ be32 0 ++ be32 0))
                io_size := file.output_buffer.length + 20
                io_allow_cancel := false },
             { op with sent_cancel := true, state := .WRITE_STATE_WROTE_COMMAND }))) ∧
    (∀ op : CloseOperation, op.state = .CLOSE_STATE_HANDLE_INPUT → op.sent_cancel = false →
      iterate_close_state_machine K host stale (file, io, op)
        = some (.STATE_OP_WRITE,
            ({ file with
                seq_nr := (file.seq_nr + 1) % 4294967296
                output_buffer := file.output_buffer ++ (be32 K.REQUEST_CANCEL
                  ++ be32 file.seq_nr ++ be32 op.seq_nr ++ be32 0 ++ be32 0) },
             { io with
                io_buffer := .source (file.output_buffer ++ (be32 K.REQUEST_CANCEL
                  ++ be32 file.seq_nr ++ be32 op.seq_nr ++ be32 0 ++ be32 0))
                io_size := file.output_buffer.length + 20
                io_allow_cancel := false },
             { op with sent_cancel := true, state := .CLOSE_STATE_WROTE_REQUEST }))) ∧
    (∀ op : SeekOperation, op.state = .SEEK_STATE_HANDLE_INPUT → op.sent_cancel = false →
      iterate_seek_state_machine K host stale (file, io, op)
        = some (.STATE_OP_WRITE,
            ({ file with
                seq_nr := (file.seq_nr + 1) % 4294967296
                output_buffer := file.output_buffer ++ (be32 K.REQUEST_CANCEL
                  ++ be32 file.seq_nr ++ be32 op.seq_nr ++ be32 0 ++ be32 0) },
             { io with
                io_buffer := .source (file.output_buffer ++ (be32 K.REQUEST_CANCEL
                  ++ be32 file.seq_nr ++ be32 op.seq_nr ++ be32 0 ++ be32 0))
                io_size := file.output_buffer.length + 20
                io_allow_cancel := false },
             { op with sent_cancel := true, state := .SEEK_STATE_WROTE_REQUEST }))) := by
  have hlen : ∀ seq : Nat, (file.output_buffer ++ (be32 K.REQUEST_CANCEL
      ++ be32 file.seq_nr ++ be32 seq ++ be32 0 ++ be32 0)).length
        = file.output_buffer.length + 20 := by
    intro seq
    simp [be32_length]
  refine ⟨fun op hst hs => ?_, fun op hst hs => ?_, fun op hst hs => ?_⟩
  · rw [iterate_of_ret K host stale _ _ _ (write_switch_hi_cancel K host stale file io op hst hcan hs),
      append_request_cancel, hlen]
  · rw [close_iterate_of_ret K host stale _ _ _
        (close_switch_hi_cancel K host stale file io op hst hcan hs),
      append_request_cancel, hlen]
  · rw [seek_iterate_of_ret K host stale _ _ _
        (seek_switch_hi_cancel K host stale file io op hst hcan hs),
      append_request_cancel, hlen]

/-- C13, an instance: the write with sequence number 0 on a fresh stream, cancelled while
it awaits its reply, appends the frame CANCEL, 1, 0, 0, 0. -/
theorem cancel_frame_contents_witness :
    iterate_write_state_machine sampleConstants ByteOrder.G_LITTLE_ENDIAN (fun _ => 0)
        ({ can_seek := false, seq_nr := 1, current_offset := 0, input_buffer := none
           output_buffer := [] },
         { cancelled := true, io_buffer := .null, io_size := 0, io_res := 0
           io_allow_cancel := false, io_cancelled := false },
         { state := .WRITE_STATE_HANDLE_INPUT, buffer := [7, 7], buffer_size := 2
           buffer_pos := 2, ret_val := 0, ret_error := none, sent_cancel := false
           seq_nr := 0 })
      = some (.STATE_OP_WRITE,
          ({ can_seek := false, seq_nr := 2, current_offset := 0, input_buffer := none
             output_buffer := [0, 0, 0, 3, 0, 0, 0, 1, 0, 0, 0, 0, 0, 0, 0, 0, 0, 0, 0, 0] },
           { cancelled := true
             io_buffer := .source [0, 0, 0, 3, 0, 0, 0, 1, 0, 0, 0, 0, 0, 0, 0, 0, 0, 0, 0, 0]
             io_size := 20, io_res := 0, io_allow_cancel := false, io_cancelled := false },
           { state := .WRITE_STATE_WROTE_COMMAND, buffer := [7, 7], buffer_size := 2
             buffer_pos := 2, ret_val := 0, ret_error := none, sent_cancel := true
             seq_nr := 0 })) :=
  (cancel_frame_contents sampleConstants ByteOrder.G_LITTLE_ENDIAN (fun _ => 0)
      { can_seek := false, seq_nr := 1, current_offset := 0, input_buffer := none
        output_buffer := [] }
      { cancelled := true, io_buffer := .null, io_size := 0, io_res := 0
        io_allow_cancel := false, io_cancelled := false } rfl).1
    { state := .WRITE_STATE_HANDLE_INPUT, buffer := [7, 7], buffer_size := 2
      buffer_pos := 2, ret_val := 0, ret_error := none, sent_cancel := false
      seq_nr := 0 } rfl rfl

/-- C14, counterexample: two writes on a fresh stream.  The first, whose request carries
sequence number 0, sees the cancellation flag set after its payload is out and appends a
CANCEL frame, which takes sequence number 1 and of which the command channel accepts 12
bytes before it fails; the write returns -1 and the counter stands at 2.  The request of
the second write then carries sequence number 2, not 1: the CANCEL frame took 1 and
advanced the counter of the stream.  (The first Write step of the second write offers 28
bytes, the 8 bytes the failed write left in the output buffer and its own request.) -/
theorem cancel_frame_advances_counter :
    ((g_file_output_stream_daemon_write sampleConstants ByteOrder.G_BIG_ENDIAN (fun _ => 0)
        (g_file_output_stream_daemon_new false 0) [7, 7] 2 true false
        [⟨false, .wrote 20⟩, ⟨false, .wrote 2⟩, ⟨true, .wrote 12⟩,
         ⟨true, .error { domain := ascii "g-file-error-quark", code := 32
                         message := ascii "Broken pipe" }⟩]
        { wire := [], steps := [] }).bind
      (fun r => (run_sync_rounds sampleConstants
          (iterate_write_state_machine sampleConstants ByteOrder.G_BIG_ENDIAN (fun _ => 0))
          false [⟨false, .wrote 28⟩]
          { file := r.file, io_data := io_data_zero, data := write_operation_new [9] 1
            chan := { wire := [], steps := [] } }).map
        (fun s => (r.ret, r.file.seq_nr, r.chan.wire, s.data.seq_nr, s.file.seq_nr,
                   s.chan.wire))))
      = some (-1, 2,
          [0, 0, 0, 1, 0, 0, 0, 0, 0, 0, 0, 2, 0, 0, 0, 0, 0, 0, 0, 2, 7, 7,
           0, 0, 0, 3, 0, 0, 0, 1, 0, 0, 0, 0],
          2, 3,
          [0, 0, 0, 0, 0, 0, 0, 0,
           0, 0, 0, 1, 0, 0, 0, 2, 0, 0, 0, 1, 0, 0, 0, 0, 0, 0, 0, 1]) := by
  decide

/-- C14, amended: an operation records as the sequence number of its primary request the
value the stream counter has when the operation starts, and when the run of the operation
ends, however it ends, the counter has advanced (modulo 2^32) by one, and by one more if
the operation sent a CANCEL frame.  So for the write, the close and the seek operation;
the primary request of the next operation carries the advanced value. -/
theorem sequence_number_after_operation (K : GVfsConstants) (host : ByteOrder)
    (stale : Nat → Nat) (cancellable : Bool) (file : GFileOutputStreamDaemon)
    (chan : Channels) (events : List DriverEvent) (hseq : file.seq_nr < 4294967296) :
    (∀ (buffer : List Nat) (count : Nat) (out : DriverOutcome WriteOperation),
      run_sync_state_machine K (iterate_write_state_machine K host stale) file
          (write_operation_new buffer count) cancellable events chan = some out →
        out.op.seq_nr = file.seq_nr ∧
        out.file.seq_nr
          = (file.seq_nr + 1 + (if out.op.sent_cancel then 1 else 0)) % 4294967296) ∧
    (∀ out : DriverOutcome CloseOperation,
      run_sync_state_machine K (iterate_close_state_machine K host stale) file
          close_operation_new cancellable events chan = some out →
        out.op.seq_nr = file.seq_nr ∧
        out.file.seq_nr
          = (file.seq_nr + 1 + (if out.op.sent_cancel then 1 else 0)) % 4294967296) ∧
    (∀ (offset : Int) (type : GSeekType) (out : DriverOutcome SeekOperation),
      run_sync_state_machine K (iterate_seek_state_machine K host stale) file
          (seek_operation_new offset type) cancellable events chan = some out →
        out.op.seq_nr = file.seq_nr ∧
        out.file.seq_nr
          = (file.seq_nr + 1 + (if out.op.sent_cancel then 1 else 0)) % 4294967296) := by
  refine ⟨fun buffer count out h => ?_, fun out h => ?_, fun offset type out h => ?_⟩
  · obtain ⟨hinv, hst⟩ := (write_run_counter K host stale cancellable file.seq_nr hseq events
      { file := file, io_data := io_data_zero, data := write_operation_new buffer count
        chan := chan } (write_counter_inv_new file buffer count hseq)).2 out h
    refine ⟨hinv.2.2 hst, ?_⟩
    have := hinv.1
    rw [if_neg hst] at this
    exact this
  · obtain ⟨hinv, hst⟩ := (close_run_counter K host stale cancellable file.seq_nr hseq events
      { file := file, io_data := io_data_zero, data := close_operation_new
        chan := chan } (close_counter_inv_new file hseq)).2 out h
    refine ⟨hinv.2.2 hst, ?_⟩
    have := hinv.1
    rw [if_neg hst] at this
    exact this
  · obtain ⟨hinv, hst⟩ := (seek_run_counter K host stale cancellable file.seq_nr hseq events
      { file := file, io_data := io_data_zero, data := seek_operation_new offset type
        chan := chan } (seek_counter_inv_new file offset type hseq)).2 out h
    refine ⟨hinv.2.2 hst, ?_⟩
    have := hinv.1
    rw [if_neg hst] at this
    exact this

/-- C14, an instance: the first write of the counterexample, on a stream whose counter
stands at 4294967295: its request carries that number, the CANCEL frame takes 0, and the
counter ends at 1. -/
theorem sequence_number_after_operation_witness :
    (run_sync_state_machine sampleConstants
        (iterate_write_state_machine sampleConstants ByteOrder.G_BIG_ENDIAN (fun _ => 0))
        { can_seek := false, seq_nr := 4294967295, current_offset := 0, input_buffer := none
          output_buffer := [] }
        (write_operation_new [7, 7] 2) true
        [⟨false, .wrote 20⟩, ⟨false, .wrote 2⟩, ⟨true, .wrote 12⟩,
         ⟨true, .error { domain := ascii "g-file-error-quark", code := 32
                         message := ascii "Broken pipe" }⟩]
        { wire := [], steps := [] }).map
      (fun out => (out.op.seq_nr, out.op.sent_cancel, out.file.seq_nr, out.chan.wire))
      = some (4294967295, true, 1,
          [0, 0, 0, 1, 255, 255, 255, 255, 0, 0, 0, 2, 0, 0, 0, 0, 0, 0, 0, 2, 7, 7,
           0, 0, 0, 3, 0, 0, 0, 0, 255, 255, 255, 255]) ∧
    (4294967295 = 4294967295 ∧
      1 = (4294967295 + 1 + (if true = true then 1 else 0)) % 4294967296) :=
  ⟨by decide,
   (sequence_number_after_operation sampleConstants ByteOrder.G_BIG_ENDIAN (fun _ => 0) true
      { can_seek := false, seq_nr := 4294967295, current_offset := 0, input_buffer := none
        output_buffer := [] } { wire := [], steps := [] }
      [⟨false, .wrote 20⟩, ⟨false, .wrote 2⟩, ⟨true, .wrote 12⟩,
       ⟨true, .error { domain := ascii "g-file-error-quark", code := 32
                       message := ascii "Broken pipe" }⟩] (by decide)).1
      [7, 7] 2 _ rfl⟩

/-- C15, counterexample: seek entered with the cancellation signal already set, on a stream
that cannot seek, does not fail with CANCELLED (code 19 of the sample constants): the test
of `can_seek` comes first and the error is NOT_SUPPORTED (code 15). -/
theorem seek_cancelled_at_entry_not_supported :
    g_file_output_stream_daemon_seek sampleConstants ByteOrder.G_BIG_ENDIAN (fun _ => 0)
        (g_file_output_stream_daemon_new false 0) 0 GSeekType.G_SEEK_SET true true []
        { wire := [], steps := [] }
      = some { ret := 0
               error := some { domain := ascii "g-vfs-error-quark", code := 15
                               message := ascii "Seek not supported on stream" }
               file := g_file_output_stream_daemon_new false 0
               chan := { wire := [], steps := [] } } := by
  decide

/-- C15, amended: in each of the write, close and seek state machines, when the Write step
for the request comes back cancelled the call returns DONE, so no further I/O step, with
the error CANCELLED recorded in the operation; stream and step descriptor are as they
were.  The write machine records -1 and the close machine FALSE as the result.  A write
entered with the cancellation signal set, and a seek so entered on a stream that can
seek, fail with CANCELLED and leave the stream, with output buffer and sequence counter,
and the channels untouched. -/
theorem cancelled_before_first_byte (K : GVfsConstants) (host : ByteOrder)
    (stale : Nat → Nat) (file : GFileOutputStreamDaemon) :
    (∀ (io : IOOperationData) (op : WriteOperation),
      op.state = .WRITE_STATE_WROTE_COMMAND → io.io_cancelled = true →
      iterate_write_state_machine K host stale (file, io, op)
        = some (.STATE_OP_DONE, (file, io,
            { op with
               ret_val := -1
               ret_error := some { domain := K.G_VFS_ERROR, code := K.G_VFS_ERROR_CANCELLED,
                                   message := MSG_CANCELLED } }))) ∧
    (∀ (io : IOOperationData) (op : CloseOperation),
      op.state = .CLOSE_STATE_WROTE_REQUEST → io.io_cancelled = true →
      iterate_close_state_machine K host stale (file, io, op)
        = some (.STATE_OP_DONE, (file, io,
            { op with
               ret_val := 0
               ret_error := some { domain := K.G_VFS_ERROR, code := K.G_VFS_ERROR_CANCELLED,
                                   message := MSG_CANCELLED } }))) ∧
    (∀ (io : IOOperationData) (op : SeekOperation),
      op.state = .SEEK_STATE_WROTE_REQUEST → io.io_cancelled = true →
      ∃ ret_val : Int, iterate_seek_state_machine K host stale (file, io, op)
        = some (.STATE_OP_DONE, (file, io,
            { op with
               ret_val := ret_val
               ret_error := some { domain := K.G_VFS_ERROR, code := K.G_VFS_ERROR_CANCELLED,
                                   message := MSG_CANCELLED } }))) ∧
    (∀ (buffer : List Nat) (count : Nat) (events : List DriverEvent) (chan : Channels),
      g_file_output_stream_daemon_write K host stale file buffer count true true events chan
        = some { ret := -1
                 error := some { domain := K.G_VFS_ERROR, code := K.G_VFS_ERROR_CANCELLED,
                                 message := MSG_CANCELLED }
                 file := file, chan := chan }) ∧
    (file.can_seek = true →
      ∀ (offset : Int) (type : GSeekType) (events : List DriverEvent) (chan : Channels),
      g_file_output_stream_daemon_seek K host stale file offset type true true events chan
        = some { ret := 0
                 error := some { domain := K.G_VFS_ERROR, code := K.G_VFS_ERROR_CANCELLED,
                                 message := MSG_CANCELLED }
                 file := file, chan := chan }) := by
  refine ⟨fun io op hst hc => ?_, fun io op hst hc => ?_, fun io op hst hc => ⟨-1, ?_⟩,
    fun buffer count events chan => ?_, fun hseek offset type events chan => ?_⟩
  · exact iterate_of_ret K host stale _ _ _ (write_switch_wc_cancelled K host stale file io op hst hc)
  · exact close_iterate_of_ret K host stale _ _ _
      (close_switch_wr_cancelled K host stale file io op hst hc)
  · exact seek_iterate_of_ret K host stale _ _ _
      (seek_switch_wr_cancelled K host stale file io op hst hc)
  · simp only [g_file_output_stream_daemon_write, Bool.and_self, if_true]
  · simp only [g_file_output_stream_daemon_seek, hseek, Bool.not_true, Bool.false_eq_true,
      if_false, Bool.and_self, if_true]

/-- C15, an instance: the request of a close is cancelled before its first byte; a seek is
entered with the cancellation signal set on a stream that can seek. -/
theorem cancelled_before_first_byte_witness :
    iterate_close_state_machine sampleConstants ByteOrder.G_BIG_ENDIAN (fun _ => 0)
        ({ can_seek := true, seq_nr := 1, current_offset := 0, input_buffer := none
           output_buffer := be32 2 ++ be32 0 ++ be32 0 ++ be32 0 ++ be32 0 },
         { cancelled := true, io_buffer := .null, io_size := 20, io_res := 0
           io_allow_cancel := true, io_cancelled := true },
         { state := .CLOSE_STATE_WROTE_REQUEST, ret_val := 0, ret_error := none
           sent_cancel := false, seq_nr := 0 })
      = some (.STATE_OP_DONE,
          ({ can_seek := true, seq_nr := 1, current_offset := 0, input_buffer := none
             output_buffer := be32 2 ++ be32 0 ++ be32 0 ++ be32 0 ++ be32 0 },
           { cancelled := true, io_buffer := .null, io_size := 20, io_res := 0
             io_allow_cancel := true, io_cancelled := true },
           { state := .CLOSE_STATE_WROTE_REQUEST, ret_val := 0
             ret_error := some { domain := ascii "g-vfs-error-quark", code := 19
                                 message := ascii "Operation was cancelled" }
             sent_cancel := false, seq_nr := 0 })) ∧
    g_file_output_stream_daemon_seek sampleConstants ByteOrder.G_BIG_ENDIAN (fun _ => 0)
        { can_seek := true, seq_nr := 1, current_offset := 0, input_buffer := none
          output_buffer := [] } 5 GSeekType.G_SEEK_END true true []
        { wire := [], steps := [] }
      = some { ret := 0
               error := some { domain := ascii "g-vfs-error-quark", code := 19
                               message := ascii "Operation was cancelled" }
               file := { can_seek := true, seq_nr := 1, current_offset := 0
                         input_buffer := none, output_buffer := [] }
               chan := { wire := [], steps := [] } } :=
  ⟨(cancelled_before_first_byte sampleConstants ByteOrder.G_BIG_ENDIAN (fun _ => 0)
      { can_seek := true, seq_nr := 1, current_offset := 0, input_buffer := none
        output_buffer := be32 2 ++ be32 0 ++ be32 0 ++ be32 0 ++ be32 0 }).2.1
      { cancelled := true, io_buffer := .null, io_size := 20, io_res := 0
        io_allow_cancel := true, io_cancelled := true }
      { state := .CLOSE_STATE_WROTE_REQUEST, ret_val := 0, ret_error := none
        sent_cancel := false, seq_nr := 0 } rfl rfl,
   (cancelled_before_first_byte sampleConstants ByteOrder.G_BIG_ENDIAN (fun _ => 0)
      { can_seek := true, seq_nr := 1, current_offset := 0, input_buffer := none
        output_buffer := [] }).2.2.2.2 rfl 5 GSeekType.G_SEEK_END [] { wire := [], steps := [] }⟩

/-- C16, the code at the failing input: the Write step for the request of a write, a close
and a seek on a fresh stream is cancelled before its first byte.  Each machine leaves its
writing state by ending the operation with CANCELLED, and the output buffer of the stream
still holds the 20 bytes of the request. -/
theorem output_buffer_kept_on_cancel :
    (run_sync_state_machine sampleConstants
        (iterate_write_state_machine sampleConstants ByteOrder.G_BIG_ENDIAN (fun _ => 0))
        (g_file_output_stream_daemon_new true 0) (write_operation_new [7, 7] 2) true
        [⟨false, .error { domain := ascii "g-vfs-error-quark", code := 19, message := [] }⟩,
         ⟨true, .wrote 0⟩]
        { wire := [], steps := [] }).map
        (fun out => (out.ok, out.op.ret_error.map (fun e => e.code), out.file.output_buffer,
                     out.chan.wire))
      = some (true, some 19,
              [0, 0, 0, 1, 0, 0, 0, 0, 0, 0, 0, 2, 0, 0, 0, 0, 0, 0, 0, 2], []) ∧
    (run_sync_state_machine sampleConstants
        (iterate_close_state_machine sampleConstants ByteOrder.G_BIG_ENDIAN (fun _ => 0))
        (g_file_output_stream_daemon_new true 0) close_operation_new true
        [⟨false, .error { domain := ascii "g-vfs-error-quark", code := 19, message := [] }⟩,
         ⟨true, .wrote 0⟩]
        { wire := [], steps := [] }).map
        (fun out => (out.ok, out.op.ret_error.map (fun e => e.code), out.file.output_buffer,
                     out.chan.wire))
      = some (true, some 19,
              [0, 0, 0, 2, 0, 0, 0, 0, 0, 0, 0, 0, 0, 0, 0, 0, 0, 0, 0, 0], []) ∧
    (run_sync_state_machine sampleConstants
        (iterate_seek_state_machine sampleConstants ByteOrder.G_BIG_ENDIAN (fun _ => 0))
        (g_file_output_stream_daemon_new true 0) (seek_operation_new 9 GSeekType.G_SEEK_SET)
        true
        [⟨false, .error { domain := ascii "g-vfs-error-quark", code := 19, message := [] }⟩,
         ⟨true, .wrote 0⟩]
        { wire := [], steps := [] }).map
        (fun out => (out.ok, out.op.ret_error.map (fun e => e.code), out.file.output_buffer,
                     out.chan.wire))
      = some (true, some 19,
              [0, 0, 0, 4, 0, 0, 0, 0, 0, 0, 0, 9, 0, 0, 0, 0, 0, 0, 0, 0], []) :=
  ⟨by decide, by decide, by decide⟩

/-- C17, the code at the failing input: a write of two bytes on a fresh stream is cancelled
before the first byte of its request; the next write, of one byte, then offers 40 bytes in
its first Write step, the request of the cancelled write followed by its own, and the
peer receives both, followed by the payload byte. -/
theorem stale_request_sent_after_cancel :
    ((g_file_output_stream_daemon_write sampleConstants ByteOrder.G_BIG_ENDIAN (fun _ => 0)
        (g_file_output_stream_daemon_new true 0) [7, 7] 2 true false
        [⟨false, .error { domain := ascii "g-vfs-error-quark", code := 19, message := [] }⟩,
         ⟨true, .wrote 0⟩]
        { wire := [], steps := [] }).bind
      (fun r => (run_sync_rounds sampleConstants
          (iterate_write_state_machine sampleConstants ByteOrder.G_BIG_ENDIAN (fun _ => 0))
          false [⟨false, .wrote 40⟩, ⟨false, .wrote 1⟩]
          { file := r.file, io_data := io_data_zero, data := write_operation_new [9] 1
            chan := { wire := [], steps := [] } }).map
        (fun s => (r.ret, r.error.map (fun e => e.code), s.chan.steps.head?, s.chan.wire))))
      = some (-1, some 19,
          some { kind := .STATE_OP_WRITE, size := 40, with_cancellable := false
                 offered := [0, 0, 0, 1, 0, 0, 0, 0, 0, 0, 0, 2, 0, 0, 0, 0, 0, 0, 0, 2,
                             0, 0, 0, 1, 0, 0, 0, 1, 0, 0, 0, 1, 0, 0, 0, 0, 0, 0, 0, 1] },
          [0, 0, 0, 1, 0, 0, 0, 0, 0, 0, 0, 2, 0, 0, 0, 0, 0, 0, 0, 2,
           0, 0, 0, 1, 0, 0, 0, 1, 0, 0, 0, 1, 0, 0, 0, 0, 0, 0, 0, 1, 9]) := by
  decide

set_option maxRecDepth 100000 in
/-- C18, the code at the claim's own witness: a write of 1024 zero bytes with a
cancellable on a stream made by `g_file_output_stream_daemon_new`; request and payload
are accepted whole (1044 bytes on the wire).  With the cancellation flag still clear, the
next call of the state machine has to return the Read step for the reply header; it
faults on the `NULL` input buffer instead, so no Read step is pending that a cancellation
could interrupt, and the write has no result.  With the flag set at that call, the CANCEL
frame (CANCEL, 1, 0, 0, 0) is written, once; the call that finds it accepted faults in the
same way, whether the flag is still set or not, and the write has no result whatever the
peer sends, the reply (ERROR, 0, 5, 19) with payload `org.test NUL cancelled NUL`
included: the write does not fail with the remote error. -/
theorem cancelled_write_reply_not_read :
    (∀ (res : IOResult) (rest : List DriverEvent),
      g_file_output_stream_daemon_write sampleConstants ByteOrder.G_BIG_ENDIAN (fun _ => 0)
          (g_file_output_stream_daemon_new false 0) (List.replicate 1024 0) 1024 true false
          ([⟨false, .wrote 20⟩, ⟨false, .wrote 1024⟩] ++ ⟨false, res⟩ :: rest)
          { wire := [], steps := [] } = none) ∧
    (run_sync_rounds sampleConstants
        (iterate_write_state_machine sampleConstants ByteOrder.G_BIG_ENDIAN (fun _ => 0)) true
        [⟨false, .wrote 20⟩, ⟨false, .wrote 1024⟩, ⟨true, .wrote 20⟩]
        { file := g_file_output_stream_daemon_new false 0, io_data := io_data_zero
          data := write_operation_new (List.replicate 1024 0) 1024
          chan := { wire := [], steps := [] } }).map
      (fun s => (s.data.sent_cancel, s.file.input_buffer, s.chan.wire.drop 1044,
        s.chan.steps.map (fun st => (st.kind, st.size))))
      = some (true, none,
          [0, 0, 0, 3, 0, 0, 0, 1, 0, 0, 0, 0, 0, 0, 0, 0, 0, 0, 0, 0],
          [(.STATE_OP_WRITE, 20), (.STATE_OP_WRITE, 1024), (.STATE_OP_WRITE, 20)]) ∧
    (∀ (flag : Bool) (res : IOResult) (rest : List DriverEvent),
      g_file_output_stream_daemon_write sampleConstants ByteOrder.G_BIG_ENDIAN (fun _ => 0)
          (g_file_output_stream_daemon_new false 0) (List.replicate 1024 0) 1024 true false
          ([⟨false, .wrote 20⟩, ⟨false, .wrote 1024⟩, ⟨true, .wrote 20⟩]
            ++ ⟨flag, res⟩ :: rest)
          { wire := [], steps := [] } = none) ∧
    g_file_output_stream_daemon_write sampleConstants ByteOrder.G_BIG_ENDIAN (fun _ => 0)
        (g_file_output_stream_daemon_new false 0) (List.replicate 1024 0) 1024 true false
        [⟨false, .wrote 20⟩, ⟨false, .wrote 1024⟩, ⟨true, .wrote 20⟩,
         ⟨true, .read (reply_header 1 0 5 19)⟩,
         ⟨true, .read (ascii "org.test" ++ [0] ++ ascii "cancelled" ++ [0])⟩,
         ⟨true, .wrote 0⟩]
        { wire := [], steps := [] } = none := by
  have k1 : ∀ (res : IOResult) (rest : List DriverEvent),
      g_file_output_stream_daemon_write sampleConstants ByteOrder.G_BIG_ENDIAN (fun _ => 0)
          (g_file_output_stream_daemon_new false 0) (List.replicate 1024 0) 1024 true false
          ([⟨false, .wrote 20⟩, ⟨false, .wrote 1024⟩] ++ ⟨false, res⟩ :: rest)
          { wire := [], steps := [] } = none := by
    intro res rest
    have h := run_sync_loop_no_return sampleConstants
      (iterate_write_state_machine sampleConstants ByteOrder.G_BIG_ENDIAN (fun _ => 0)) true
      [⟨false, .wrote 20⟩, ⟨false, .wrote 1024⟩] false res rest
      { file := g_file_output_stream_daemon_new false 0, io_data := io_data_zero
        data := write_operation_new (List.replicate 1024 0) 1024
        chan := { wire := [], steps := [] } }
      _ rfl (by decide)
    simp only [g_file_output_stream_daemon_write, g_file_output_stream_daemon_new,
      run_sync_state_machine, Bool.false_eq_true, if_false, Bool.and_false] at h ⊢
    rw [h]
    rfl
  have k2 : ∀ (flag : Bool) (res : IOResult) (rest : List DriverEvent),
      g_file_output_stream_daemon_write sampleConstants ByteOrder.G_BIG_ENDIAN (fun _ => 0)
          (g_file_output_stream_daemon_new false 0) (List.replicate 1024 0) 1024 true false
          ([⟨false, .wrote 20⟩, ⟨false, .wrote 1024⟩, ⟨true, .wrote 20⟩]
            ++ ⟨flag, res⟩ :: rest)
          { wire := [], steps := [] } = none := by
    intro flag res rest
    have h := run_sync_loop_no_return sampleConstants
      (iterate_write_state_machine sampleConstants ByteOrder.G_BIG_ENDIAN (fun _ => 0)) true
      [⟨false, .wrote 20⟩, ⟨false, .wrote 1024⟩, ⟨true, .wrote 20⟩] flag res rest
      { file := g_file_output_stream_daemon_new false 0, io_data := io_data_zero
        data := write_operation_new (List.replicate 1024 0) 1024
        chan := { wire := [], steps := [] } }
      _ rfl (by cases flag <;> decide)
    simp only [g_file_output_stream_daemon_write, g_file_output_stream_daemon_new,
      run_sync_state_machine, Bool.false_eq_true, if_false, Bool.and_false] at h ⊢
    rw [h]
    rfl
  exact ⟨k1, by decide, k2, k2 true _ [_, _]⟩

/-- C21, the code at a write answered by an ERROR reply: a stream made by
`g_file_output_stream_daemon_new` with offset 50, a write of one byte, no cancellable.
Request and payload are accepted; the result value of the operation is still 0 and no
error is set.  The data channel then holds the reply
(ERROR, 0, 5, 19) and its payload `org.test NUL cancelled NUL`.  The call that awaits the
reply faults on the `NULL` input buffer before any byte of it is read: the write has no
result, for this reply and for every other continuation, so it does not return -1 with the
decoded error. -/
theorem write_error_reply_not_read :
    (run_sync_rounds sampleConstants
        (iterate_write_state_machine sampleConstants ByteOrder.G_BIG_ENDIAN (fun _ => 0)) false
        [⟨false, .wrote 20⟩, ⟨false, .wrote 1⟩]
        { file := g_file_output_stream_daemon_new false 50, io_data := io_data_zero
          data := write_operation_new [65] 1, chan := { wire := [], steps := [] } }).map
      (fun s => (s.data.ret_val, s.data.ret_error, s.file.input_buffer,
        (iterate_write_state_machine sampleConstants ByteOrder.G_BIG_ENDIAN (fun _ => 0)
          (s.file, s.io_data, s.data)).isSome))
      = some (0, none, none, false) ∧
    g_file_output_stream_daemon_write sampleConstants ByteOrder.G_BIG_ENDIAN (fun _ => 0)
        (g_file_output_stream_daemon_new false 50) [65] 1 false false
        [⟨false, .wrote 20⟩, ⟨false, .wrote 1⟩,
         ⟨false, .read (reply_header 1 0 5 19)⟩,
         ⟨false, .read (ascii "org.test" ++ [0] ++ ascii "cancelled" ++ [0])⟩,
         ⟨false, .wrote 0⟩]
        { wire := [], steps := [] } = none ∧
    (∀ (flag : Bool) (res : IOResult) (rest : List DriverEvent),
      g_file_output_stream_daemon_write sampleConstants ByteOrder.G_BIG_ENDIAN (fun _ => 0)
          (g_file_output_stream_daemon_new false 50) [65] 1 false false
          ([⟨false, .wrote 20⟩, ⟨false, .wrote 1⟩] ++ ⟨flag, res⟩ :: rest)
          { wire := [], steps := [] } = none) := by
  have key : ∀ (flag : Bool) (res : IOResult) (rest : List DriverEvent),
      g_file_output_stream_daemon_write sampleConstants ByteOrder.G_BIG_ENDIAN (fun _ => 0)
          (g_file_output_stream_daemon_new false 50) [65] 1 false false
          ([⟨false, .wrote 20⟩, ⟨false, .wrote 1⟩] ++ ⟨flag, res⟩ :: rest)
          { wire := [], steps := [] } = none := by
    intro flag res rest
    have h := run_sync_loop_no_return sampleConstants
      (iterate_write_state_machine sampleConstants ByteOrder.G_BIG_ENDIAN (fun _ => 0)) false
      [⟨false, .wrote 20⟩, ⟨false, .wrote 1⟩] flag res rest
      { file := g_file_output_stream_daemon_new false 50, io_data := io_data_zero
        data := write_operation_new [65] 1, chan := { wire := [], steps := [] } }
      _ rfl (by cases flag <;> decide)
    simp only [g_file_output_stream_daemon_write, g_file_output_stream_daemon_new,
      run_sync_state_machine, Bool.false_eq_true, if_false, Bool.and_false] at h ⊢
    rw [h]
    rfl
  exact ⟨by decide,
    key false (.read (reply_header 1 0 5 19))
      [⟨false, .read (ascii "org.test" ++ [0] ++ ascii "cancelled" ++ [0])⟩, ⟨false, .wrote 0⟩],
    key⟩

/-- C22: the first call of the seek state machine, for every offset and seek type.  It
appends one frame to the output buffer: the command SEEK_SET, SEEK_CUR or SEEK_END for
the seek type SET, CUR or END, the stream counter as sequence number, the low 32 bits of
the offset as arg1, the low 32 bits of the offset shifted right by 32 as arg2, and
data_len 0.  It records the sequence number in the operation, advances the counter, and
returns a Write step for the whole output buffer with allow_cancel set. -/
theorem seek_first_step (K : GVfsConstants) (host : ByteOrder) (stale : Nat → Nat)
    (file : GFileOutputStreamDaemon) (io : IOOperationData) (op : SeekOperation)
    (hst : op.state = .SEEK_STATE_INIT) :
    iterate_seek_state_machine K host stale (file, io, op)
      = some (.STATE_OP_WRITE,
          ({ file with
              seq_nr := (file.seq_nr + 1) % 4294967296
              output_buffer := file.output_buffer ++
                (be32 (match op.seek_type with
                       | .G_SEEK_SET => K.REQUEST_SEEK_SET
                       | .G_SEEK_CUR => K.REQUEST_SEEK_CUR
                       | .G_SEEK_END => K.REQUEST_SEEK_END)
                  ++ be32 file.seq_nr
                  ++ be32 (op.offset % 4294967296).toNat
                  ++ be32 (op.offset / 4294967296 % 4294967296).toNat
                  ++ be32 0) },
           { io with
              io_buffer := .source (file.output_buffer ++
                (be32 (match op.seek_type with
                       | .G_SEEK_SET => K.REQUEST_SEEK_SET
                       | .G_SEEK_CUR => K.REQUEST_SEEK_CUR
                       | .G_SEEK_END => K.REQUEST_SEEK_END)
                  ++ be32 file.seq_nr
                  ++ be32 (op.offset % 4294967296).toNat
                  ++ be32 (op.offset / 4294967296 % 4294967296).toNat
                  ++ be32 0))
              io_size := file.output_buffer.length + 20
              io_allow_cancel := true },
           { op with seq_nr := file.seq_nr, state := .SEEK_STATE_WROTE_REQUEST })) := by
  have hreq : seek_request K op.seek_type
      = (match op.seek_type with
         | .G_SEEK_SET => K.REQUEST_SEEK_SET
         | .G_SEEK_CUR => K.REQUEST_SEEK_CUR
         | .G_SEEK_END => K.REQUEST_SEEK_END) := by
    unfold seek_request
    cases op.seek_type <;> rfl
  have hout := append_request_output host file (seek_request K op.seek_type)
    (offset_low op.offset) (offset_high op.offset) 0
  rw [store32_zero] at hout
  have hfile : (append_request host file (seek_request K op.seek_type)
      (offset_low op.offset) (offset_high op.offset) 0).1
      = { file with
          seq_nr := (file.seq_nr + 1) % 4294967296
          output_buffer := (append_request host file (seek_request K op.seek_type)
            (offset_low op.offset) (offset_high op.offset) 0).1.output_buffer } := rfl
  have hlen : (file.output_buffer ++
      (be32 (seek_request K op.seek_type)
        ++ be32 file.seq_nr
        ++ be32 (offset_low op.offset)
        ++ be32 (offset_high op.offset)
        ++ be32 0)).length = file.output_buffer.length + 20 := by
    simp [be32_length]
  rw [seek_iterate_of_ret K host stale _ _ _ (seek_switch_init K host stale file io op hst),
    hfile, hout, hlen, hreq]
  rfl

/-- C22, an instance: `seek (0, END)` on a fresh stream that can seek sends
SEEK_END, 0, 0, 0, 0. -/
theorem seek_first_step_witness :
    iterate_seek_state_machine sampleConstants ByteOrder.G_LITTLE_ENDIAN (fun _ => 0)
        (g_file_output_stream_daemon_new true 0, io_data_zero,
         seek_operation_new 0 GSeekType.G_SEEK_END)
      = some (.STATE_OP_WRITE,
          ({ can_seek := true, seq_nr := 1, current_offset := 0, input_buffer := none
             output_buffer := [0, 0, 0, 5, 0, 0, 0, 0, 0, 0, 0, 0, 0, 0, 0, 0, 0, 0, 0, 0] },
           { cancelled := false
             io_buffer := .source [0, 0, 0, 5, 0, 0, 0, 0, 0, 0, 0, 0, 0, 0, 0, 0, 0, 0, 0, 0]
             io_size := 20, io_res := 0, io_allow_cancel := true, io_cancelled := false },
           { state := .SEEK_STATE_WROTE_REQUEST, offset := 0, seek_type := .G_SEEK_END
             ret_val := 0, ret_error := none, ret_offset := 0, sent_cancel := false
             seq_nr := 0 })) :=
  seek_first_step sampleConstants ByteOrder.G_LITTLE_ENDIAN (fun _ => 0)
    (g_file_output_stream_daemon_new true 0) io_data_zero
    (seek_operation_new 0 GSeekType.G_SEEK_END) rfl

/-- C23, the code at the claim's own witness: a stream made by
`g_file_output_stream_daemon_new` that can seek and stands at offset 7, a seek to offset 0
from the end, no cancellable.  The request (SEEK_END, 0, 0, 0, 0) is accepted whole: the
driver is still running, the input buffer is `NULL` and `tell ()` is 7.  The next call of
the state machine is the one that has to read the reply; it faults on the `NULL` input
buffer, so the seek has no result, whatever the data channel would deliver, the reply
(SEEK_POS, 0, 0x40, 1) of the claim included: success is not reported and the offset never
becomes 0x100000040. -/
theorem seek_pos_reply_not_read :
    (run_sync_rounds sampleConstants
        (iterate_seek_state_machine sampleConstants ByteOrder.G_BIG_ENDIAN (fun _ => 0)) false
        [⟨false, .wrote 20⟩]
        { file := g_file_output_stream_daemon_new true 7, io_data := io_data_zero
          data := seek_operation_new 0 GSeekType.G_SEEK_END
          chan := { wire := [], steps := [] } }).map
      (fun s => (s.data.state, s.file.input_buffer,
        g_file_output_stream_daemon_tell s.file, s.chan.wire,
        (iterate_seek_state_machine sampleConstants ByteOrder.G_BIG_ENDIAN (fun _ => 0)
          (s.file, s.io_data, s.data)).isSome))
      = some (.SEEK_STATE_WROTE_REQUEST, none, 7,
          [0, 0, 0, 5, 0, 0, 0, 0, 0, 0, 0, 0, 0, 0, 0, 0, 0, 0, 0, 0], false) ∧
    (∀ (flag : Bool) (res : IOResult) (rest : List DriverEvent),
      g_file_output_stream_daemon_seek sampleConstants ByteOrder.G_BIG_ENDIAN (fun _ => 0)
          (g_file_output_stream_daemon_new true 7) 0 GSeekType.G_SEEK_END false false
          ([⟨false, .wrote 20⟩] ++ ⟨flag, res⟩ :: rest) { wire := [], steps := [] } = none) ∧
    g_file_output_stream_daemon_seek sampleConstants ByteOrder.G_BIG_ENDIAN (fun _ => 0)
        (g_file_output_stream_daemon_new true 7) 0 GSeekType.G_SEEK_END false false
        [⟨false, .wrote 20⟩, ⟨false, .read (reply_header 2 0 64 1)⟩,
         ⟨false, .wrote 0⟩]
        { wire := [], steps := [] } = none := by
  have key : ∀ (flag : Bool) (res : IOResult) (rest : List DriverEvent),
      g_file_output_stream_daemon_seek sampleConstants ByteOrder.G_BIG_ENDIAN (fun _ => 0)
          (g_file_output_stream_daemon_new true 7) 0 GSeekType.G_SEEK_END false false
          ([⟨false, .wrote 20⟩] ++ ⟨flag, res⟩ :: rest) { wire := [], steps := [] } = none := by
    intro flag res rest
    have h := run_sync_loop_no_return sampleConstants
      (iterate_seek_state_machine sampleConstants ByteOrder.G_BIG_ENDIAN (fun _ => 0)) false
      [⟨false, .wrote 20⟩] flag res rest
      { file := g_file_output_stream_daemon_new true 7, io_data := io_data_zero
        data := seek_operation_new 0 GSeekType.G_SEEK_END, chan := { wire := [], steps := [] } }
      _ rfl (by cases flag <;> decide)
    simp only [g_file_output_stream_daemon_seek, g_file_output_stream_daemon_new,
      run_sync_state_machine, Bool.not_true, Bool.false_eq_true, if_false, Bool.and_false] at h ⊢
    rw [h]
    rfl
  exact ⟨by decide, key,
    key false (.read (reply_header 2 0 64 1)) [⟨false, .wrote 0⟩]⟩

/-- C24: the two request words of a seek, joined as the reply decoder joins the words of a
SEEK_POS reply, give back the offset, for every 64-bit signed offset, negative ones
included. -/
theorem seek_offset_round_trip (o : Int) (t s : Nat)
    (hlo : -9223372036854775808 ≤ o) (hhi : o < 9223372036854775808) :
    seek_pos_offset { type := t, seq_nr := s, arg1 := offset_low o, arg2 := offset_high o }
      = o := by
  unfold seek_pos_offset offset_low offset_high to_goffset U32
  simp only
  have h1 : (0 : Int) ≤ o % 4294967296 := Int.emod_nonneg _ (by decide)
  have h2 : o % 4294967296 < 4294967296 := Int.emod_lt_of_pos _ (by decide)
  have h3 : (0 : Int) ≤ o / 4294967296 % 4294967296 := Int.emod_nonneg _ (by decide)
  have h4 : o / 4294967296 % 4294967296 < 4294967296 := Int.emod_lt_of_pos _ (by decide)
  have e1 : (((o % 4294967296).toNat % 4294967296 : Nat) : Int) = o % 4294967296 := by
    omega
  have e2 : (((o / 4294967296 % 4294967296).toNat % 4294967296 : Nat) : Int)
      = o / 4294967296 % 4294967296 := by
    omega
  rw [e1, e2]
  omega

/-- C24, instances: the offsets -1 and -4294967297. -/
theorem seek_offset_round_trip_witness :
    seek_pos_offset { type := 2, seq_nr := 0, arg1 := offset_low (-1)
                      arg2 := offset_high (-1) } = -1 ∧
    (offset_low (-4294967297), offset_high (-4294967297)) = (4294967295, 4294967294) ∧
    seek_pos_offset { type := 2, seq_nr := 0, arg1 := offset_low (-4294967297)
                      arg2 := offset_high (-4294967297) } = -4294967297 :=
  ⟨seek_offset_round_trip (-1) 2 0 (by decide) (by decide), by decide,
   seek_offset_round_trip (-4294967297) 2 0 (by decide) (by decide)⟩

/-- C25, the code at the failing inputs, on a stream that can seek and stands at offset
100.  A seek whose request write is cancelled before the first byte returns -1, which as
a `gboolean` reads as TRUE, with no error set, and `tell ()` is 0 afterwards.  A seek
whose request write fails in the transport returns -1 as well, with the error set and
`tell ()` still 100.  A seek whose request the command channel accepts does not return,
whatever the peer answers (an ERROR reply with its sequence number included): the call of
the state machine that awaits the reply faults on the input buffer, which is `NULL`. -/
theorem seek_failure_results :
    (g_file_output_stream_daemon_seek sampleConstants ByteOrder.G_BIG_ENDIAN (fun _ => 0)
        (g_file_output_stream_daemon_new true 100) 9 GSeekType.G_SEEK_SET true false
        [⟨false, .error { domain := ascii "g-vfs-error-quark", code := 19, message := [] }⟩,
         ⟨true, .wrote 0⟩]
        { wire := [], steps := [] }).map
        (fun r => (r.ret, r.error, g_file_output_stream_daemon_tell r.file))
      = some (-1, none, 0) ∧
    (g_file_output_stream_daemon_seek sampleConstants ByteOrder.G_BIG_ENDIAN (fun _ => 0)
        (g_file_output_stream_daemon_new true 100) 9 GSeekType.G_SEEK_SET true false
        [⟨false, .error { domain := ascii "g-file-error-quark", code := 32
                          message := ascii "Broken pipe" }⟩]
        { wire := [], steps := [] }).map
        (fun r => (r.ret, r.error, g_file_output_stream_daemon_tell r.file))
      = some (-1,
          some { domain := ascii "g-file-error-quark", code := 21
                 message := ascii "Error in stream protocol: Broken pipe" },
          100) ∧
    (∀ (res : IOResult) (rest : List DriverEvent),
      g_file_output_stream_daemon_seek sampleConstants ByteOrder.G_BIG_ENDIAN (fun _ => 0)
          (g_file_output_stream_daemon_new true 100) 9 GSeekType.G_SEEK_SET true false
          ([⟨false, .wrote 20⟩] ++ ⟨false, res⟩ :: rest) { wire := [], steps := [] }
        = none) := by
  refine ⟨by decide, by decide, fun res rest => ?_⟩
  have h := run_sync_loop_no_return sampleConstants
    (iterate_seek_state_machine sampleConstants ByteOrder.G_BIG_ENDIAN (fun _ => 0)) true
    [⟨false, .wrote 20⟩] false res rest
    { file := g_file_output_stream_daemon_new true 100, io_data := io_data_zero
      data := seek_operation_new 9 GSeekType.G_SEEK_SET, chan := { wire := [], steps := [] } }
    _ rfl (by decide)
  simp only [g_file_output_stream_daemon_seek, g_file_output_stream_daemon_new,
    run_sync_state_machine, Bool.not_true, Bool.false_eq_true, if_false, Bool.and_false] at h ⊢
  rw [h]
  rfl

/-- C26: `can_seek ()` returns the flag the constructor was given and `tell ()` returns
`current_offset`.  On a stream that cannot seek, every seek, whatever the offset, the
seek type, the cancellable and its state, and whatever the channels would do, returns
FALSE with the error NOT_SUPPORTED and leaves the stream, with output buffer, sequence
counter and offset, and the channels as they were. -/
theorem seek_not_supported (K : GVfsConstants) (host : ByteOrder) (stale : Nat → Nat) :
    (∀ (can_seek : Bool) (initial_offset : Int),
      g_file_output_stream_daemon_can_seek
          (g_file_output_stream_daemon_new can_seek initial_offset) = can_seek ∧
      g_file_output_stream_daemon_tell
          (g_file_output_stream_daemon_new can_seek initial_offset) = initial_offset) ∧
    (∀ file : GFileOutputStreamDaemon,
      g_file_output_stream_daemon_tell file = file.current_offset) ∧
    (∀ (file : GFileOutputStreamDaemon) (offset : Int) (type : GSeekType)
        (cancellable cancelled_at_entry : Bool) (events : List DriverEvent) (chan : Channels),
      g_file_output_stream_daemon_can_seek file = false →
      g_file_output_stream_daemon_seek K host stale file offset type cancellable
          cancelled_at_entry events chan
        = some { ret := 0
                 error := some { domain := K.G_VFS_ERROR, code := K.G_VFS_ERROR_NOT_SUPPORTED,
                                 message := MSG_SEEK_NOT_SUPPORTED }
                 file := file, chan := chan }) := by
  refine ⟨fun _ _ => ⟨rfl, rfl⟩, fun _ => rfl, ?_⟩
  intro file offset type cancellable cancelled_at_entry events chan h
  unfold g_file_output_stream_daemon_can_seek at h
  simp only [g_file_output_stream_daemon_seek, h, Bool.not_false, if_true]

/-- C26, an instance: a seek to the end, with the cancellable already cancelled, on a
stream constructed with `can_seek = FALSE` at offset 12. -/
theorem seek_not_supported_witness :
    g_file_output_stream_daemon_seek sampleConstants ByteOrder.G_BIG_ENDIAN (fun _ => 0)
        (g_file_output_stream_daemon_new false 12) 0 GSeekType.G_SEEK_END true true
        [⟨false, .wrote 20⟩] { wire := [], steps := [] }
      = some { ret := 0
               error := some { domain := ascii "g-vfs-error-quark", code := 15
                               message := ascii "Seek not supported on stream" }
               file := g_file_output_stream_daemon_new false 12
               chan := { wire := [], steps := [] } } :=
  (seek_not_supported sampleConstants ByteOrder.G_BIG_ENDIAN (fun _ => 0)).2.2
    (g_file_output_stream_daemon_new false 12) 0 GSeekType.G_SEEK_END true true
    [⟨false, .wrote 20⟩] { wire := [], steps := [] } rfl

/-! ## Claims on the stream base class -/

/-- C27, counterexample: a stream with no call pending is closed by `g_output_stream_close`
(the implementation's close fails).  Afterwards a write with count 0 returns 0 with no
error, and a second `g_output_stream_close` returns TRUE with no error: neither fails with
CLOSED. -/
theorem closed_stream_calls_without_error :
    ((g_output_stream_close sampleConstants sampleStreamErrors sampleClass
        { priv := { closed := false, pending := false }, impl := 0, calls := [] } false).ret,
     (g_output_stream_close sampleConstants sampleStreamErrors sampleClass
        { priv := { closed := false, pending := false }, impl := 0, calls := [] } false).stream,
     g_output_stream_write sampleConstants sampleStreamErrors sampleClass
        (g_output_stream_close sampleConstants sampleStreamErrors sampleClass
          { priv := { closed := false, pending := false }, impl := 0, calls := [] }
          false).stream [65] 0 false,
     g_output_stream_close sampleConstants sampleStreamErrors sampleClass
        (g_output_stream_close sampleConstants sampleStreamErrors sampleClass
          { priv := { closed := false, pending := false }, impl := 0, calls := [] }
          false).stream false)
      = (0,
         { priv := { closed := true, pending := false }, impl := 100
           calls := [{ method := .close, closed := false, pending := true }] },
         { ret := 0, error := none
           stream := { priv := { closed := true, pending := false }, impl := 100
                       calls := [{ method := .close, closed := false, pending := true }] } },
         { ret := 1, error := none
           stream := { priv := { closed := true, pending := false }, impl := 100
                       calls := [{ method := .close, closed := false, pending := true }] } }) := by
  decide

/-- C27, amended: once `g_output_stream_close` has run on a stream with no call pending,
whatever it returned, the stream is closed, and no later blocking call reaches the
implementation or changes the stream.  A write with a count from 1 to `G_MAXSSIZE`
returns -1 and a flush returns FALSE, both with the error CLOSED; a close returns TRUE
with no error; a write with count 0 returns 0 with no error and one with a count above
`G_MAXSSIZE` fails with INVAL; any sequence of blocking calls leaves the stream as it
is. -/
theorem closed_after_close {σ : Type} (K : GVfsConstants) (E : GOutputStreamErrors)
    (cls : GOutputStreamClass σ) (stream : GOutputStream σ) (cancellable : Bool)
    (hp : stream.priv.pending = false) :
    (g_output_stream_close K E cls stream cancellable).stream.priv.closed = true ∧
    (∀ (buffer : List Nat) (count : Nat) (c : Bool), 1 ≤ count → count ≤ G_MAXSSIZE →
      g_output_stream_write K E cls (g_output_stream_close K E cls stream cancellable).stream
          buffer count c
        = { ret := -1
            error := some { domain := K.G_VFS_ERROR, code := E.G_VFS_ERROR_CLOSED,
                            message := MSG_CLOSED }
            stream := (g_output_stream_close K E cls stream cancellable).stream }) ∧
    (∀ c : Bool,
      g_output_stream_flush K E cls (g_output_stream_close K E cls stream cancellable).stream c
        = { ret := 0
            error := some { domain := K.G_VFS_ERROR, code := E.G_VFS_ERROR_CLOSED,
                            message := MSG_CLOSED }
            stream := (g_output_stream_close K E cls stream cancellable).stream }) ∧
    (∀ c : Bool,
      g_output_stream_close K E cls (g_output_stream_close K E cls stream cancellable).stream c
        = { ret := 1, error := none
            stream := (g_output_stream_close K E cls stream cancellable).stream }) ∧
    (∀ (buffer : List Nat) (c : Bool),
      g_output_stream_write K E cls (g_output_stream_close K E cls stream cancellable).stream
          buffer 0 c
        = { ret := 0, error := none
            stream := (g_output_stream_close K E cls stream cancellable).stream }) ∧
    (∀ (buffer : List Nat) (count : Nat) (c : Bool), G_MAXSSIZE < count → count < GSIZE →
      g_output_stream_write K E cls (g_output_stream_close K E cls stream cancellable).stream
          buffer count c
        = { ret := -1
            error := some { domain := K.G_FILE_ERROR, code := E.G_FILE_ERROR_INVAL,
                            message := MSG_TOO_LARGE }
            stream := (g_output_stream_close K E cls stream cancellable).stream }) ∧
    (∀ calls : List StreamCall,
      g_output_stream_calls K E cls calls
          (g_output_stream_close K E cls stream cancellable).stream
        = (g_output_stream_close K E cls stream cancellable).stream) := by
  have hflags := close_flags K E cls stream cancellable hp
  have hcl : (g_output_stream_close K E cls stream cancellable).stream.priv.closed = true := by
    rw [hflags]
  obtain ⟨h1, h2, h3⟩ := closed_stream_results K E cls
    (g_output_stream_close K E cls stream cancellable).stream hcl
  exact ⟨hcl, h1, h2, h3,
    fun buffer c => (write_count_results K E cls _ buffer c).1,
    fun buffer count c hc1 hc2 => (write_count_results K E cls _ buffer c).2 count hc1 hc2,
    fun calls => closed_stream_calls K E cls calls _ hcl⟩

/-- C27, an instance: the stream of the counterexample after its close; a write of one byte
fails with CLOSED and the counter of the implementation stays at 100. -/
theorem closed_after_close_witness :
    g_output_stream_write sampleConstants sampleStreamErrors sampleClass
        (g_output_stream_close sampleConstants sampleStreamErrors sampleClass
          { priv := { closed := false, pending := false }, impl := 0, calls := [] }
          false).stream [65] 1 true
      = { ret := -1
          error := some { domain := ascii "g-vfs-error-quark", code := 16
                          message := ascii "Stream is already closed" }
          stream := { priv := { closed := true, pending := false }, impl := 100
                      calls := [{ method := .close, closed := false, pending := true }] } } :=
  (closed_after_close sampleConstants sampleStreamErrors sampleClass
    { priv := { closed := false, pending := false }, impl := 0, calls := [] } false rfl).2.1
    [65] 1 true (by decide) (by decide)

/-- C28: close always leaves the stream closed.  On a stream that is neither closed nor
pending, after `g_output_stream_close` has returned, whatever the class and so whatever
its flush and close report, the closed flag is set and the pending flag is clear.  The
same flags hold when `close_async_callback_wrapper` hands over to the caller's callback,
whatever stream state, result and error it is called with. -/
theorem close_leaves_closed {σ : Type} (K : GVfsConstants) (E : GOutputStreamErrors)
    (cls : GOutputStreamClass σ) :
    (∀ (stream : GOutputStream σ) (cancellable : Bool),
      stream.priv.closed = false → stream.priv.pending = false →
      (g_output_stream_close K E cls stream cancellable).stream.priv
        = { closed := true, pending := false }) ∧
    (∀ (stream : GOutputStream σ) (result : Int) (error : Option GError),
      (close_async_callback_wrapper stream result error).1.priv
        = { closed := true, pending := false }) :=
  ⟨fun stream cancellable _ hp => close_flags K E cls stream cancellable hp,
   fun _ _ _ => rfl⟩

/-- C28, an instance: the implementation's close fails, `g_output_stream_close` returns FALSE
with its error, and the stream is closed and not pending. -/
theorem close_leaves_closed_witness :
    (g_output_stream_close sampleConstants sampleStreamErrors sampleClass
        { priv := { closed := false, pending := false }, impl := 7, calls := [] } true).ret = 0 ∧
    (g_output_stream_close sampleConstants sampleStreamErrors sampleClass
        { priv := { closed := false, pending := false }, impl := 7, calls := [] } true).stream.priv
      = { closed := true, pending := false } :=
  ⟨by decide,
   (close_leaves_closed sampleConstants sampleStreamErrors sampleClass).1
    { priv := { closed := false, pending := false }, impl := 7, calls := [] } true rfl rfl⟩

/-- C29: closing is idempotent.  `g_output_stream_close` on a closed stream returns TRUE with
no error and leaves the stream, with its flags, its instance data and the record of the
calls into the implementation, as it is.  Over any sequence of blocking calls, closes
among them, the implementation's close is called at most once, and never on a stream
that was closed at the start. -/
theorem close_idempotent {σ : Type} (K : GVfsConstants) (E : GOutputStreamErrors)
    (cls : GOutputStreamClass σ) (stream : GOutputStream σ) :
    (stream.priv.closed = true →
      ∀ cancellable : Bool,
        g_output_stream_close K E cls stream cancellable
          = { ret := 1, error := none, stream := stream }) ∧
    (∀ calls : List StreamCall,
      close_invocations (g_output_stream_calls K E cls calls stream)
        ≤ close_invocations stream + 1) ∧
    (stream.priv.closed = true →
      ∀ calls : List StreamCall,
        close_invocations (g_output_stream_calls K E cls calls stream)
          = close_invocations stream) := by
  refine ⟨fun h c => (closed_stream_results K E cls stream h).2.2 c, fun calls => ?_,
    fun h calls => by rw [closed_stream_calls K E cls calls stream h]⟩
  have := calls_close_invocations K E cls calls stream
  split_ifs at this <;> omega

/-- C29, an instance: three closes with a write in between on a fresh stream of the sample
class reach the implementation's close once; a further close on the result returns TRUE
and changes nothing. -/
theorem close_idempotent_witness :
    g_output_stream_calls sampleConstants sampleStreamErrors sampleClass
        [.close false, .write [65] 1 false, .close true, .close false]
        { priv := { closed := false, pending := false }, impl := 0, calls := [] }
      = { priv := { closed := true, pending := false }, impl := 100
          calls := [{ method := .close, closed := false, pending := true }] } ∧
    g_output_stream_close sampleConstants sampleStreamErrors sampleClass
        { priv := { closed := true, pending := false }, impl := 100
          calls := [{ method := .close, closed := false, pending := true }] } false
      = { ret := 1, error := none
          stream := { priv := { closed := true, pending := false }, impl := 100
                      calls := [{ method := .close, closed := false, pending := true }] } } :=
  ⟨by decide,
   (close_idempotent sampleConstants sampleStreamErrors sampleClass
    { priv := { closed := true, pending := false }, impl := 100
      calls := [{ method := .close, closed := false, pending := true }] }).1 rfl false⟩

/-- C30: the pending guard.  On a stream that is not closed and has `pending` set, a write
with a count from 1 to `G_MAXSSIZE`, a flush and a close fail with the error PENDING and
leave the stream, with its flags, its instance data and the record of the calls into the
implementation, as it is.  For every stream and every blocking call, each call into the
implementation that the blocking call makes finds `pending` set, and if it makes any,
`pending` was clear before the blocking call and is clear when it returns. -/
theorem pending_guard {σ : Type} (K : GVfsConstants) (E : GOutputStreamErrors)
    (cls : GOutputStreamClass σ) (stream : GOutputStream σ) :
    (stream.priv.closed = false → stream.priv.pending = true →
      (∀ (buffer : List Nat) (count : Nat) (c : Bool), 1 ≤ count → count ≤ G_MAXSSIZE →
        g_output_stream_write K E cls stream buffer count c
          = { ret := -1
              error := some { domain := K.G_VFS_ERROR, code := E.G_VFS_ERROR_PENDING,
                              message := MSG_PENDING }
              stream := stream }) ∧
      (∀ c : Bool,
        g_output_stream_flush K E cls stream c
          = { ret := 0
              error := some { domain := K.G_VFS_ERROR, code := E.G_VFS_ERROR_PENDING,
                              message := MSG_PENDING }
              stream := stream }) ∧
      (∀ c : Bool,
        g_output_stream_close K E cls stream c
          = { ret := 0
              error := some { domain := K.G_VFS_ERROR, code := E.G_VFS_ERROR_PENDING,
                              message := MSG_PENDING }
              stream := stream })) ∧
    (∀ call : StreamCall,
      ∃ new : List ImplCall,
        (g_output_stream_call K E cls stream call).stream.calls = stream.calls ++ new ∧
        (∀ c ∈ new, c.pending = true) ∧
        (new ≠ [] → stream.priv.pending = false ∧
          (g_output_stream_call K E cls stream call).stream.priv.pending = false)) := by
  refine ⟨fun hc hp => ⟨fun buffer count c h1 h2 => ?_, fun c => ?_, fun c => ?_⟩,
    fun call => ?_⟩
  · have h0 : ¬ count = 0 := by omega
    simp only [g_output_stream_write, h0, to_gssize_small count h2, hc, hp, if_true, if_false,
      Bool.false_eq_true]
  · simp only [g_output_stream_flush, hc, hp, if_true, if_false, Bool.false_eq_true]
  · simp only [g_output_stream_close, hc, hp, if_true, if_false, Bool.false_eq_true]
  · obtain ⟨new, h1, h2, h3, _, _⟩ := call_record K E cls stream call
    exact ⟨new, h1, fun c hc => (h2 c hc).1, fun hne => ⟨(h3 hne).1, (h3 hne).2.2⟩⟩

/-- C30, an instance: a write of one byte on a stream of the sample class whose `pending` flag
is set fails with PENDING and the counter of the implementation stays at 3. -/
theorem pending_guard_witness :
    g_output_stream_write sampleConstants sampleStreamErrors sampleClass
        { priv := { closed := false, pending := true }, impl := 3, calls := [] } [65] 1 false
      = { ret := -1
          error := some { domain := ascii "g-vfs-error-quark", code := 17
                          message := ascii "Stream has outstanding operation" }
          stream := { priv := { closed := false, pending := true }, impl := 3, calls := [] } } :=
  ((pending_guard sampleConstants sampleStreamErrors sampleClass
    { priv := { closed := false, pending := true }, impl := 3, calls := [] }).1 rfl rfl).1
    [65] 1 false (by decide) (by decide)

/-! ## Claims on the drivers -/

/-- C31: a write of zero bytes.  For every class, every stream (whatever its flags, instance
data and record of calls), every buffer and with or without a cancellable,
`g_output_stream_write` with count 0 returns 0 with no error and leaves the stream as it
was: no call into the implementation is recorded and the flags are unchanged.  When the
instance data are a daemon stream with its channels, the sequence counter, the output
buffer, the offset and the bytes on the wire are therefore unchanged too. -/
theorem zero_size_write (K : GVfsConstants) (E : GOutputStreamErrors) :
    (∀ (σ : Type) (cls : GOutputStreamClass σ) (stream : GOutputStream σ)
        (buffer : List Nat) (cancellable : Bool),
      g_output_stream_write K E cls stream buffer 0 cancellable
        = { ret := 0, error := none, stream := stream }) ∧
    (∀ (cls : GOutputStreamClass (GFileOutputStreamDaemon × Channels))
        (stream : GOutputStream (GFileOutputStreamDaemon × Channels))
        (buffer : List Nat) (cancellable : Bool),
      (g_output_stream_write K E cls stream buffer 0 cancellable).ret = 0 ∧
      (g_output_stream_write K E cls stream buffer 0 cancellable).error = none ∧
      (g_output_stream_write K E cls stream buffer 0 cancellable).stream.calls
        = stream.calls ∧
      (g_output_stream_write K E cls stream buffer 0 cancellable).stream.priv
        = stream.priv ∧
      (g_output_stream_write K E cls stream buffer 0 cancellable).stream.impl.1.seq_nr
        = stream.impl.1.seq_nr ∧
      (g_output_stream_write K E cls stream buffer 0 cancellable).stream.impl.1.output_buffer
        = stream.impl.1.output_buffer ∧
      (g_output_stream_write K E cls stream buffer 0 cancellable).stream.impl.1.current_offset
        = stream.impl.1.current_offset ∧
      (g_output_stream_write K E cls stream buffer 0 cancellable).stream.impl.2.wire
        = stream.impl.2.wire ∧
      (g_output_stream_write K E cls stream buffer 0 cancellable).stream.impl.2.steps
        = stream.impl.2.steps) := by
  have h : ∀ (σ : Type) (cls : GOutputStreamClass σ) (stream : GOutputStream σ)
      (buffer : List Nat) (cancellable : Bool),
      g_output_stream_write K E cls stream buffer 0 cancellable
        = { ret := 0, error := none, stream := stream } := by
    intro σ cls stream buffer cancellable
    simp [g_output_stream_write]
  refine ⟨h, fun cls stream buffer cancellable => ?_⟩
  rw [h]
  exact ⟨rfl, rfl, rfl, rfl, rfl, rfl, rfl, rfl, rfl⟩

/-- C32: how the blocking driver translates the result of an I/O call.  Take any state
machine, any driver state and any round in which the state machine asks for a step (read,
skip or write).  (1) A call that fails with the cancellation error hands `io_res = 0`,
`io_cancelled = TRUE` to the next round.  (2) A call that fails with any other error ends
the run at once, whatever events would follow: the driver returns FALSE with the protocol
error made of the message, the operation record being the one the state machine left.
(3) A call that reports 0 bytes although `io_size` is not 0 ends the run in the same way
with the end-of-stream protocol error.  (4) A call that reports `n` bytes, `n` between 1
and `io_size`, or 0 bytes of 0 asked for, hands `io_res = n`, `io_cancelled = FALSE` to
the next round, the stream and the channels being what the call left. -/
theorem sync_result_translation {Op : Type} (K : GVfsConstants)
    (iterator : GFileOutputStreamDaemon × IOOperationData × Op →
      Option (StateOp × (GFileOutputStreamDaemon × IOOperationData × Op)))
    (cancellable flag : Bool) (s : DriverState Op) (step : StateOp)
    (file1 : GFileOutputStreamDaemon) (io1 : IOOperationData) (op1 : Op)
    (hit : iterator (s.file, poll_cancellable cancellable flag s.io_data, s.data)
      = some (step, (file1, io1, op1)))
    (hstep : step ≠ .STATE_OP_DONE) :
    (∀ e : GError, error_is_cancel K (some e) = true →
      sync_round K iterator cancellable ⟨flag, .error e⟩ s
        = some (.inr { file := file1, io_data := { io1 with io_res := 0, io_cancelled := true }
                       data := op1
                       chan := s.chan.record (io_step step io1 cancellable) [] })) ∧
    (∀ (e : GError) (rest : List DriverEvent), error_is_cancel K (some e) = false →
      run_sync_loop K iterator cancellable (⟨flag, .error e⟩ :: rest) s
        = some { ok := false, error := some (protocol_error K e.message), file := file1
                 op := op1, chan := s.chan.record (io_step step io1 cancellable) [] }) ∧
    (∀ rest : List DriverEvent, io1.io_size ≠ 0 →
      run_sync_loop K iterator cancellable (⟨flag, .wrote 0⟩ :: rest) s
        = some { ok := false, error := some (protocol_error K (ascii "End of stream"))
                 file := file1, op := op1
                 chan := s.chan.record (io_step step io1 cancellable) [] } ∧
      run_sync_loop K iterator cancellable (⟨flag, .read []⟩ :: rest) s
        = some { ok := false, error := some (protocol_error K (ascii "End of stream"))
                 file := file1, op := op1
                 chan := s.chan.record (io_step step io1 cancellable) [] }) ∧
    (∀ n : Nat, n ≤ io1.io_size → (n = 0 → io1.io_size = 0) →
      sync_round K iterator cancellable ⟨flag, .wrote n⟩ s
        = some (.inr { file := (perform_io step file1 io1 (.wrote n)).2.1
                       io_data := { io1 with io_res := n, io_cancelled := false }
                       data := op1
                       chan := s.chan.record (io_step step io1 cancellable)
                         (perform_io step file1 io1 (.wrote n)).2.2 })) ∧
    (∀ data : List Nat, data.length ≤ io1.io_size → (data = [] → io1.io_size = 0) →
      sync_round K iterator cancellable ⟨flag, .read data⟩ s
        = some (.inr { file := (perform_io step file1 io1 (.read data)).2.1
                       io_data := { io1 with io_res := data.length, io_cancelled := false }
                       data := op1
                       chan := s.chan.record (io_step step io1 cancellable)
                         (perform_io step file1 io1 (.read data)).2.2 })) := by
  have hr : ∀ res : IOResult,
      sync_round K iterator cancellable ⟨flag, res⟩ s = _ :=
    fun res => sync_round_step K iterator cancellable ⟨flag, res⟩ s step file1 io1 op1 hit hstep
  refine ⟨?_, ?_, ?_, ?_, ?_⟩
  · intro e he
    rw [hr]
    simp [perform_io, he]
  · intro e rest he
    rw [run_sync_loop, hr]
    simp [perform_io, he]
  · intro rest hsz
    have hz := perform_io_zero step file1 io1
    constructor
    · rw [run_sync_loop, hr]
      simp [perform_io_wrote_res, hz.1, hsz]
    · rw [run_sync_loop, hr]
      simp [perform_io_read_res, hz.2, hsz]
  · intro n hn h0
    rw [hr]
    have hne : ¬ ((n : Int) = 0 ∧ io1.io_size ≠ 0) := by
      rintro ⟨h1, h2⟩
      exact h2 (h0 (by exact_mod_cast h1))
    simp only [perform_io_wrote_res, Nat.min_eq_left hn]
    rw [if_neg (by omega), if_neg hne]
    simp
  · intro data hn h0
    rw [hr]
    have hne : ¬ (((data.length : Nat) : Int) = 0 ∧ io1.io_size ≠ 0) := by
      rintro ⟨h1, h2⟩
      exact h2 (h0 (List.length_eq_zero.mp (by exact_mod_cast h1)))
    simp only [perform_io_read_res, List.take_of_length_le hn]
    rw [if_neg (by omega), if_neg hne]
    simp

/-- C32, an instance: the first step of a two-byte write, the 20-byte request.  A broken
pipe ends the run with the protocol error and the next event is not looked at; a
cancellation error goes back to the state machine as `io_res = 0`, `io_cancelled = TRUE`. -/
theorem sync_result_translation_witness :
    (run_sync_loop sampleConstants
        (iterate_write_state_machine sampleConstants ByteOrder.G_BIG_ENDIAN (fun _ => 0)) true
        (⟨false, .error { domain := ascii "g-io-error", code := 32
                          message := ascii "Broken pipe" }⟩ :: [⟨false, .wrote 20⟩])
        { file := g_file_output_stream_daemon_new false 0, io_data := io_data_zero
          data := write_operation_new [7, 8] 2, chan := { wire := [], steps := [] } }).map
        (fun out => (out.ok, out.error, out.op.state, out.chan.steps.length))
      = some (false,
          some { domain := ascii "g-file-error-quark", code := 21
                 message := ascii "Error in stream protocol: Broken pipe" },
          .WRITE_STATE_WROTE_COMMAND, 1) ∧
    (sync_round sampleConstants
        (iterate_write_state_machine sampleConstants ByteOrder.G_BIG_ENDIAN (fun _ => 0)) true
        ⟨false, .error { domain := ascii "g-vfs-error-quark", code := 19
                         message := ascii "Operation was cancelled" }⟩
        { file := g_file_output_stream_daemon_new false 0, io_data := io_data_zero
          data := write_operation_new [7, 8] 2, chan := { wire := [], steps := [] } }).map
        (fun r => r.elim (fun _ => none) (fun t => some (t.io_data.io_res, t.io_data.io_cancelled)))
      = some (some (0, true)) :=
  ⟨by
    rw [(sync_result_translation sampleConstants
      (iterate_write_state_machine sampleConstants ByteOrder.G_BIG_ENDIAN (fun _ => 0)) true
      false
      { file := g_file_output_stream_daemon_new false 0, io_data := io_data_zero
        data := write_operation_new [7, 8] 2, chan := { wire := [], steps := [] } }
      .STATE_OP_WRITE _ _ _ rfl (by decide)).2.1 _ _ (by decide)]
    decide,
   by
    rw [(sync_result_translation sampleConstants
      (iterate_write_state_machine sampleConstants ByteOrder.G_BIG_ENDIAN (fun _ => 0)) true
      false
      { file := g_file_output_stream_daemon_new false 0, io_data := io_data_zero
        data := write_operation_new [7, 8] 2, chan := { wire := [], steps := [] } }
      .STATE_OP_WRITE _ _ _ rfl (by decide)).1 _ (by decide)]
    decide⟩

/-- C35: which Write steps may be cancelled.  (1) In each of the write, close and seek
state machines, a call that returns a Write step sets `io_allow_cancel` exactly when the
call started in the initial state of the operation, that is only for the step that first
offers the primary request; the Write steps that offer the rest of a partly accepted
output buffer, the payload, or a CANCEL request all start from a later state and have it
clear.  (2) In every round of the blocking driver, for every state machine, the call
recorded for the step is made with the cancellable exactly when the step has
`io_allow_cancel` set and a cancellable was given.  (3) So in every run of the blocking
driver over one of the three state machines from a fresh operation record, whatever the
events, every write recorded during the run after its first call is made without the
cancellable. -/
theorem allow_cancel_first_step (K : GVfsConstants) (host : ByteOrder) (stale : Nat → Nat) :
    ((∀ file io op step f i o,
        iterate_write_state_machine K host stale (file, io, op) = some (step, (f, i, o)) →
        step = .STATE_OP_WRITE →
        (i.io_allow_cancel = true ↔ op.state = .WRITE_STATE_INIT)) ∧
     (∀ file io op step f i o,
        iterate_close_state_machine K host stale (file, io, op) = some (step, (f, i, o)) →
        step = .STATE_OP_WRITE →
        (i.io_allow_cancel = true ↔ op.state = .CLOSE_STATE_INIT)) ∧
     (∀ file io op step f i o,
        iterate_seek_state_machine K host stale (file, io, op) = some (step, (f, i, o)) →
        step = .STATE_OP_WRITE →
        (i.io_allow_cancel = true ↔ op.state = .SEEK_STATE_INIT))) ∧
    (∀ (Op : Type)
        (iterator : GFileOutputStreamDaemon × IOOperationData × Op →
          Option (StateOp × (GFileOutputStreamDaemon × IOOperationData × Op)))
        (cancellable : Bool) (ev : DriverEvent) (s : DriverState Op)
        (r : DriverOutcome Op ⊕ DriverState Op) (step : StateOp)
        (file1 : GFileOutputStreamDaemon) (io1 : IOOperationData) (op1 : Op),
      sync_round K iterator cancellable ev s = some r →
      iterator (s.file, poll_cancellable cancellable ev.cancelled s.io_data, s.data)
        = some (step, (file1, io1, op1)) →
      step ≠ .STATE_OP_DONE →
      (io_step step io1 cancellable).with_cancellable = (io1.io_allow_cancel && cancellable) ∧
      (match r with
        | .inl out => out.chan.steps
        | .inr s1 => s1.chan.steps) = s.chan.steps ++ [io_step step io1 cancellable]) ∧
    ((∀ cancellable file buffer count events chan out,
        run_sync_state_machine K (iterate_write_state_machine K host stale) file
          (write_operation_new buffer count) cancellable events chan = some out →
        ∃ l, out.chan.steps = chan.steps ++ l ∧
          ∀ st ∈ l.tail, st.kind = .STATE_OP_WRITE → st.with_cancellable = false) ∧
     (∀ cancellable file events chan out,
        run_sync_state_machine K (iterate_close_state_machine K host stale) file
          close_operation_new cancellable events chan = some out →
        ∃ l, out.chan.steps = chan.steps ++ l ∧
          ∀ st ∈ l.tail, st.kind = .STATE_OP_WRITE → st.with_cancellable = false) ∧
     (∀ cancellable file offset type events chan out,
        run_sync_state_machine K (iterate_seek_state_machine K host stale) file
          (seek_operation_new offset type) cancellable events chan = some out →
        ∃ l, out.chan.steps = chan.steps ++ l ∧
          ∀ st ∈ l.tail, st.kind = .STATE_OP_WRITE → st.with_cancellable = false)) := by
  refine ⟨⟨?_, ?_, ?_⟩, ?_, ⟨?_, ?_, ?_⟩⟩
  · intro file io op step f i o h hs
    exact (iterate_write_loop_allow_cancel K host stale 8 file f io i op o step h).2 hs
  · intro file io op step f i o h hs
    exact (iterate_close_loop_allow_cancel K host stale 8 file f io i op o step h).2 hs
  · intro file io op step f i o h hs
    exact (iterate_seek_loop_allow_cancel K host stale 8 file f io i op o step h).2 hs
  · intro Op iterator cancellable ev s r step file1 io1 op1 hr hi hd
    obtain ⟨step2, file2, io2, op2, hi2, _, hn⟩ :=
      sync_round_steps K iterator cancellable ev s r hr
    rw [hi] at hi2
    simp only [Option.some.injEq, Prod.mk.injEq] at hi2
    obtain ⟨rfl, rfl, rfl, rfl⟩ := hi2
    refine ⟨rfl, ?_⟩
    have := hn hd
    cases r with
    | inl out => exact this.2.2
    | inr s1 => exact this.2
  · intro cancellable file buffer count events chan out h
    exact (run_steps_after_first K (iterate_write_state_machine K host stale) cancellable
      (fun op => op.state = .WRITE_STATE_INIT)
      (fun file io op step f i o hi =>
        ⟨(iterate_write_loop_allow_cancel K host stale 8 file f io i op o step hi).1,
         fun hs ha =>
          ((iterate_write_loop_allow_cancel K host stale 8 file f io i op o step hi).2 hs).1 ha⟩)
      events _).2 out h
  · intro cancellable file events chan out h
    exact (run_steps_after_first K (iterate_close_state_machine K host stale) cancellable
      (fun op => op.state = .CLOSE_STATE_INIT)
      (fun file io op step f i o hi =>
        ⟨(iterate_close_loop_allow_cancel K host stale 8 file f io i op o step hi).1,
         fun hs ha =>
          ((iterate_close_loop_allow_cancel K host stale 8 file f io i op o step hi).2 hs).1 ha⟩)
      events _).2 out h
  · intro cancellable file offset type events chan out h
    exact (run_steps_after_first K (iterate_seek_state_machine K host stale) cancellable
      (fun op => op.state = .SEEK_STATE_INIT)
      (fun file io op step f i o hi =>
        ⟨(iterate_seek_loop_allow_cancel K host stale 8 file f io i op o step hi).1,
         fun hs ha =>
          ((iterate_seek_loop_allow_cancel K host stale 8 file f io i op o step hi).2 hs).1 ha⟩)
      events _).2 out h

/-- C35, an instance: a write of two bytes whose request is accepted in two parts, which is
cancelled once its payload is out and whose CANCEL request is accepted in part before the
command channel fails.  Of the five calls the driver makes, all writes, only the first, the
write of the whole request, is made with the cancellable. -/
theorem allow_cancel_first_step_witness :
    sampleCancelledWrite.chan.steps.map (fun st => (st.kind, st.size, st.with_cancellable))
      = [(.STATE_OP_WRITE, 20, true), (.STATE_OP_WRITE, 8, false), (.STATE_OP_WRITE, 2, false),
         (.STATE_OP_WRITE, 20, false), (.STATE_OP_WRITE, 8, false)] ∧
    ∃ l, sampleCancelledWrite.chan.steps = [] ++ l ∧
      ∀ st ∈ l.tail, st.kind = .STATE_OP_WRITE → st.with_cancellable = false :=
  ⟨by decide,
   (allow_cancel_first_step sampleConstants ByteOrder.G_BIG_ENDIAN (fun _ => 0)).2.2.1
     true (g_file_output_stream_daemon_new false 0) [7, 8] 2
     [⟨false, .wrote 12⟩, ⟨false, .wrote 8⟩, ⟨false, .wrote 2⟩, ⟨true, .wrote 12⟩,
      ⟨true, .error { domain := ascii "g-file-error-quark", code := 32
                      message := ascii "Broken pipe" }⟩]
     { wire := [], steps := [] } sampleCancelledWrite (by rfl)⟩

/-- C34: what `g_file_output_stream_daemon_close` does once the CLOSE handshake has ended.
Take any stream, any events that make the handshake end, with whatever outcome (the driver
returned TRUE and the operation succeeded, the driver returned TRUE and the operation
failed with a remote error or by cancellation, or the driver returned FALSE on a transport
failure), and whatever the two channel closes report.  Then the function returns; it has
closed the command channel and then the data channel, once each, and nothing else; it
returns TRUE exactly when the handshake, the close of the command channel and the close of
the data channel all succeeded, and then no error is set; and when it returns FALSE the
error is that of the first of the three that failed: the driver's, else the operation's,
else that of the command channel, else that of the data channel. -/
theorem close_closes_both_channels (K : GVfsConstants) (host : ByteOrder)
    (stale : Nat → Nat) (file : GFileOutputStreamDaemon) (cancellable : Bool)
    (events : List DriverEvent) (chan : Channels) (command_close data_close : Option GError)
    (out : DriverOutcome CloseOperation)
    (hrun : run_sync_state_machine K (iterate_close_state_machine K host stale) file
        close_operation_new cancellable events chan = some out) :
    ∃ r, g_file_output_stream_daemon_close K host stale file cancellable events chan
        command_close data_close = some r ∧
      r.closes.map (fun c => c.channel) = [.command_stream, .data_stream] ∧
      (r.ret = 1 ∨ r.ret = 0) ∧
      (r.ret = 1 ↔ (out.ok = true ∧ out.op.ret_val ≠ 0 ∧ command_close = none ∧
        data_close = none)) ∧
      (r.ret = 1 → r.error = none) ∧
      (r.ret = 0 →
        r.error = if out.ok = false then out.error
                  else if out.op.ret_val = 0 then out.op.ret_error
                  else if command_close ≠ none then command_close
                  else data_close) := by
  refine ⟨close_finish out command_close data_close, ?_, ?_⟩
  · simp [g_file_output_stream_daemon_close, hrun]
  · obtain ⟨ok, err, f, op, ch⟩ := out
    obtain ⟨st, rv, re, sc, sq⟩ := op
    cases ok <;> cases command_close <;> cases data_close <;>
      by_cases hrv : rv = 0 <;> simp [close_finish, hrv]

/-- C34, instances on a fresh stream.  A handshake cancelled before the first byte of its
request, followed by a command channel whose close fails: FALSE with the error of the
handshake.  A handshake broken by the transport: FALSE with the error of the driver.  In
each case both channels are closed, the command channel first. -/
theorem close_closes_both_channels_witness :
    ((g_file_output_stream_daemon_close sampleConstants ByteOrder.G_BIG_ENDIAN (fun _ => 0)
        (g_file_output_stream_daemon_new false 0) true
        [⟨true, .error { domain := ascii "g-vfs-error-quark", code := 19
                         message := ascii "Operation was cancelled" }⟩, ⟨true, .wrote 0⟩]
        { wire := [], steps := [] }
        (some { domain := ascii "g-io", code := 5, message := ascii "lost" }) none).map
        (fun r => (r.ret, r.error, r.closes.map (fun c => c.channel)))
      = some (0, some { domain := ascii "g-vfs-error-quark", code := 19
                        message := ascii "Operation was cancelled" },
              [.command_stream, .data_stream]) ∧
     (g_file_output_stream_daemon_close sampleConstants ByteOrder.G_BIG_ENDIAN (fun _ => 0)
        (g_file_output_stream_daemon_new false 0) true
        [⟨false, .error { domain := ascii "g-io", code := 32, message := ascii "Broken pipe" }⟩]
        { wire := [], steps := [] } none none).map
        (fun r => (r.ret, r.error, r.closes.map (fun c => c.channel)))
      = some (0, some { domain := ascii "g-file-error-quark", code := 21
                        message := ascii "Error in stream protocol: Broken pipe" },
              [.command_stream, .data_stream])) ∧
    ∃ r, g_file_output_stream_daemon_close sampleConstants ByteOrder.G_BIG_ENDIAN (fun _ => 0)
        (g_file_output_stream_daemon_new false 0) true
        [⟨true, .error { domain := ascii "g-vfs-error-quark", code := 19
                         message := ascii "Operation was cancelled" }⟩, ⟨true, .wrote 0⟩]
        { wire := [], steps := [] }
        (some { domain := ascii "g-io", code := 5, message := ascii "lost" }) none = some r ∧
      r.closes.map (fun c => c.channel) = [.command_stream, .data_stream] ∧
      (r.ret = 1 ∨ r.ret = 0) ∧
      (r.ret = 1 ↔ (sampleCancelledClose.ok = true ∧ sampleCancelledClose.op.ret_val ≠ 0 ∧
        some ({ domain := ascii "g-io", code := 5, message := ascii "lost" } : GError) = none ∧
        (none : Option GError) = none)) ∧
      (r.ret = 1 → r.error = none) ∧
      (r.ret = 0 →
        r.error = if sampleCancelledClose.ok = false then sampleCancelledClose.error
                  else if sampleCancelledClose.op.ret_val = 0 then
                    sampleCancelledClose.op.ret_error
                  else if some ({ domain := ascii "g-io", code := 5
                                  message := ascii "lost" } : GError) ≠ none then
                    some { domain := ascii "g-io", code := 5, message := ascii "lost" }
                  else none) :=
  ⟨⟨by decide, by decide⟩,
   close_closes_both_channels sampleConstants ByteOrder.G_BIG_ENDIAN (fun _ => 0)
     (g_file_output_stream_daemon_new false 0) true
     [⟨true, .error { domain := ascii "g-vfs-error-quark", code := 19
                      message := ascii "Operation was cancelled" }⟩, ⟨true, .wrote 0⟩]
     { wire := [], steps := [] }
     (some { domain := ascii "g-io", code := 5, message := ascii "lost" }) none
     sampleCancelledClose (by rfl)⟩

/-- C33: the blocking and the cooperative driver over the same state machine.  For every
state machine, stream, operation record, events (each an I/O result, a count or an error,
and a value of the cancellation flag) and channels: when a cancellable is passed, or when
the state machine leaves the `cancelled` field of the step descriptor alone, (1) the two
drivers call the iterator with the same values of `cancelled`, `io_res` and
`io_cancelled`, (2) they are in the same state between rounds, with the same I/O calls
recorded, each made with or without the cancellable alike, (3) the cooperative driver ends
when the blocking one does, with the same memory, operation record and channels, and
hands its completion function the error the blocking driver stores, and (4) the blocking
driver returns TRUE exactly when that error is absent.  The write, close and seek state
machines leave `cancelled` alone, so for them this holds with and without a cancellable. -/
theorem sync_async_equivalence (K : GVfsConstants) :
    (∀ (Op : Type)
        (iterator : GFileOutputStreamDaemon × IOOperationData × Op →
          Option (StateOp × (GFileOutputStreamDaemon × IOOperationData × Op)))
        (cancellable : Bool) (file : GFileOutputStreamDaemon) (data : Op)
        (events : List DriverEvent) (chan : Channels),
      (cancellable = true ∨
        ∀ conf r, iterator conf = some r → r.2.2.1.cancelled = conf.2.1.cancelled) →
      async_calls K iterator cancellable events
          { file := file, io_data := io_data_zero, data := data, chan := chan }
        = sync_calls K iterator cancellable events
          { file := file, io_data := io_data_zero, data := data, chan := chan } ∧
      run_async_rounds K iterator cancellable events
          { file := file, io_data := io_data_zero, data := data, chan := chan }
        = run_sync_rounds K iterator cancellable events
          { file := file, io_data := io_data_zero, data := data, chan := chan } ∧
      run_async_state_machine K iterator file data cancellable events chan
        = (run_sync_state_machine K iterator file data cancellable events chan).map
            DriverOutcome.as_async ∧
      ∀ out, run_sync_state_machine K iterator file data cancellable events chan = some out →
        (out.ok = true ↔ out.error = none)) ∧
    (∀ (host : ByteOrder) (stale : Nat → Nat) (cancellable : Bool)
        (file : GFileOutputStreamDaemon) (events : List DriverEvent) (chan : Channels),
      (∀ op : WriteOperation,
        async_calls K (iterate_write_state_machine K host stale) cancellable events
            { file := file, io_data := io_data_zero, data := op, chan := chan }
          = sync_calls K (iterate_write_state_machine K host stale) cancellable events
            { file := file, io_data := io_data_zero, data := op, chan := chan } ∧
        run_async_rounds K (iterate_write_state_machine K host stale) cancellable events
            { file := file, io_data := io_data_zero, data := op, chan := chan }
          = run_sync_rounds K (iterate_write_state_machine K host stale) cancellable events
            { file := file, io_data := io_data_zero, data := op, chan := chan } ∧
        run_async_state_machine K (iterate_write_state_machine K host stale) file op
            cancellable events chan
          = (run_sync_state_machine K (iterate_write_state_machine K host stale) file op
              cancellable events chan).map DriverOutcome.as_async) ∧
      (∀ op : CloseOperation,
        async_calls K (iterate_close_state_machine K host stale) cancellable events
            { file := file, io_data := io_data_zero, data := op, chan := chan }
          = sync_calls K (iterate_close_state_machine K host stale) cancellable events
            { file := file, io_data := io_data_zero, data := op, chan := chan } ∧
        run_async_rounds K (iterate_close_state_machine K host stale) cancellable events
            { file := file, io_data := io_data_zero, data := op, chan := chan }
          = run_sync_rounds K (iterate_close_state_machine K host stale) cancellable events
            { file := file, io_data := io_data_zero, data := op, chan := chan } ∧
        run_async_state_machine K (iterate_close_state_machine K host stale) file op
            cancellable events chan
          = (run_sync_state_machine K (iterate_close_state_machine K host stale) file op
              cancellable events chan).map DriverOutcome.as_async) ∧
      (∀ op : SeekOperation,
        async_calls K (iterate_seek_state_machine K host stale) cancellable events
            { file := file, io_data := io_data_zero, data := op, chan := chan }
          = sync_calls K (iterate_seek_state_machine K host stale) cancellable events
            { file := file, io_data := io_data_zero, data := op, chan := chan } ∧
        run_async_rounds K (iterate_seek_state_machine K host stale) cancellable events
            { file := file, io_data := io_data_zero, data := op, chan := chan }
          = run_sync_rounds K (iterate_seek_state_machine K host stale) cancellable events
            { file := file, io_data := io_data_zero, data := op, chan := chan } ∧
        run_async_state_machine K (iterate_seek_state_machine K host stale) file op
            cancellable events chan
          = (run_sync_state_machine K (iterate_seek_state_machine K host stale) file op
              cancellable events chan).map DriverOutcome.as_async)) := by
  have hgen : ∀ (Op : Type)
      (iterator : GFileOutputStreamDaemon × IOOperationData × Op →
        Option (StateOp × (GFileOutputStreamDaemon × IOOperationData × Op)))
      (cancellable : Bool) (file : GFileOutputStreamDaemon) (data : Op)
      (events : List DriverEvent) (chan : Channels),
      (cancellable = true ∨
        ∀ conf r, iterator conf = some r → r.2.2.1.cancelled = conf.2.1.cancelled) →
      async_calls K iterator cancellable events
          { file := file, io_data := io_data_zero, data := data, chan := chan }
        = sync_calls K iterator cancellable events
          { file := file, io_data := io_data_zero, data := data, chan := chan } ∧
      run_async_rounds K iterator cancellable events
          { file := file, io_data := io_data_zero, data := data, chan := chan }
        = run_sync_rounds K iterator cancellable events
          { file := file, io_data := io_data_zero, data := data, chan := chan } ∧
      run_async_state_machine K iterator file data cancellable events chan
        = (run_sync_state_machine K iterator file data cancellable events chan).map
            DriverOutcome.as_async := by
    intro Op iterator cancellable file data events chan h
    exact drivers_equivalent K iterator cancellable events _
      (h.imp id (fun hk => ⟨rfl, hk⟩))
  refine ⟨fun Op iterator cancellable file data events chan h => ?_,
    fun host stale cancellable file events chan => ⟨fun op => ?_, fun op => ?_, fun op => ?_⟩⟩
  · obtain ⟨h1, h2, h3⟩ := hgen Op iterator cancellable file data events chan h
    exact ⟨h1, h2, h3, fun out ho =>
      run_sync_loop_ok_iff K iterator cancellable events _ out ho⟩
  · exact hgen _ _ cancellable file op events chan
      (Or.inr fun conf r hr => iterate_write_loop_cancelled K host stale 8 conf r hr)
  · exact hgen _ _ cancellable file op events chan
      (Or.inr fun conf r hr => iterate_close_loop_cancelled K host stale 8 conf r hr)
  · exact hgen _ _ cancellable file op events chan
      (Or.inr fun conf r hr => iterate_seek_loop_cancelled K host stale 8 conf r hr)

/-- C33, an instance: a write of two bytes on a fresh stream, with a cancellable that is set
once the request is out.  Both drivers call the state machine with `cancelled` clear, then
set, and with the counts 0, 20 and 2 of the calls before. -/
theorem sync_async_equivalence_witness :
    sync_calls sampleConstants
        (iterate_write_state_machine sampleConstants ByteOrder.G_BIG_ENDIAN (fun _ => 0)) true
        [⟨false, .wrote 20⟩, ⟨true, .wrote 2⟩, ⟨true, .wrote 20⟩]
        { file := g_file_output_stream_daemon_new false 0, io_data := io_data_zero
          data := write_operation_new [7, 8] 2, chan := { wire := [], steps := [] } }
      = [(false, 0, false), (true, 20, false), (true, 2, false)] ∧
    async_calls sampleConstants
        (iterate_write_state_machine sampleConstants ByteOrder.G_BIG_ENDIAN (fun _ => 0)) true
        [⟨false, .wrote 20⟩, ⟨true, .wrote 2⟩, ⟨true, .wrote 20⟩]
        { file := g_file_output_stream_daemon_new false 0, io_data := io_data_zero
          data := write_operation_new [7, 8] 2, chan := { wire := [], steps := [] } }
      = sync_calls sampleConstants
        (iterate_write_state_machine sampleConstants ByteOrder.G_BIG_ENDIAN (fun _ => 0)) true
        [⟨false, .wrote 20⟩, ⟨true, .wrote 2⟩, ⟨true, .wrote 20⟩]
        { file := g_file_output_stream_daemon_new false 0, io_data := io_data_zero
          data := write_operation_new [7, 8] 2, chan := { wire := [], steps := [] } } :=
  ⟨by decide,
   ((sync_async_equivalence sampleConstants).1 WriteOperation
      (iterate_write_state_machine sampleConstants ByteOrder.G_BIG_ENDIAN (fun _ => 0)) true
      (g_file_output_stream_daemon_new false 0) (write_operation_new [7, 8] 2)
      [⟨false, .wrote 20⟩, ⟨true, .wrote 2⟩, ⟨true, .wrote 20⟩] { wire := [], steps := [] }
      (Or.inl rfl)).1⟩

/-- C37 (defect): a call of a state machine that awaits the reply does not return on the
streams of the program.  Take a stream whose input buffer is `NULL`, as
`g_file_output_stream_daemon_new` leaves it, and any step descriptor.  For every operation
record in the state that awaits replies with no CANCEL request due (the cancellation flag
clear, or the CANCEL request sent already), the pass through the switch faults and the call
does not return, however many passes it is allowed: so for the write, the close and the
seek state machine.  The loops themselves are bounded: on any stream a call of the write
state machine returns within four passes or never returns, a call of the close or of the
seek state machine within three. -/
theorem iterate_faults_awaiting_reply (K : GVfsConstants) (host : ByteOrder)
    (stale : Nat → Nat) (file : GFileOutputStreamDaemon) (io : IOOperationData)
    (hin : file.input_buffer = none) :
    (∀ op : WriteOperation, op.state = .WRITE_STATE_HANDLE_INPUT →
      (io.cancelled && !op.sent_cancel) = false →
      write_switch K host stale (file, io, op) = .fault ∧
      iterate_write_state_machine K host stale (file, io, op) = none ∧
      ∀ n, iterate_write_loop K host stale n (file, io, op) = none) ∧
    (∀ op : CloseOperation, op.state = .CLOSE_STATE_HANDLE_INPUT →
      (io.cancelled && !op.sent_cancel) = false →
      close_switch K host stale (file, io, op) = .fault ∧
      iterate_close_state_machine K host stale (file, io, op) = none ∧
      ∀ n, iterate_close_loop K host stale n (file, io, op) = none) ∧
    (∀ op : SeekOperation, op.state = .SEEK_STATE_HANDLE_INPUT →
      (io.cancelled && !op.sent_cancel) = false →
      seek_switch K host stale (file, io, op) = .fault ∧
      iterate_seek_state_machine K host stale (file, io, op) = none ∧
      ∀ n, iterate_seek_loop K host stale n (file, io, op) = none) ∧
    (∀ s : WriteConf,
      (∃ r, iterate_write_loop K host stale 4 s = some r ∧
        iterate_write_state_machine K host stale s = some r) ∨
      ∀ n, iterate_write_loop K host stale n s = none) ∧
    (∀ s : CloseConf,
      (∃ r, iterate_close_loop K host stale 3 s = some r ∧
        iterate_close_state_machine K host stale s = some r) ∨
      ∀ n, iterate_close_loop K host stale n s = none) ∧
    (∀ s : SeekConf,
      (∃ r, iterate_seek_loop K host stale 3 s = some r ∧
        iterate_seek_state_machine K host stale s = some r) ∨
      ∀ n, iterate_seek_loop K host stale n s = none) := by
  refine ⟨fun op hst hc => ?_, fun op hst hc => ?_, fun op hst hc => ?_, fun s => ?_,
    fun s => ?_, fun s => ?_⟩
  · have h := write_switch_hi_null K host stale file io op hst hc hin
    exact ⟨h, iterate_write_loop_fault K host stale _ h 8,
      iterate_write_loop_fault K host stale _ h⟩
  · have h := close_switch_hi_null K host stale file io op hst hc hin
    exact ⟨h, iterate_close_loop_fault K host stale _ h 8,
      iterate_close_loop_fault K host stale _ h⟩
  · have h := seek_switch_hi_null K host stale file io op hst hc hin
    exact ⟨h, iterate_seek_loop_fault K host stale _ h 8,
      iterate_seek_loop_fault K host stale _ h⟩
  · rcases iterate_write_loop_returns K host stale s with ⟨r, hr⟩ | hn
    · exact .inl ⟨r, hr, iterate_write_loop_mono K host stale 4 4 s r hr⟩
    · exact .inr hn
  · rcases iterate_close_loop_returns K host stale s with ⟨r, hr⟩ | hn
    · exact .inl ⟨r, hr, iterate_close_loop_mono K host stale 3 5 s r hr⟩
    · exact .inr hn
  · rcases iterate_seek_loop_returns K host stale s with ⟨r, hr⟩ | hn
    · exact .inl ⟨r, hr, iterate_seek_loop_mono K host stale 3 5 s r hr⟩
    · exact .inr hn

/-- C37, an instance: a write of three bytes on a stream made by
`g_file_output_stream_daemon_new`, once the request and the payload are accepted.  The
call of the state machine in that state goes from the payload state to the state that
awaits the reply and does not return; the pass in that state faults. -/
theorem iterate_faults_awaiting_reply_witness :
    (g_file_output_stream_daemon_new false 0).input_buffer = none ∧
    (run_sync_rounds sampleConstants
        (iterate_write_state_machine sampleConstants ByteOrder.G_BIG_ENDIAN (fun _ => 0)) false
        [⟨false, .wrote 20⟩, ⟨false, .wrote 3⟩]
        { file := g_file_output_stream_daemon_new false 0, io_data := io_data_zero
          data := write_operation_new [65, 66, 67] 3, chan := { wire := [], steps := [] } }).map
      (fun s => (s.file.input_buffer, s.data.state,
        (iterate_write_state_machine sampleConstants ByteOrder.G_BIG_ENDIAN (fun _ => 0)
          (s.file, s.io_data, s.data)).isSome))
      = some (none, .WRITE_STATE_SEND_DATA, false) ∧
    (write_switch sampleConstants ByteOrder.G_BIG_ENDIAN (fun _ => 0)
        (g_file_output_stream_daemon_new false 0, io_data_zero,
         { state := .WRITE_STATE_HANDLE_INPUT, buffer := [65, 66, 67], buffer_size := 3
           buffer_pos := 3, ret_val := 0, ret_error := none, sent_cancel := false
           seq_nr := 0 }) = .fault ∧
      iterate_write_state_machine sampleConstants ByteOrder.G_BIG_ENDIAN (fun _ => 0)
        (g_file_output_stream_daemon_new false 0, io_data_zero,
         { state := .WRITE_STATE_HANDLE_INPUT, buffer := [65, 66, 67], buffer_size := 3
           buffer_pos := 3, ret_val := 0, ret_error := none, sent_cancel := false
           seq_nr := 0 }) = none ∧
      ∀ n, iterate_write_loop sampleConstants ByteOrder.G_BIG_ENDIAN (fun _ => 0) n
        (g_file_output_stream_daemon_new false 0, io_data_zero,
         { state := .WRITE_STATE_HANDLE_INPUT, buffer := [65, 66, 67], buffer_size := 3
           buffer_pos := 3, ret_val := 0, ret_error := none, sent_cancel := false
           seq_nr := 0 }) = none) :=
  ⟨rfl, by decide,
   (iterate_faults_awaiting_reply sampleConstants ByteOrder.G_BIG_ENDIAN (fun _ => 0)
      (g_file_output_stream_daemon_new false 0) io_data_zero rfl).1
      { state := .WRITE_STATE_HANDLE_INPUT, buffer := [65, 66, 67], buffer_size := 3
        buffer_pos := 3, ret_val := 0, ret_error := none, sent_cancel := false
        seq_nr := 0 } rfl rfl⟩

/-- C39, the code on payloads without a NUL.  The region `decode_error` is given starts at the
payload; after the `arg2` payload bytes comes the NUL that ends the incoming buffer's
string, and after that whatever the memory holds.  For the payload d, o, m (arg2 = 3) the
domain is read up to that NUL and the message is read from the byte after it: when the
memory there holds l, e, a, k, NUL the message is leak, no byte of which is payload.  For
arg2 = 0 the domain is empty and the message is again read from after the NUL.  Whatever
the memory after the NUL holds, the message is made of it. -/
theorem decode_error_reads_past_payload :
    decode_error { type := 1, seq_nr := 0, arg1 := 5, arg2 := 3 }
        (ascii "dom" ++ [0] ++ ascii "leak" ++ [0])
      = some { domain := ascii "dom", code := 5, message := ascii "leak" } ∧
    decode_error { type := 1, seq_nr := 0, arg1 := 5, arg2 := 0 }
        ([] ++ [0] ++ ascii "leak" ++ [0])
      = some { domain := [], code := 5, message := ascii "leak" } ∧
    (∀ beyond : List Nat,
      decode_error { type := 1, seq_nr := 0, arg1 := 5, arg2 := 3 }
          (ascii "dom" ++ [0] ++ beyond)
        = g_set_error_noargs (ascii "dom") 5 (cstring beyond)) := by
  refine ⟨by decide, by decide, fun beyond => ?_⟩
  have h5 : to_gint 5 = 5 := by decide
  simp [decode_error, cstring, ascii, h5, List.takeWhile]

/-! ## Claims on errors over the message bus -/

/-- C40: an error sent over the message bus and read back.  Take any error whose domain
name is, as C strings are, made of bytes from 1 to 255, whose message holds no NUL, and
any code; and any value of the local `first` that `append_escaped_name` reads without
having set it.  `_dbus_message_new_error_from_gerror` names the bus error
org.glib.GError. followed by the escaped domain, .c and the code in decimal; the escaped
domain is made of letters, digits and underscores only, so it holds no dot; and
`_g_error_from_dbus`, given that name and the message, sets an error with the same domain,
the same code and the same message. -/
theorem dbus_error_round_trip (K : GVfsConstants) (first : Bool) (e : GError)
    (hdb : ∀ b ∈ e.domain, 0 < b ∧ b < 256)
    (hm : ∀ b ∈ e.message, b ≠ 0) :
    (_dbus_message_new_error_from_gerror first e).name
      = ascii "org.glib.GError." ++ append_escaped_name first e.domain ++ ascii ".c"
          ++ format_d e.code ∧
    (∀ x ∈ append_escaped_name first e.domain,
      x ≠ 46 ∧ (x = 95 ∨ (48 ≤ x ∧ x ≤ 57) ∨ (65 ≤ x ∧ x ≤ 90) ∨ (97 ≤ x ∧ x ≤ 122))) ∧
    _g_error_from_dbus K (_dbus_message_new_error_from_gerror first e) = e := by
  have hE := append_escaped_name_bytes first e.domain
  refine ⟨rfl, fun x hx => ⟨by have := hE x hx; omega, hE x hx⟩, ?_⟩
  have hD : ∀ x ∈ format_d e.code, x ≠ 0 ∧ x ≠ 46 := by
    intro x hx
    unfold format_d at hx
    split_ifs at hx
    · simp only [List.mem_cons] at hx
      rcases hx with rfl | hx
      · omega
      · have := decimal_digits_bytes _ _ x hx
        omega
    · have := decimal_digits_bytes _ _ x hx
      omega
  have hdot : ascii ".c" = [46, 99] := by decide
  have hlen : (ascii "org.glib.GError.").length = 16 := by decide
  have hname : (_dbus_message_new_error_from_gerror first e).name
      = ascii "org.glib.GError."
        ++ (append_escaped_name first e.domain ++ 46 :: 99 :: format_d e.code) := by
    simp [_dbus_message_new_error_from_gerror, hdot]
  have hX : ∀ x ∈ append_escaped_name first e.domain ++ 46 :: 99 :: format_d e.code, x ≠ 0 := by
    intro x hx
    simp only [List.mem_append, List.mem_cons] at hx
    rcases hx with hx | rfl | rfl | hx
    · have := hE x hx
      omega
    · omega
    · omega
    · exact (hD x hx).1
  have hdrop : cstring ((_dbus_message_new_error_from_gerror first e).name.drop 16)
      = append_escaped_name first e.domain ++ 46 :: 99 :: format_d e.code := by
    rw [hname, ← hlen, List.drop_left, cstring_of_nonzero _ hX]
  have htake : (append_escaped_name first e.domain ++ 46 :: 99 :: format_d e.code).takeWhile
      (fun b => b != 46) = append_escaped_name first e.domain := by
    rw [List.takeWhile_append_of_pos (fun x hx => by have := hE x hx; simp; omega)]
    simp
  have hpre : (ascii "org.glib.GError.").isPrefixOf
      (_dbus_message_new_error_from_gerror first e).name = true := by
    rw [hname, List.isPrefixOf_iff_prefix]
    exact List.prefix_append _ _
  have hmsg : cstring (_dbus_message_new_error_from_gerror first e).message = e.message := by
    simp only [_dbus_message_new_error_from_gerror]
    rw [cstring_of_nonzero _ hm, cstring_of_nonzero _ hm]
  have hdom : cstring (append_unescaped_dbus_name (append_escaped_name first e.domain))
      = e.domain := by
    rw [append_unescaped_escaped first e.domain hdb]
    exact cstring_of_nonzero _ (fun b hb => by have := hdb b hb; omega)
  unfold _g_error_from_dbus
  rw [if_pos hpre]
  simp only [hdrop, htake, hmsg, hdom]
  rw [if_pos (by simp)]
  simp [atoi_format_d]

/-- C40, an instance: the error (g-vfs-error-quark, -19, Operation was cancelled).  With
`first` set the bus error is named org.glib.GError.g_2Dvfs_2Derror_2Dquark.c-19; with
`first` clear or set the error read back is the one sent. -/
theorem dbus_error_round_trip_witness :
    (_dbus_message_new_error_from_gerror true
        { domain := ascii "g-vfs-error-quark", code := -19
          message := ascii "Operation was cancelled" }).name
      = ascii "org.glib.GError.g_2Dvfs_2Derror_2Dquark.c-19" ∧
    _g_error_from_dbus sampleConstants
        (_dbus_message_new_error_from_gerror true
          { domain := ascii "g-vfs-error-quark", code := -19
            message := ascii "Operation was cancelled" })
      = { domain := ascii "g-vfs-error-quark", code := -19
          message := ascii "Operation was cancelled" } ∧
    _g_error_from_dbus sampleConstants
        (_dbus_message_new_error_from_gerror false
          { domain := ascii "g-vfs-error-quark", code := -19
            message := ascii "Operation was cancelled" })
      = { domain := ascii "g-vfs-error-quark", code := -19
          message := ascii "Operation was cancelled" } :=
  ⟨by decide,
   (dbus_error_round_trip sampleConstants true
      { domain := ascii "g-vfs-error-quark", code := -19
        message := ascii "Operation was cancelled" } (by decide) (by decide)).2.2,
   (dbus_error_round_trip sampleConstants false
      { domain := ascii "g-vfs-error-quark", code := -19
        message := ascii "Operation was cancelled" } (by decide) (by decide)).2.2⟩

end GVfs
